import Mathlib

/-!
# Sales-i daily report runner: a verification development

A shallow embedding of `run-daily-salesi-FIXED.cjs`.

* Part 1 embeds the date helper `yesterdayMMDDYYYY` on top of the ECMAScript
  time-value arithmetic (`Day`, `DayFromYear`, `YearFromTime`, `MonthFromTime`,
  `DateFromTime`, `MakeDay`, `MakeDate`) that defines `Date.prototype.setDate`,
  `getDate`, `getMonth` and `getFullYear`.
* Part 2 embeds the browser/mail/file-system effects as explicit state passing
  over an arbitrary external world, together with the list of effects a
  computation has produced.
* Part 3 embeds the helpers and `run` itself.
  It ends with the vocabulary of the theorems, the statements of the module that run
  before `run()`, and the scan that `setUser` runs in the page.
* Part 4 holds the theorems.
-/

namespace SalesiDaily

/-! ## Part 1. Dates -/

/-- Milliseconds per day (ECMAScript `msPerDay`). -/
def msPerDay : Int := 86400000

/-- ECMAScript `Day(t)`: the day number of a time value. -/
def Day (t : Int) : Int := t / msPerDay

/-- ECMAScript `TimeWithinDay(t)`. -/
def TimeWithinDay (t : Int) : Int := t % msPerDay

/-- ECMAScript `DaysInYear(y)`. -/
def DaysInYear (y : Nat) : Int :=
  if y % 4 ≠ 0 then 365
  else if y % 100 ≠ 0 then 366
  else if y % 400 ≠ 0 then 365
  else 366

/-- ECMAScript `DayFromYear(y)`: day number of 1 January of year `y`. -/
def DayFromYear (y : Nat) : Int :=
  365 * ((y : Int) - 1970) + ((y : Int) - 1969) / 4 - ((y : Int) - 1901) / 100
    + ((y : Int) - 1601) / 400

/-- Largest year a time value can denote (ECMAScript time range). -/
def maxYear : Nat := 275760

/-- ECMAScript `YearFromTime`, on day numbers: the largest year `y` with
`DayFromYear y ≤ day` (years of the common era). -/
def YearFromDay (day : Int) : Nat :=
  Nat.findGreatest (fun y => DayFromYear y ≤ day) maxYear

/-- ECMAScript `InLeapYear`, as 0 or 1. -/
def InLeapYear (y : Nat) : Int := if DaysInYear y = 366 then 1 else 0

/-- ECMAScript `DayWithinYear`. -/
def DayWithinYear (day : Int) : Int := day - DayFromYear (YearFromDay day)

/-- ECMAScript `MonthFromTime` (0 = January), on day numbers. -/
def MonthFromDay (day : Int) : Nat :=
  let n := DayWithinYear day
  let l := InLeapYear (YearFromDay day)
  if n < 31 then 0
  else if n < 59 + l then 1
  else if n < 90 + l then 2
  else if n < 120 + l then 3
  else if n < 151 + l then 4
  else if n < 181 + l then 5
  else if n < 212 + l then 6
  else if n < 243 + l then 7
  else if n < 273 + l then 8
  else if n < 304 + l then 9
  else if n < 334 + l then 10
  else 11

/-- ECMAScript `DateFromTime` (day of the month, from 1), on day numbers. -/
def DateFromDay (day : Int) : Int :=
  let n := DayWithinYear day
  let l := InLeapYear (YearFromDay day)
  match MonthFromDay day with
  | 0 => n + 1
  | 1 => n - 30
  | 2 => n - 58 - l
  | 3 => n - 89 - l
  | 4 => n - 119 - l
  | 5 => n - 150 - l
  | 6 => n - 180 - l
  | 7 => n - 211 - l
  | 8 => n - 242 - l
  | 9 => n - 272 - l
  | 10 => n - 303 - l
  | _ => n - 333 - l

/-- Number of days of year `y` before the first day of month `m` (0 = January). -/
def daysBeforeMonth (y : Nat) (m : Nat) : Int :=
  let l := InLeapYear y
  match m with
  | 0 => 0
  | 1 => 31
  | 2 => 59 + l
  | 3 => 90 + l
  | 4 => 120 + l
  | 5 => 151 + l
  | 6 => 181 + l
  | 7 => 212 + l
  | 8 => 243 + l
  | 9 => 273 + l
  | 10 => 304 + l
  | _ => 334 + l

/-- ECMAScript `MakeDay(year, month, date)`: the day number of the first of the
month plus `date - 1`. -/
def MakeDay (year : Nat) (month : Nat) (date : Int) : Int :=
  let ym := year + month / 12
  let mn := month % 12
  DayFromYear ym + daysBeforeMonth ym mn + date - 1

/-- ECMAScript `MakeDate(day, time)`. -/
def MakeDate (day : Int) (time : Int) : Int := day * msPerDay + time

/-- `Date.prototype.getDate` on a local time value. -/
def getDate (t : Int) : Int := DateFromDay (Day t)

/-- `Date.prototype.getMonth` on a local time value. -/
def getMonth (t : Int) : Nat := MonthFromDay (Day t)

/-- `Date.prototype.getFullYear` on a local time value. -/
def getFullYear (t : Int) : Nat := YearFromDay (Day t)

/-- `Date.prototype.setDate(dt)` on a local time value. -/
def setDate (t : Int) (dt : Int) : Int :=
  MakeDate (MakeDay (YearFromDay (Day t)) (MonthFromDay (Day t)) dt) (TimeWithinDay t)

/-- `String(n)` for an integer: decimal digits, with a minus sign when negative. -/
def jsString (n : Int) : String :=
  match n with
  | Int.ofNat k => Nat.repr k
  | Int.negSucc k => "-" ++ Nat.repr (k + 1)

/-- `String.prototype.padStart(n, c)` for a one-character filler. -/
def padStart (s : String) (n : Nat) (c : Char) : String :=
  String.mk (List.replicate (n - s.length) c) ++ s

/-- `yesterdayMMDDYYYY()`, with the local time value of `new Date()` as argument. -/
def yesterdayMMDDYYYY (now : Int) : String :=
  let d := now
  let d := setDate d (getDate d - 1)
  let mm := padStart (jsString ((getMonth d : Int) + 1)) 2 '0'
  let dd := padStart (jsString (getDate d)) 2 '0'
  let yyyy := getFullYear d
  mm ++ "/" ++ dd ++ "/" ++ jsString (yyyy : Int)

/-! ### Calendar side of the date claim -/

/-- A civil (proleptic Gregorian) calendar date; `month` counts from 1. -/
structure CivilDate where
  year : Nat
  month : Nat
  day : Nat
deriving DecidableEq, Repr

/-- Days in month `m` (from 1) of year `y`. -/
def daysInMonth (y : Nat) (m : Nat) : Nat :=
  match m with
  | 2 => if DaysInYear y = 366 then 29 else 28
  | 4 => 30
  | 6 => 30
  | 9 => 30
  | 11 => 30
  | _ => 31

/-- A date that exists in the calendar. -/
def CivilDate.Valid (c : CivilDate) : Prop :=
  1 ≤ c.month ∧ c.month ≤ 12 ∧ 1 ≤ c.day ∧ c.day ≤ daysInMonth c.year c.month

instance (c : CivilDate) : Decidable c.Valid := by
  unfold CivilDate.Valid; infer_instance

/-- The calendar day immediately before `c`, by the calendar rules. -/
def CivilDate.pred (c : CivilDate) : CivilDate :=
  if 1 < c.day then { c with day := c.day - 1 }
  else if 1 < c.month then
    { year := c.year, month := c.month - 1, day := daysInMonth c.year (c.month - 1) }
  else { year := c.year - 1, month := 12, day := 31 }

/-- The local time value of calendar date `c` at `ms` milliseconds after midnight. -/
def CivilDate.toTime (c : CivilDate) (ms : Int) : Int :=
  MakeDate (MakeDay c.year (c.month - 1) c.day) ms

/-- The ten characters `MM/DD/YYYY` of a date: two-digit month, two-digit day,
four-digit year, each zero-padded. -/
def formatMMDDYYYY (c : CivilDate) : String :=
  String.mk
    [Nat.digitChar (c.month / 10 % 10), Nat.digitChar (c.month % 10), '/',
     Nat.digitChar (c.day / 10 % 10), Nat.digitChar (c.day % 10), '/',
     Nat.digitChar (c.year / 1000 % 10), Nat.digitChar (c.year / 100 % 10),
     Nat.digitChar (c.year / 10 % 10), Nat.digitChar (c.year % 10)]

/-! ## Part 2. Effects

The browser, the mail transport and the file system are an external world of an
arbitrary state type `σ`. Every call the program makes to it is an `Op`; the world
answers with an `Outcome` and moves to a new state. A computation returns a value or
raises, leaves a world behind, and produces the list of its effects, in order.

`page.waitForTimeout` is a call to the page like any other: it can raise (it does once
the page, the context or the browser is closed). The `setTimeout` of `safe` is a delay:
it is recorded and always completes. Writing a log line always succeeds and creates the
log file. `page.setDefaultTimeout` only stores a setting and is not an effect. -/

/-- A representative record of `REPS`. -/
structure Rep where
  name : String
  id : String
deriving DecidableEq, Repr

/-- An attachment of a mail: a file name and the path of the file. -/
structure Attachment where
  filename : String
  path : String
deriving DecidableEq, Repr

/-- The argument of `transporter.sendMail`; `attachments` is `none` for `undefined`. -/
structure Mail where
  sender : String
  recipient : String
  subject : String
  text : String
  attachments : Option (List Attachment)
deriving DecidableEq, Repr

/-- A call to the external world. Locators and selectors are named by their source
text. -/
inductive Op where
  | launch
  | newContext
  | newPage
  | goto (url : String) (waitUntil : Option String)
  | fill (loc : String) (value : String)
  | clear (loc : String)
  | click (loc : String)
  | isVisible (loc : String)
  | scrollIntoViewIfNeeded (loc : String)
  | selectOption (loc : String) (value : String)
  | uncheck (loc : String)
  | waitForURL (pattern : String)
  | waitForLoadState (state : String)
  | waitForSelector (selector : String)
  | waitForFunction (what : String)
  | waitForTimeout (ms : Nat)
  | locationAssign (url : String)
  | selectScan (id : String) (name : String)
  | keyboardPress (key : String)
  | clickSelector (selector : String)
  | goBack
  | screenshot (path : String)
  | content
  | writeFile (path : String)
  | sendMail (mail : Mail)
  | closeContext
  | closeBrowser
deriving DecidableEq, Repr

/-- The answer of the world to a call: a value (a boolean; `true` where the call
returns nothing) or a raised error with its message. -/
inductive Outcome where
  | ok (value : Bool)
  | fail (message : String)
deriving DecidableEq, Repr

/-- A value raised by `throw`. -/
inductive Thrown where
  | undefined
  | error (message : String)
  | external (message : String)
deriving DecidableEq, Repr

/-- The text a raised value is rendered to in a log line or a mail body
(`err?.message || err`, `err?.stack || err`, `${err}`): its message. The stack trace
and the `Error:` heading are not modelled. -/
def Thrown.text : Thrown → String
  | .undefined => "undefined"
  | .error m => m
  | .external m => m

/-- An effect of the program, as it appears in the record of a run. A log line is its
template and the values of its placeholders. -/
inductive Event where
  | log (template : String) (args : List String)
  | op (o : Op) (r : Outcome)
  | wait (ms : Nat)
deriving DecidableEq, Repr

/-- The external world: how it answers each call, and which of the probes of a
`Promise.race` settles first. -/
structure Env (σ : Type) where
  perform : Op → σ → Outcome × σ
  first : σ → Nat

/-- The values read from the process environment, and the constants fixed at start. -/
structure Config where
  SI_USERNAME : String
  SI_PASSWORD : String
  GMAIL_USER : String
  GMAIL_APP_PASS : String
  TO_EMAIL : String
  ALERT_EMAIL : Option String
  OUT_DIR : String
  LOG_DIR : String
  RUN_ID : String
deriving DecidableEq, Repr

/-- The world and the configuration a run works against. -/
structure Ctx (σ : Type) where
  env : Env σ
  cfg : Config

/-- State threaded through a computation: the external world and the files on disk. -/
structure World (σ : Type) where
  ext : σ
  files : List String

/-- Result of a computation: a value or a raised error. -/
inductive Res (α : Type) where
  | ok (a : α)
  | throw (e : Thrown)
deriving DecidableEq, Repr

/-- What a computation leaves behind. -/
structure Ran (σ : Type) (α : Type) where
  res : Res α
  world : World σ
  out : List Event

/-- A computation of the program. -/
def M (σ : Type) (α : Type) : Type := World σ → Ran σ α

/-- Return a value. -/
def M.pure {σ α : Type} (a : α) : M σ α := fun w => ⟨.ok a, w, []⟩

/-- Sequence two computations; a raised error skips the second. -/
def M.bind {σ α β : Type} (m : M σ α) (f : α → M σ β) : M σ β := fun w =>
  match m w with
  | ⟨.ok a, w1, o1⟩ =>
    match f a w1 with
    | ⟨r, w2, o2⟩ => ⟨r, w2, o1 ++ o2⟩
  | ⟨.throw e, w1, o1⟩ => ⟨.throw e, w1, o1⟩

instance {σ : Type} : Monad (M σ) where
  pure := M.pure
  bind := M.bind

/-- The statement `throw e`. -/
def throwE {σ α : Type} (e : Thrown) : M σ α := fun w => ⟨.throw e, w, []⟩

/-- The statement `try m catch (e) h e`. -/
def tryCatch {σ α : Type} (m : M σ α) (h : Thrown → M σ α) : M σ α := fun w =>
  match m w with
  | ⟨.ok a, w1, o1⟩ => ⟨.ok a, w1, o1⟩
  | ⟨.throw e, w1, o1⟩ =>
    match h e w1 with
    | ⟨r, w2, o2⟩ => ⟨r, w2, o1 ++ o2⟩

/-- The statement `try m finally fin`: `fin` always runs; an error raised by `fin`
replaces the result of `m`. -/
def tryFinally {σ α : Type} (m : M σ α) (fin : M σ Unit) : M σ α := fun w =>
  match m w with
  | ⟨r, w1, o1⟩ =>
    match fin w1 with
    | ⟨.ok _, w2, o2⟩ => ⟨r, w2, o1 ++ o2⟩
    | ⟨.throw e, w2, o2⟩ => ⟨.throw e, w2, o1 ++ o2⟩

/-- The promise `m.catch(() => d)`. -/
def orElse {σ α : Type} (m : M σ α) (d : α) : M σ α := tryCatch m (fun _ => M.pure d)

/-- `path.join(dir, name)` for a file name without separators. -/
def pathJoin (dir : String) (name : String) : String := dir ++ "/" ++ name

/-- `path.basename(p)`: the part after the last separator. -/
def basename (p : String) : String :=
  String.mk (p.data.reverse.takeWhile (fun ch => ch != '/')).reverse

/-- The constant `LOG_FILE`. -/
def LOG_FILE (cfg : Config) : String := pathJoin cfg.LOG_DIR ("salesi_" ++ cfg.RUN_ID ++ ".log")

/-- The constant `ALERT_TO`: `ALERT_EMAIL || TO_EMAIL`. -/
def ALERT_TO (cfg : Config) : String :=
  match cfg.ALERT_EMAIL with
  | some a => if a = "" then cfg.TO_EMAIL else a
  | none => cfg.TO_EMAIL

/-- The constant `TENANT_WELCOME`. -/
def TENANT_WELCOME : String := "https://us2t.sales-i.com/Net/RecordCard_v3/welcome.aspx"

/-- Files on disk after a call: a successful screenshot or file write creates its file. -/
def filesAfter (o : Op) (r : Outcome) (files : List String) : List String :=
  match o, r with
  | .screenshot p, .ok _ => files.insert p
  | .writeFile p, .ok _ => files.insert p
  | _, _ => files

/-- What a call raises or returns. -/
def Outcome.toRes : Outcome → Res Bool
  | .ok v => .ok v
  | .fail m => .throw (.external m)

/-- A call to the external world, returning its boolean value. -/
def query {σ : Type} (c : Ctx σ) (o : Op) : M σ Bool := fun w =>
  match c.env.perform o w.ext with
  | (r, s) => ⟨r.toRes, ⟨s, filesAfter o r w.files⟩, [Event.op o r]⟩

/-- A call to the external world whose value is not used. -/
def exec {σ : Type} (c : Ctx σ) (o : Op) : M σ Unit := M.bind (query c o) (fun _ => M.pure ())

/-- The wait `await new Promise(r => setTimeout(r, ms))`: it always completes. -/
def delay {σ : Type} (ms : Nat) : M σ Unit := fun w => ⟨.ok (), w, [Event.wait ms]⟩

/-- The function `log(line)`: appends the line to the log file and standard output. -/
def log {σ : Type} (c : Ctx σ) (template : String) (args : List String) : M σ Unit := fun w =>
  ⟨.ok (), ⟨w.ext, w.files.insert (LOG_FILE c.cfg)⟩, [Event.log template args]⟩

/-- The call `fs.existsSync(p)`. -/
def existsSync {σ : Type} (p : String) : M σ Bool := fun w => ⟨.ok (decide (p ∈ w.files)), w, []⟩

/-- Index of the probe of a `Promise.race` of `n` probes that settles first. -/
def settlesFirst {σ : Type} (c : Ctx σ) (n : Nat) : M σ Nat := fun w =>
  ⟨.ok (c.env.first w.ext % n), w, []⟩

/-- The probe `loc.isVisible().catch(() => false)`. -/
def visibleOrFalse {σ : Type} (c : Ctx σ) (loc : String) : M σ Bool :=
  orElse (query c (.isVisible loc)) false

/-- A `for` loop over a list whose body may `return` a value: the first value
returned ends the loop. -/
def forFirst {σ α β : Type} : List α → (α → M σ (Option β)) → M σ (Option β)
  | [], _ => M.pure none
  | x :: xs, body =>
    M.bind (body x) (fun r =>
      match r with
      | some b => M.pure (some b)
      | none => forFirst xs body)

/-- The statement `if (cond) m`. -/
def whenM {σ : Type} (cond : Bool) (m : M σ Unit) : M σ Unit := if cond then m else M.pure ()

/-! ## Part 3. The program -/

/-- The constant `REPS`. -/
def REPS : List Rep :=
  [ ⟨"Aaron", "215523"⟩,
    ⟨"Barry", "200215321"⟩,
    ⟨"Brandon", "200229612"⟩,
    ⟨"Chris", "200226708"⟩,
    ⟨"Dave", "200226280"⟩,
    ⟨"Murph", "200226279"⟩,
    ⟨"Jeremy", "200224688"⟩,
    ⟨"Jesse", "200223301"⟩,
    ⟨"John", "200230324"⟩,
    ⟨"Kevin", "200223210"⟩,
    ⟨"Kevin Sellers", "200229000"⟩,
    ⟨"Matt Kartz", "200228999"⟩,
    ⟨"Mike", "200221589"⟩,
    ⟨"Trevor", "200227744"⟩ ]

/-- Sender of a report mail. -/
def reportSender (cfg : Config) : String := "\"Sales-i Bot\" <" ++ cfg.GMAIL_USER ++ ">"

/-- Sender of an alert mail. -/
def alertSender (cfg : Config) : String := "\"Sales-i Bot (ALERT)\" <" ++ cfg.GMAIL_USER ++ ">"

/-- The function `sendEmail`. -/
def sendEmail {σ : Type} (c : Ctx σ) (subject text : String)
    (attachments : Option (List Attachment)) : M σ Unit := do
  exec c (.sendMail ⟨reportSender c.cfg, c.cfg.TO_EMAIL, subject, text, attachments⟩)
  log c "Email sent: $1" ["info.messageId"]

/-- The function `sendAlert`: a failure of the transport is logged, not raised. -/
def sendAlert {σ : Type} (c : Ctx σ) (subject text : String)
    (attachments : Option (List Attachment)) : M σ Unit :=
  tryCatch
    (do
      exec c (.sendMail ⟨alertSender c.cfg, ALERT_TO c.cfg, subject, text, attachments⟩)
      log c "ALERT email sent: $1" ["info.messageId"])
    (fun e => log c "ALERT email failed: $1" [e.text])

/-- The loop of `safe`, from iteration `i` with `fuel` iterations left. -/
def safeLoop {σ α : Type} (c : Ctx σ) (actionName : String) (fn : M σ α) (retries delayMs : Nat) :
    Nat → Nat → Thrown → M σ α
  | 0, _, lastErr => throwE lastErr
  | fuel + 1, i, _ =>
    tryCatch fn (fun err => do
      log c "$1 failed (attempt $2/$3): $4"
        [actionName, toString (i + 1), toString (retries + 1), err.text]
      whenM (decide (i < retries)) (delay delayMs)
      safeLoop c actionName fn retries delayMs fuel (i + 1) err)

/-- The function `safe(actionName, fn, retries, delayMs)`; the loop runs for
`i = 0 .. retries`. -/
def safe {σ α : Type} (c : Ctx σ) (actionName : String) (fn : M σ α) (retries delayMs : Nat) :
    M σ α :=
  safeLoop c actionName fn retries delayMs (retries + 1) 0 .undefined

/-- The loop of `safeGoto`, from iteration `i` with `fuel` iterations left. -/
def safeGotoLoop {σ : Type} (c : Ctx σ) (url : String) (attempts : Nat) (waitUntil : String) :
    Nat → Nat → Thrown → M σ Unit
  | 0, _, lastErr => throwE lastErr
  | fuel + 1, i, _ =>
    tryCatch (exec c (.goto url (some waitUntil))) (fun e => do
      log c "safeGoto attempt $1/$2 to $3 failed: $4"
        [toString (i + 1), toString attempts, url, e.text]
      exec c (.waitForTimeout 700)
      let redirected ← tryCatch
        (do
          exec c (.locationAssign url)
          exec c (.waitForLoadState "domcontentloaded")
          pure true)
        (fun _ => pure false)
      if redirected then pure ()
      else safeGotoLoop c url attempts waitUntil fuel (i + 1) e)

/-- The function `safeGoto(page, url, options)`: `attempts` is `options.attempts ?? 6`,
`waitUntil` is `options.waitUntil ?? 'domcontentloaded'`. -/
def safeGoto {σ : Type} (c : Ctx σ) (url : String) (attempts : Option Nat)
    (waitUntil : Option String) : M σ Unit :=
  let attempts := attempts.getD 6
  let waitUntil := waitUntil.getD "domcontentloaded"
  safeGotoLoop c url attempts waitUntil attempts 0 .undefined

/-- The three candidates of `openCORFromWelcome`, in rank order. -/
def corCandidates : List String :=
  [ "card(Call Outcome Report).role(link|button, VIEW REPORT)",
    "role(link, VIEW REPORT).nth(3)",
    "role(link, Call Outcome Report)" ]

/-- One candidate of `openCORFromWelcome`: when it is visible it is clicked and the
function returns true. -/
def corStep {σ : Type} (c : Ctx σ) (loc : String) : M σ (Option Bool) := do
  if (← visibleOrFalse c loc) then do
    exec c (.click loc)
    pure (some true)
  else pure none

/-- The function `openCORFromWelcome`. -/
def openCORFromWelcome {σ : Type} (c : Ctx σ) : M σ Bool := do
  let r ← forFirst corCandidates (corStep c)
  pure (r.getD false)

/-- The nine candidates of `clickFilterBar`, in rank order. -/
def filterBarCandidates : List String :=
  [ "#ctl00_divFilter1 >> text(Filter)",
    ".accordion__title >> hasText(/Filter/i)",
    "role(button, /^Filter$/i)",
    "text(/^Filter$/i)",
    "button:has-text(Filter)",
    "a:has-text(Filter)",
    "div.crm-filter, .crm-filter >> hasText(/Filter/i)",
    "[aria-label*=Filter i]",
    "[title*=Filter i]" ]

/-- Body of the loop of `clickFilterBar` for one candidate: a candidate whose click
raises is logged and skipped. -/
def filterBarStep {σ : Type} (c : Ctx σ) (loc : String) : M σ (Option Bool) :=
  tryCatch
    (do
      if (← visibleOrFalse c loc) then do
        orElse (exec c (.scrollIntoViewIfNeeded loc)) ()
        exec c (.click loc)
        log c "  Successfully clicked filter bar" []
        pure (some true)
      else pure none)
    (fun e => do
      log c "  Filter click candidate failed: $1" [e.text]
      pure none)

/-- The function `clickFilterBar`. -/
def clickFilterBar {σ : Type} (c : Ctx σ) : M σ Bool := do
  log c "  Attempting to click Filter bar..." []
  let r ← forFirst filterBarCandidates (filterBarStep c)
  pure (r.getD false)

/-- The `Promise.race` over the visibility of the start-date field, the end-date field
and the apply button: all three probes are started, the first to settle decides. -/
def filterControlsRace {σ : Type} (c : Ctx σ) : M σ Bool := do
  let a ← visibleOrFalse c "#start-date"
  let b ← visibleOrFalse c "#end-date"
  let d ← visibleOrFalse c "#ctl00_btnApply"
  let k ← settlesFirst c 3
  pure (if k = 0 then a else if k = 1 then b else d)

/-- Body of the loop of `ensureFilterPanel` for the round counted by `attempts`. -/
def panelRound {σ : Type} (c : Ctx σ) (attempts : Nat) : M σ (Option Bool) := do
  log c "  Attempt $1 to open filter panel..." [toString (attempts + 1)]
  let clicked ← clickFilterBar c
  let opened ← (if clicked then do
      exec c (.waitForTimeout 1000)
      filterControlsRace c
    else pure false)
  if opened then do
    log c "  Filter panel opened successfully" []
    pure (some true)
  else do
    exec c (.waitForTimeout 500)
    pure none

/-- The function `ensureFilterPanel`. -/
def ensureFilterPanel {σ : Type} (c : Ctx σ) : M σ Bool := do
  log c "  Checking if filter panel is already open..." []
  let isAlreadyOpen ← filterControlsRace c
  if isAlreadyOpen then do
    log c "  Filter panel is already open" []
    pure true
  else do
    let r ← forFirst (List.range 10) (panelRound c)
    match r with
    | some b => pure b
    | none => do
      log c "  Failed to open filter panel" []
      pure false

/-- One method of `setDateInputs`: if the field located by `loc` is visible, clear it
and fill in the date; a raised error is logged. Returns the new value of `success`. -/
def fillIfVisible {σ : Type} (c : Ctx σ) (loc dateStr okLine failLine : String) : M σ Bool :=
  tryCatch
    (do
      if (← query c (.isVisible loc)) then do
        exec c (.clear loc)
        exec c (.fill loc dateStr)
        log c okLine []
        pure true
      else pure false)
    (fun e => do
      log c failLine [e.text]
      pure false)

/-- The body passed to `safe('Set start date', ...)`. -/
def setStartDate {σ : Type} (c : Ctx σ) (dateStr : String) : M σ Unit := do
  let success ← fillIfVisible c "#start-date" dateStr
    "  ✓ Start date set via #start-date" "  Start date #start-date failed: $1"
  let success ← (if !success then
      fillIfVisible c "input[name=start-date]" dateStr
        "  ✓ Start date set via name attribute" "  Start date name attribute failed: $1"
    else pure success)
  let success ← (if !success then
      fillIfVisible c "label(Start Date:)" dateStr
        "  ✓ Start date set via label" "  Start date label failed: $1"
    else pure success)
  if !success then throwE (.error "Could not set start date with any method")
  else pure ()

/-- The body passed to `safe('Set end date', ...)`. -/
def setEndDate {σ : Type} (c : Ctx σ) (dateStr : String) : M σ Unit := do
  let success ← fillIfVisible c "#end-date" dateStr
    "  ✓ End date set via #end-date" "  End date #end-date failed: $1"
  let success ← (if !success then
      fillIfVisible c "input[name=end-date]" dateStr
        "  ✓ End date set via name attribute" "  End date name attribute failed: $1"
    else pure success)
  let success ← (if !success then
      fillIfVisible c "label(End Date:)" dateStr
        "  ✓ End date set via label" "  End date label failed: $1"
    else pure success)
  if !success then throwE (.error "Could not set end date with any method")
  else pure ()

/-- The body passed to `safe('Dismiss calendar', ...)`. -/
def dismissCalendar {σ : Type} (c : Ctx σ) : M σ Unit := do
  exec c (.keyboardPress "Escape")
  exec c (.waitForTimeout 300)
  orElse (exec c (.clickSelector "body")) ()
  exec c (.waitForTimeout 300)
  let titleVisible ← visibleOrFalse c "h1.page-title"
  whenM titleVisible (exec c (.click "h1.page-title"))
  exec c (.waitForTimeout 500)
  tryCatch (exec c (.waitForFunction "every .xdsoft_datetimepicker hidden"))
    (fun _ => log c "  Warning: Calendar may still be visible, proceeding anyway" [])

/-- The function `setDateInputs`. -/
def setDateInputs {σ : Type} (c : Ctx σ) (dateStr : String) : M σ Unit := do
  log c "  Setting dates to: $1" [dateStr]
  exec c (.waitForTimeout 1000)
  safe c "Set start date" (setStartDate c dateStr) 2 700
  safe c "Set end date" (setEndDate c dateStr) 2 700
  log c "  Dismissing calendar widgets..." []
  safe c "Dismiss calendar" (dismissCalendar c) 2 700
  log c "  Both dates set successfully and calendar dismissed" []

/-- The function `setUser`. The scan of all select controls run inside the page is one
call to the world. -/
def setUser {σ : Type} (c : Ctx σ) (rep : Rep) : M σ Bool := do
  log c "  Setting user to: $1 ($2)" [rep.name, rep.id]
  let viaMain ← tryCatch
    (do
      if (← query c (.isVisible "#ddUser")) then do
        exec c (.selectOption "#ddUser" rep.id)
        log c "  ✓ User set via main dropdown" []
        pure true
      else pure false)
    (fun e => do
      log c "  Main dropdown failed: $1" [e.text]
      pure false)
  if viaMain then pure true
  else do
    let viaScan ← tryCatch
      (do
        let found ← query c (.selectScan rep.id rep.name)
        if found then do
          log c "  ✓ User set via JavaScript" []
          pure true
        else pure false)
      (fun e => do
        log c "  JavaScript selection failed: $1" [e.text]
        pure false)
    if viaScan then pure true else pure false

/-- The five candidates of `clickApply`, in rank order. -/
def applyCandidates : List String :=
  [ "#ctl00_btnApply",
    "role(button, /^Apply Filters$/i)",
    "input[value=Apply Filters]",
    "button.apply",
    ".apply" ]

/-- Body of the loop of `clickApply` for one candidate: the wait for network idle and
the click are started together; a failure of the wait is ignored, a failure of the
click is raised. -/
def applyStep {σ : Type} (c : Ctx σ) (loc : String) : M σ (Option Bool) := do
  if (← visibleOrFalse c loc) then do
    orElse (exec c (.waitForLoadState "networkidle")) ()
    exec c (.click loc)
    log c "  ✓ Apply clicked successfully" []
    pure (some true)
  else pure none

/-- The function `clickApply`. -/
def clickApply {σ : Type} (c : Ctx σ) : M σ Bool := do
  log c "  Clicking Apply Filters..." []
  let r ← forFirst applyCandidates (applyStep c)
  match r with
  | some b => pure b
  | none => do
    log c "  ✗ Could not find Apply button" []
    pure false

/-- The four candidates of the detail link, in rank order. -/
def detailCandidates : List String :=
  [ "#CreatedCount a >> hasText(/Click for detail/i)",
    "role(link, /(Click for detail)/i)",
    "a >> hasText(/Click for detail/i)",
    "span#CreatedCount a" ]

/-- Body of the loop over the detail-link candidates: the first visible one is clicked
and ends the loop. -/
def detailStep {σ : Type} (c : Ctx σ) (candidate : String) : M σ (Option Bool) := do
  if (← visibleOrFalse c candidate) then do
    log c "  Found detail link, clicking..." []
    exec c (.click candidate)
    pure (some true)
  else pure none

/-- The body passed to `safe('Open detail link', ...)`. -/
def openDetail {σ : Type} (c : Ctx σ) (rep : Rep) : M σ Unit := do
  let r ← forFirst detailCandidates (detailStep c)
  let clicked := r.getD false
  (if !clicked then do
      exec c (.screenshot (pathJoin c.cfg.OUT_DIR ("debug-no-detail-link-" ++ rep.name ++ ".png")))
      throwE (.error "Detail link not found - check debug screenshot")
    else pure ())
  exec c (.waitForLoadState "networkidle")
  let hasDetailData ← orElse (query c (.waitForSelector "td:has-text(Customer)")) false
  (if !hasDetailData then do
      exec c (.screenshot (pathJoin c.cfg.OUT_DIR ("debug-wrong-page-" ++ rep.name ++ ".png")))
      throwE (.error "Not on detailed call notes page - check debug screenshot")
    else pure ())
  log c "  Successfully navigated to detailed call notes view" []

/-- The body passed to `safe('Adjust columns (first rep only)', ...)`. -/
def adjustColumns {σ : Type} (c : Ctx σ) : M σ Unit := do
  if (← query c (.isVisible "role(button, /^Columns$/i)")) then do
    exec c (.click "role(button, /^Columns$/i)")
    orElse (exec c (.uncheck "role(checkbox, /^Contact$/i)")) ()
    orElse (exec c (.uncheck "role(checkbox, /^Call Outcome$/i)")) ()
    orElse (exec c (.uncheck "role(checkbox, /^Next Action$/i)")) ()
    orElse (exec c (.click "role(button, /^OK$/i)")) ()
    exec c (.waitForLoadState "networkidle")
    exec c (.waitForTimeout 300)
  else pure ()

/-- The `Promise.race` over the two summary-table headers of the landing page. -/
def landingRace {σ : Type} (c : Ctx σ) : M σ Bool := do
  let a ← visibleOrFalse c "th:has-text(Sales Rep Name)"
  let b ← visibleOrFalse c "th:has-text(Total Calls Made)"
  let k ← settlesFirst c 2
  pure (if k = 0 then a else b)

/-- The navigation of one round of the return to the landing page: the link, else the
list item, else the browser's back-navigation. -/
def navigateBack {σ : Type} (c : Ctx σ) : M σ Unit := do
  let linkVisible ← visibleOrFalse c "role(link, /^Call Outcome Report$/i)"
  if linkVisible then do
    exec c (.click "role(link, /^Call Outcome Report$/i)")
    exec c (.waitForTimeout 2000)
  else do
    let liVisible ← visibleOrFalse c "role(listitem, /Call Outcome Report/i)"
    if liVisible then do
      exec c (.click "role(listitem, /Call Outcome Report/i)")
      exec c (.waitForTimeout 2000)
    else do
      orElse (exec c .goBack) ()
      exec c (.waitForTimeout 2000)

/-- The verification of one round of the return to the landing page: `return` gives
`some ()`; `continue` and the end of the round give `none`. -/
def verifyLanding {σ : Type} (c : Ctx σ) (rep : Rep) (maxAttempts attempts : Nat) :
    M σ (Option Unit) := do
  let isOnLandingPage ← landingRace c
  if isOnLandingPage then do
    log c "  ✓ Successfully navigated to landing page on attempt $1" [toString attempts]
    let stillOnDetailView ← visibleOrFalse c "h1:has-text(CALLS MADE:)"
    if stillOnDetailView then do
      log c "  ✗ False positive - still on detail view, retrying..." []
      pure none
    else pure (some ())
  else do
    log c "  ✗ Not on landing page yet, attempt $1 failed" [toString attempts]
    whenM (attempts == maxAttempts)
      (exec c (.screenshot
        (pathJoin c.cfg.OUT_DIR ("debug-navigation-failed-" ++ rep.name ++ ".png"))))
    exec c (.waitForTimeout 1000)
    pure none

/-- One round of the `while` loop of the return to the landing page, entered with
`attempts = i`. -/
def landingRound {σ : Type} (c : Ctx σ) (rep : Rep) (maxAttempts : Nat) (i : Nat) :
    M σ (Option Unit) := do
  let attempts := i + 1
  log c "  Navigation attempt $1/$2" [toString attempts, toString maxAttempts]
  navigateBack c
  verifyLanding c rep maxAttempts attempts

/-- The body passed to `safe('Return to COR landing with verification', ...)`: the
`while (attempts < maxAttempts)` loop runs its rounds for `attempts` = 0 .. 4. -/
def returnToLanding {σ : Type} (c : Ctx σ) (rep : Rep) : M σ Unit := do
  let maxAttempts := 5
  let r ← forFirst (List.range maxAttempts) (landingRound c rep maxAttempts)
  match r with
  | some _ => pure ()
  | none => throwE (.error "Failed to navigate back to landing page after 5 attempts")

/-- The step of `run` that returns to the landing page between two representatives. -/
def returnStep {σ : Type} (c : Ctx σ) (rep : Rep) : M σ Unit :=
  safe c "Return to COR landing with verification" (returnToLanding c rep) 2 700

/-- The block of `run` that re-opens the filter panel for the next representative. -/
def reopenFilterPanel {σ : Type} (c : Ctx σ) (rep : Rep) : M σ Unit := do
  let panelAgain ← ensureFilterPanel c
  (if !panelAgain then do
      exec c (.screenshot
        (pathJoin c.cfg.OUT_DIR ("debug-filter-panel-failed-after-" ++ rep.name ++ ".png")))
      throwE (.error "Could not re-open Filter panel for next rep")
    else pure ())
  let userDropdownReady ← visibleOrFalse c "#ddUser"
  (if !userDropdownReady then do
      exec c (.screenshot
        (pathJoin c.cfg.OUT_DIR ("debug-user-dropdown-not-ready-after-" ++ rep.name ++ ".png")))
      throwE (.error "User dropdown not accessible after opening filter panel")
    else pure ())
  log c "  ✓ Ready for next rep - filter panel open and user dropdown accessible" []

/-- The block of `run` under `if (i < REPS.length - 1)`. -/
def prepareNextRep {σ : Type} (c : Ctx σ) (rep : Rep) : M σ Unit := do
  log c "  Navigating back to Call Outcome Report landing page..." []
  returnStep c rep
  log c "  Verifying we can access filter controls..." []
  exec c (.waitForTimeout 1000)
  reopenFilterPanel c rep

/-- Whitespace in the sense of the regular expression class `\s`. -/
def isJsSpace (ch : Char) : Bool :=
  decide (ch.toNat ∈ [9, 10, 11, 12, 13, 32, 160, 5760, 8232, 8233, 8239, 8287, 12288, 65279])
    || (decide (8192 ≤ ch.toNat) && decide (ch.toNat ≤ 8202))

/-- The replacement `.replace(/\s+/g, '-')` on characters; `inRun` tells that the
previous character was whitespace. -/
def hyphenate : Bool → List Char → List Char
  | _, [] => []
  | inRun, ch :: rest =>
    if isJsSpace ch then
      if inRun then hyphenate true rest else '-' :: hyphenate true rest
    else ch :: hyphenate false rest

/-- The expression `rep.name.toLowerCase().replace(/\s+/g, '-')` (letters A to Z are
lower-cased). -/
def fileSafe (name : String) : String :=
  String.mk (hyphenate false (name.data.map Char.toLower))

/-- The expression `dateStr.replace(/\//g, '-')`. -/
def dashed (dateStr : String) : String :=
  String.mk (dateStr.data.map (fun ch => if ch = '/' then '-' else ch))

/-- The constant `filePath` of an iteration of the loop of `run`. -/
def reportPath (cfg : Config) (rep : Rep) (dateStr : String) : String :=
  pathJoin cfg.OUT_DIR ("call-outcome_" ++ fileSafe rep.name ++ "_" ++ dashed dateStr ++ ".png")

/-- The report mail of a representative, as `sendEmail` hands it to the transport. -/
def reportMail (cfg : Config) (rep : Rep) (dateStr : String) : Mail :=
  { sender := reportSender cfg
    recipient := cfg.TO_EMAIL
    subject := "Sales-i Call Outcome Report — " ++ rep.name ++ " — " ++ dateStr
    text := "Attached is the Call Outcome Report for " ++ rep.name ++ " for " ++ dateStr ++ "."
    attachments := some [⟨basename (reportPath cfg rep dateStr), reportPath cfg rep dateStr⟩] }

/-- One iteration of the loop of `run`, for `rep = REPS[i]` with `n = REPS.length`. -/
def processRep {σ : Type} (c : Ctx σ) (dateStr : String) (n i : Nat) (rep : Rep) : M σ Unit := do
  log c "--- Running $1 ($2) ---" [rep.name, rep.id]
  let filePath := reportPath c.cfg rep dateStr
  setDateInputs c dateStr
  let userOK ← setUser c rep
  (if !userOK then
      throwE (.error ("Could not set user for " ++ rep.name ++ " (" ++ rep.id ++ ")"))
    else pure ())
  let applied ← clickApply c
  (if !applied then throwE (.error "Could not click Apply Filters") else pure ())
  exec c (.waitForTimeout 3000)
  safe c "Open detail link" (openDetail c rep) 2 700
  whenM (i == 0) (safe c "Adjust columns (first rep only)" (adjustColumns c) 2 700)
  safe c "Screenshot" (exec c (.screenshot filePath)) 2 700
  log c "Saved: $1" [filePath]
  safe c "Email report"
    (sendEmail c ("Sales-i Call Outcome Report — " ++ rep.name ++ " — " ++ dateStr)
      ("Attached is the Call Outcome Report for " ++ rep.name ++ " for " ++ dateStr ++ ".")
      (some [⟨basename filePath, filePath⟩])) 2 700
  log c "Completed: $1" [rep.name]
  whenM (decide (i < n - 1)) (prepareNextRep c rep)

/-- The loop `for (let i = 0; i < REPS.length; i++)` of `run`, from index `i` over the
representatives still to visit. -/
def repLoop {σ : Type} (c : Ctx σ) (dateStr : String) (n : Nat) : Nat → List Rep → M σ Unit
  | _, [] => M.pure ()
  | i, rep :: rest => M.bind (processRep c dateStr n i rep) (fun _ => repLoop c dateStr n (i + 1) rest)

/-- The first part of the `try` block of `run`: log in, load the welcome page and open
the Call Outcome Report. -/
def openReport {σ : Type} (c : Ctx σ) : M σ Unit := do
  log c "Logging in…" []
  exec c (.goto "https://login.sales-i.com/Account/Login" none)
  exec c (.fill "role(textbox, UserName)" c.cfg.SI_USERNAME)
  exec c (.click "role(button, Next)")
  exec c (.fill "role(textbox, Password)" c.cfg.SI_PASSWORD)
  exec c (.click "role(button, Sign in)")
  exec c (.waitForURL "/us2t\\.sales-i\\.com/i")
  orElse (exec c (.waitForLoadState "networkidle")) ()
  log c "Navigating to: $1" [TENANT_WELCOME]
  safeGoto c TENANT_WELCOME (some 6) (some "domcontentloaded")
  orElse (exec c (.waitForLoadState "networkidle")) ()
  log c "Opening Call Outcome Report…" []
  let opened ← openCORFromWelcome c
  (if !opened then throwE (.error "Could not open Call Outcome Report from welcome")
    else pure ())
  exec c (.waitForLoadState "domcontentloaded")

/-- The `try` block of `run`. -/
def runBody {σ : Type} (c : Ctx σ) (reps : List Rep) (dateStr : String) : M σ Unit := do
  openReport c
  log c "Opening Filter panel…" []
  let panelOK ← ensureFilterPanel c
  (if !panelOK then throwE (.error "Could not open Filter panel") else pure ())
  exec c (.screenshot (pathJoin c.cfg.OUT_DIR "debug-filter-panel.png"))
  log c "Debug screenshot taken" []
  repLoop c dateStr reps.length 0 reps
  log c "All reps processed." []

/-- Path of the fatal screenshot. -/
def fatalShotPath (cfg : Config) : String := pathJoin cfg.OUT_DIR ("FATAL_" ++ cfg.RUN_ID ++ ".png")

/-- Path of the fatal page markup. -/
def fatalHtmlPath (cfg : Config) : String := pathJoin cfg.OUT_DIR ("FATAL_" ++ cfg.RUN_ID ++ ".html")

/-- The attachment list `atts` after `if (fs.existsSync(LOG_FILE)) atts.push(...)`. -/
def logAttachments (cfg : Config) (hasLog : Bool) : List Attachment :=
  if hasLog then [⟨basename (LOG_FILE cfg), LOG_FILE cfg⟩] else []

/-- The attachment list `atts` built in the `catch` block of `run`. -/
def fatalAttachments (cfg : Config) (hasLog hasShot : Bool) : List Attachment :=
  let atts := logAttachments cfg hasLog
  if hasShot then atts ++ [⟨basename (fatalShotPath cfg), fatalShotPath cfg⟩] else atts

/-- The expression `atts.length ? atts : undefined`. -/
def orUndefined (atts : List Attachment) : Option (List Attachment) :=
  if atts.length = 0 then none else some atts

/-- The `catch (fatal)` block of `run`. -/
def onFatal {σ : Type} (c : Ctx σ) (fatal : Thrown) : M σ Unit := do
  log c "FATAL: $1" [fatal.text]
  tryCatch
    (do
      exec c (.screenshot (fatalShotPath c.cfg))
      log c "Fatal screenshot saved: $1" [fatalShotPath c.cfg])
    (fun _ => pure ())
  tryCatch
    (do
      exec c .content
      exec c (.writeFile (fatalHtmlPath c.cfg))
      log c "Fatal HTML saved: $1" [fatalHtmlPath c.cfg])
    (fun _ => pure ())
  let hasLog ← existsSync (LOG_FILE c.cfg)
  let hasShot ← existsSync (fatalShotPath c.cfg)
  sendAlert c ("ALERT: Sales-i daily run FAILED (RunID " ++ c.cfg.RUN_ID ++ ")")
    ("Fatal error.\nRunID: " ++ c.cfg.RUN_ID ++ "\n\n" ++ fatal.text)
    (orUndefined (fatalAttachments c.cfg hasLog hasShot))
  throwE fatal

/-- The `finally` block of `run`. -/
def cleanup {σ : Type} (c : Ctx σ) : M σ Unit := do
  orElse (exec c .closeContext) ()
  orElse (exec c .closeBrowser) ()
  log c "Run finished." []

/-- The statements of `run` before its `try` block: the start line of the log, then the
browser, the browsing context and the page are acquired. -/
def acquire {σ : Type} (c : Ctx σ) (dateStr : String) : M σ Unit := do
  log c "Run started. Date=$1, Output=$2, LogFile=$3" [dateStr, c.cfg.OUT_DIR, LOG_FILE c.cfg]
  exec c .launch
  exec c .newContext
  exec c .newPage

/-- The function `run`, for the representatives `reps` and the local time `now` of
its start. -/
def run {σ : Type} (c : Ctx σ) (reps : List Rep) (now : Int) : M σ Unit :=
  M.bind (acquire c (yesterdayMMDDYYYY now)) (fun _ =>
    tryFinally (tryCatch (runBody c reps (yesterdayMMDDYYYY now)) (onFatal c)) (cleanup c))

/-- The top level `run().catch(...)`: the exit status of the process, 1 after
`process.exit(1)` and 0 when `run` completes. -/
def main {σ : Type} (c : Ctx σ) (reps : List Rep) (now : Int) : M σ Nat :=
  tryCatch
    (do
      run c reps now
      pure 0)
    (fun err => do
      log c "Top-level catch: $1" [err.text]
      let hasLog ← existsSync (LOG_FILE c.cfg)
      sendAlert c ("ALERT: Sales-i script crashed (RunID " ++ c.cfg.RUN_ID ++ ")") err.text
        (orUndefined (logAttachments c.cfg hasLog))
      pure 1)

/-! ## Vocabulary of the claims -/

/-- The page never reports the element located by `loc` visible. -/
def NeverVisible {σ : Type} (c : Ctx σ) (loc : String) : Prop :=
  ∀ s, (c.env.perform (.isVisible loc) s).1 ≠ .ok true

/-- The page always reports the element located by `loc` visible. -/
def AlwaysVisible {σ : Type} (c : Ctx σ) (loc : String) : Prop :=
  ∀ s, (c.env.perform (.isVisible loc) s).1 = .ok true

/-- An outcome that is not a raised error. -/
def Outcome.isOk : Outcome → Bool
  | .ok _ => true
  | .fail _ => false

/-- The call `o` never raises. -/
def Succeeds {σ : Type} (c : Ctx σ) (o : Op) : Prop :=
  ∀ s, (c.env.perform o s).1.isOk = true

/-- The locators clicked in a record, in order (every `click` call, whatever its outcome). -/
def clicksOf (out : List Event) : List String :=
  out.filterMap (fun e => match e with | .op (.click l) _ => some l | _ => none)

/-- An event that is a log line written from `template`. -/
def isLog (template : String) (e : Event) : Bool :=
  match e with
  | .log t _ => decide (t = template)
  | _ => false

/-- Number of log lines of a record written from `template`. -/
def countLog (template : String) (out : List Event) : Nat :=
  out.countP (isLog template)

/-- An event that is neither a log line written from one of the templates `ts` nor a
call selected by `ops`. -/
def silentEvent (ts : List String) (ops : Op → Bool) (e : Event) : Bool :=
  match e with
  | .log t _ => !decide (t ∈ ts)
  | .op o _ => !ops o
  | .wait _ => true

/-- A computation that, from every world, writes no log line from the templates `ts`
and makes no call selected by `ops`. -/
structure Silent {σ α : Type} (ts : List String) (ops : Op → Bool) (m : M σ α) : Prop where
  silent : ∀ w, ∀ e ∈ (m w).out, silentEvent ts ops e = true

/-- Selects the screenshot calls. -/
def isShot (o : Op) : Bool :=
  match o with
  | .screenshot _ => true
  | _ => false

/-- Selects the calls to the mail transport. -/
def isMail (o : Op) : Bool :=
  match o with
  | .sendMail _ => true
  | _ => false

/-- Selects no call. -/
def noOp (_ : Op) : Bool := false

/-- The argument lists of the log lines of a record written from `template`, in order. -/
def logArgs (template : String) (out : List Event) : List (List String) :=
  out.filterMap (fun e => match e with
    | .log t a => if t = template then some a else none
    | _ => none)

/-- The screenshot files written in a record: the paths of the screenshot calls that
succeeded, in order. -/
def shotsTaken (out : List Event) : List String :=
  out.filterMap (fun e => match e with | .op (.screenshot p) (.ok _) => some p | _ => none)

/-- The screenshot calls of a record, in order, whatever their outcome. -/
def shotCalls (out : List Event) : List String :=
  out.filterMap (fun e => match e with | .op (.screenshot p) _ => some p | _ => none)

/-- The mails handed to the transport in a record, in order, whatever the outcome. -/
def mailCalls (out : List Event) : List Mail :=
  out.filterMap (fun e => match e with | .op (.sendMail m) _ => some m | _ => none)

/-- The mails the transport accepted in a record, in order. -/
def mailsSent (out : List Event) : List Mail :=
  out.filterMap (fun e => match e with | .op (.sendMail m) (.ok _) => some m | _ => none)

/-- The calls to the external world of a record, in order, without their outcomes. -/
def callsOf (out : List Event) : List Op :=
  out.filterMap (fun e => match e with | .op o _ => some o | _ => none)

/-- The three ranked-fallback click operations, each with its candidates in rank order. -/
def rankedOps {σ : Type} (c : Ctx σ) : List (List String × M σ Bool) :=
  [ (applyCandidates, clickApply c),
    (corCandidates, openCORFromWelcome c),
    (filterBarCandidates, clickFilterBar c) ]

/-- An event that is not a click. -/
def NoClick (e : Event) : Prop := ∀ l r, e ≠ Event.op (.click l) r

/-- The three controls of the filter panel are never reported visible. -/
def PanelHidden {σ : Type} (c : Ctx σ) : Prop :=
  NeverVisible c "#start-date" ∧ NeverVisible c "#end-date" ∧ NeverVisible c "#ctl00_btnApply"

/-- The log line that opens every call of `clickFilterBar`. -/
def filterBarLine : String := "  Attempting to click Filter bar..."

/-- A configuration for the concrete runs. -/
def sampleConfig : Config :=
  { SI_USERNAME := "user", SI_PASSWORD := "secret", GMAIL_USER := "bot@example.com",
    GMAIL_APP_PASS := "app-pass", TO_EMAIL := "team@example.com", ALERT_EMAIL := none,
    OUT_DIR := "/srv/screenshots", LOG_DIR := "/srv/logs", RUN_ID := "2024-03-02T06-00-00-000Z" }

/-- The world before a run: nothing on disk. -/
def emptyWorld : World Unit := ⟨(), []⟩

/-- A page on which every element is visible and every call succeeds, except that the
click on the first filter-bar candidate raises. -/
def firstFilterClickFails : Ctx Unit :=
  { env :=
      { perform := fun o s =>
          match o with
          | .click "#ctl00_divFilter1 >> text(Filter)" =>
            (.fail "element intercepts pointer events", s)
          | _ => (.ok true, s)
        first := fun _ => 0 }
    cfg := sampleConfig }

/-- A page on which only the second candidate of each ranked operation is visible, and
every other call succeeds. -/
def secondCandidateOnly : Ctx Unit :=
  { env :=
      { perform := fun o s =>
          match o with
          | .isVisible loc =>
            (.ok (loc == "role(button, /^Apply Filters$/i)"
              || loc == "role(link, VIEW REPORT).nth(3)"
              || loc == ".accordion__title >> hasText(/Filter/i)"), s)
          | _ => (.ok true, s)
        first := fun _ => 0 }
    cfg := sampleConfig }

/-- A page on which nothing is ever visible; every call succeeds, except screenshots when
`shotsFail` is set. -/
def nothingVisible (shotsFail : Bool) : Ctx Unit :=
  { env :=
      { perform := fun o s =>
          match o with
          | .isVisible _ => (.ok false, s)
          | .screenshot _ => (if shotsFail then .fail "page crashed" else .ok true, s)
          | _ => (.ok true, s)
        first := fun _ => 0 }
    cfg := sampleConfig }

/-- Path of the debug screenshot taken when the filter panel cannot be re-opened. -/
def panelFailedShot (cfg : Config) (rep : Rep) : String :=
  pathJoin cfg.OUT_DIR ("debug-filter-panel-failed-after-" ++ rep.name ++ ".png")

/-- Number of `page.goto` calls in a record. -/
def gotoCount (out : List Event) : Nat :=
  out.countP (fun e => match e with | .op (.goto _ _) _ => true | _ => false)

/-- Number of in-page redirects (`window.location.assign`) started in a record. -/
def redirectCount (out : List Event) : Nat :=
  out.countP (fun e => match e with | .op (.locationAssign _) _ => true | _ => false)

/-- The messages of the `page.goto` calls of a record that raised, in order. -/
def gotoErrors (out : List Event) : List String :=
  out.filterMap (fun e => match e with | .op (.goto _ _) (.fail m) => some m | _ => none)

/-- An event that completes a page load: a `page.goto` that succeeded, or the wait for
the load state that succeeded after an in-page redirect. -/
def loaded (e : Event) : Bool :=
  match e with
  | .op (.goto _ _) (.ok _) => true
  | .op (.waitForLoadState _) (.ok _) => true
  | _ => false

/-- The value `safeGoto` raises after the `page.goto` failures `errs`: the error of the
last one, and the unassigned `lastErr` when there was none. -/
def lastGotoError (errs : List String) (lastErr : Thrown) : Thrown :=
  match errs.getLast? with
  | some m => .external m
  | none => lastErr

/-- The log line that opens every navigation round of the return to the landing page. -/
def navLine : String := "  Navigation attempt $1/$2"

/-- Neither header of the landing page is ever reported visible. -/
def LandingHidden {σ : Type} (c : Ctx σ) : Prop :=
  NeverVisible c "th:has-text(Sales Rep Name)" ∧ NeverVisible c "th:has-text(Total Calls Made)"

/-- Path of the debug screenshot taken in the last round of a failed return to the
landing page. -/
def navFailedShot (cfg : Config) (rep : Rep) : String :=
  pathJoin cfg.OUT_DIR ("debug-navigation-failed-" ++ rep.name ++ ".png")

/-- The calls to the external world of a record with their outcomes, in order. -/
def opEvents (out : List Event) : List (Op × Outcome) :=
  out.filterMap (fun e => match e with | .op o r => some (o, r) | _ => none)

/-- The alert mail of the `catch` block of `run`, with the log file attached and the
fatal screenshot attached when `hasShot`. -/
def fatalAlert (cfg : Config) (fatal : Thrown) (hasShot : Bool) : Mail :=
  { sender := alertSender cfg
    recipient := ALERT_TO cfg
    subject := "ALERT: Sales-i daily run FAILED (RunID " ++ cfg.RUN_ID ++ ")"
    text := "Fatal error.\nRunID: " ++ cfg.RUN_ID ++ "\n\n" ++ fatal.text
    attachments := orUndefined (fatalAttachments cfg true hasShot) }

/-- The alert mail of the top-level handler, with the log file attached. -/
def crashAlert (cfg : Config) (err : Thrown) : Mail :=
  { sender := alertSender cfg
    recipient := ALERT_TO cfg
    subject := "ALERT: Sales-i script crashed (RunID " ++ cfg.RUN_ID ++ ")"
    text := err.text
    attachments := orUndefined (logAttachments cfg true) }

/-- The calls of the `catch` block of `run` with their outcomes: the fatal screenshot
(`rs`), the page markup (`rc`), the write of the markup when it was read (`rw`), and the
alert mail (`ra`). -/
def fatalCalls (cfg : Config) (fatal : Thrown) (rs rc rw ra : Outcome) : List (Op × Outcome) :=
  [(Op.screenshot (fatalShotPath cfg), rs), (Op.content, rc)] ++
    (if rc.isOk then [(Op.writeFile (fatalHtmlPath cfg), rw)] else []) ++
    [(Op.sendMail (fatalAlert cfg fatal rs.isOk), ra)]

/-- The log line that opens the iteration of a representative. -/
def visitLine : String := "--- Running $1 ($2) ---"

/-- The log line that opens `setUser`. -/
def setUserLine : String := "  Setting user to: $1 ($2)"

/-- The log line written after the report screenshot of a representative is saved. -/
def savedLine : String := "Saved: $1"

/-- The log lines that mark the work done for a representative. -/
def keyLines : List String := [visitLine, setUserLine, savedLine]

/-- A choice of log templates and calls to watch that is limited to the key lines and to
calls to the mail transport. -/
structure Watch (ts : List String) (ops : Op → Bool) : Prop where
  lines : ∀ t ∈ ts, t ∈ keyLines
  calls : ∀ o, isMail o = false → ops o = false

/-- The answer every call gets when every page operation succeeds on its first try:
each call succeeds and each element looked for is visible; the marker of the detail
view, probed to confirm the landing page, is not. -/
def nominal (o : Op) : Bool :=
  match o with
  | .isVisible loc => loc != "h1:has-text(CALLS MADE:)"
  | _ => true

/-- Every page operation succeeds on its first try. -/
def AllSucceed {σ : Type} (c : Ctx σ) : Prop :=
  ∀ o s, (c.env.perform o s).1 = .ok (nominal o)

/-- The screenshot calls and mail calls of a record, with their outcomes, in order. -/
def artifacts (out : List Event) : List (Op × Outcome) :=
  out.filterMap (fun e => match e with
    | .op (.screenshot p) r => some (.screenshot p, r)
    | .op (.sendMail m) r => some (.sendMail m, r)
    | _ => none)

/-- The marks a run leaves for the work done for a representative: the line that opens
its iteration, the line that opens `setUser`, the line written once its screenshot is
saved, and a mail the transport accepted. -/
inductive Key where
  | visit (args : List String)
  | user (args : List String)
  | saved (args : List String)
  | mail (m : Mail)
deriving DecidableEq, Repr

/-- The mark an event leaves, if any. -/
def keyOf (e : Event) : Option Key :=
  match e with
  | .log t a =>
    if t = visitLine then some (.visit a)
    else if t = setUserLine then some (.user a)
    else if t = savedLine then some (.saved a)
    else none
  | .op (.sendMail m) (.ok _) => some (.mail m)
  | _ => none

/-- The marks of a record, in order. -/
def keysOf (out : List Event) : List Key := out.filterMap keyOf

/-- The marks of the complete iteration of a representative. -/
def repKeys (cfg : Config) (d : String) (rep : Rep) : List Key :=
  [.visit [rep.name, rep.id], .user [rep.name, rep.id], .saved [reportPath cfg rep d],
    .mail (reportMail cfg rep d)]

/-- The marks of the complete iterations of a list of representatives, in list order. -/
def loopKeys (cfg : Config) (d : String) : List Rep → List Key
  | [] => []
  | r :: rs => repKeys cfg d r ++ loopKeys cfg d rs

/-- A computation whose marks are `ks` when it returns, and the first few of `ks` when it
raises. -/
structure Tracks {σ α : Type} (m : M σ α) (ks : List Key) : Prop where
  done : ∀ w a, (m w).res = .ok a → keysOf (m w).out = ks
  cut : ∀ w e, (m w).res = .throw e → keysOf (m w).out <+: ks

/-- The arguments of the iteration-opening lines among a list of marks. -/
def visitsOf (ks : List Key) : List (List String) :=
  ks.filterMap (fun k => match k with | .visit a => some a | _ => none)

/-- The arguments of the `setUser` lines among a list of marks. -/
def usersOf (ks : List Key) : List (List String) :=
  ks.filterMap (fun k => match k with | .user a => some a | _ => none)

/-- The arguments of the screenshot-saved lines among a list of marks. -/
def savedOf (ks : List Key) : List (List String) :=
  ks.filterMap (fun k => match k with | .saved a => some a | _ => none)

/-- The accepted mails among a list of marks. -/
def mailsOf (ks : List Key) : List Mail :=
  ks.filterMap (fun k => match k with | .mail m => some m | _ => none)

/-- A page on which every page operation succeeds on its first try. -/
def happyPage : Ctx Unit :=
  { env := { perform := fun o s => (.ok (nominal o), s), first := fun _ => 0 }
    cfg := sampleConfig }

/-- A page on which every operation succeeds, except that the headers of the landing
page never become visible again: the return to the landing page fails. -/
def landingLost : Ctx Unit :=
  { env :=
      { perform := fun o s =>
          match o with
          | .isVisible loc =>
            (.ok (loc != "h1:has-text(CALLS MADE:)" && loc != "th:has-text(Sales Rep Name)"
              && loc != "th:has-text(Total Calls Made)"), s)
          | _ => (.ok true, s)
        first := fun _ => 0 }
    cfg := sampleConfig }

/-- A world in which the browser starts but the browsing context cannot be created. -/
def contextFails : Ctx Unit :=
  { env :=
      { perform := fun o s =>
          match o with
          | .newContext => (.fail "browser.newContext: Target closed", s)
          | _ => (.ok true, s)
        first := fun _ => 0 }
    cfg := sampleConfig }

/-- Two representatives with distinct ids and distinct names. -/
def twoReps : List Rep := [⟨"Kevin", "200223210"⟩, ⟨"Kevin Sellers", "200229000"⟩]

/-- Two representatives with distinct ids and the same name. -/
def sameNameReps : List Rep := [⟨"Kevin", "200223210"⟩, ⟨"Kevin", "200229000"⟩]

/-- The local time of a run started on 2 March 2024 at 06:00. -/
def sampleNow : Int := CivilDate.toTime ⟨2024, 3, 2⟩ 21600000

/-- Path of the debug screenshot taken once the filter panel is open. -/
def panelShot (cfg : Config) : String := pathJoin cfg.OUT_DIR "debug-filter-panel.png"

/-- The mails of a record handed to the transport under the alert sender. -/
def alertCalls (cfg : Config) (out : List Event) : List Mail :=
  (mailCalls out).filter (fun m => decide (m.sender = alertSender cfg))

/-- Selects the mails handed to the transport under the alert sender. -/
def isAlertMail (cfg : Config) (o : Op) : Bool :=
  match o with
  | .sendMail m => decide (m.sender = alertSender cfg)
  | _ => false

/-- The screenshot and mail calls of the complete iterations of a list of
representatives, all successful. -/
def reportArtifacts (cfg : Config) (d : String) (reps : List Rep) : List (Op × Outcome) :=
  reps.flatMap (fun r =>
    [(Op.screenshot (reportPath cfg r d), Outcome.ok true),
      (Op.sendMail (reportMail cfg r d), Outcome.ok true)])

/-- A page on which everything but the three controls of the filter panel is visible;
every call succeeds, except screenshots when `shotsFail` is set. -/
def panelStuck (shotsFail : Bool) : Ctx Unit :=
  { env :=
      { perform := fun o s =>
          match o with
          | .isVisible loc =>
            (.ok (loc != "#start-date" && loc != "#end-date" && loc != "#ctl00_btnApply"), s)
          | .screenshot _ => (if shotsFail then .fail "page crashed" else .ok true, s)
          | _ => (.ok true, s)
        first := fun _ => 0 }
    cfg := sampleConfig }

/-! ## The start of the process

The statements of the module that run before `run()`: the two directories are created
when they do not exist, the environment is validated, the mail transport is created.
`fs.mkdirSync` is taken to succeed; `path.resolve` of the two directory names and the
time stamp `RUN_ID` are parameters. -/

/-- The part of `process.env` the program reads (after `dotenv/config` has loaded the
`.env` file); `none` is a variable that is not set. -/
structure ProcessEnv where
  SI_USERNAME : Option String
  SI_PASSWORD : Option String
  GMAIL_USER : Option String
  GMAIL_APP_PASS : Option String
  TO_EMAIL : Option String
  ALERT_EMAIL : Option String
deriving DecidableEq, Repr

/-- An effect of the statements of the module that run before `run()`. -/
inductive Boot where
  | mkdir (path : String)
  | consoleError (message : String)
  | createTransport (user : String) (pass : String)
deriving DecidableEq, Repr

/-- JavaScript truthiness of an environment value: set and not empty. -/
def truthy (v : Option String) : Bool :=
  match v with
  | some s => s != ""
  | none => false

/-- An environment value that is missing or empty. -/
def Missing (v : Option String) : Prop := v = none ∨ v = some ""

/-- The statement `if (!fs.existsSync(dir)) fs.mkdirSync(dir, { recursive: true })`, on
the directories on disk: its effects and the directories after it. -/
def ensureDir (dir : String) (dirs : List String) : List Boot × List String :=
  if dir ∈ dirs then ([], dirs) else ([.mkdir dir], dir :: dirs)

/-- The message written by `console.error` when the validation fails. -/
def missingEnvMessage : String :=
  "Missing required environment variables. Need SI_USERNAME, SI_PASSWORD, GMAIL_USER, GMAIL_APP_PASS, TO_EMAIL"

/-- The constants of a run whose environment passed the validation. -/
def configOf (e : ProcessEnv) (outDir logDir runId : String) : Config :=
  { SI_USERNAME := e.SI_USERNAME.getD "", SI_PASSWORD := e.SI_PASSWORD.getD "",
    GMAIL_USER := e.GMAIL_USER.getD "", GMAIL_APP_PASS := e.GMAIL_APP_PASS.getD "",
    TO_EMAIL := e.TO_EMAIL.getD "", ALERT_EMAIL := e.ALERT_EMAIL,
    OUT_DIR := outDir, LOG_DIR := logDir, RUN_ID := runId }

/-- What the process leaves behind when it ends: the effects of the statements before
`run()`, the directories on disk, the effects of `run()` and of the top-level handler,
the world, and the exit status. -/
structure Settled (σ : Type) where
  boot : List Boot
  dirs : List String
  out : List Event
  world : World σ
  code : Nat

/-- The whole module, from its first statement to the end of the process. -/
def program {σ : Type} (env : Env σ) (e : ProcessEnv) (outDir logDir runId : String)
    (reps : List Rep) (now : Int) (dirs : List String) (w : World σ) : Settled σ :=
  let d1 := ensureDir outDir dirs
  let d2 := ensureDir logDir d1.2
  if !truthy e.SI_USERNAME || !truthy e.SI_PASSWORD || !truthy e.GMAIL_USER
      || !truthy e.GMAIL_APP_PASS || !truthy e.TO_EMAIL then
    { boot := d1.1 ++ d2.1 ++ [.consoleError missingEnvMessage], dirs := d2.2, out := [],
      world := w, code := 1 }
  else
    let cfg := configOf e outDir logDir runId
    let r := main ⟨env, cfg⟩ reps now w
    { boot := d1.1 ++ d2.1 ++ [.createTransport cfg.GMAIL_USER cfg.GMAIL_APP_PASS],
      dirs := d2.2, out := r.out, world := r.world,
      code := match r.res with
        | .ok n => n
        | .throw _ => 1 }

/-- An environment in which no variable is set. -/
def emptyEnv : ProcessEnv := ⟨none, none, none, none, none, none⟩

/-- An environment in which only the recipient is empty. -/
def noRecipientEnv : ProcessEnv :=
  ⟨some "user", some "secret", some "bot@example.com", some "app-pass", some "", none⟩

/-! ## The scan run in the page by `setUser` -/

/-- An `option` element of a `select` control. -/
structure OptionEl where
  value : String
  text : String
deriving DecidableEq, Repr

/-- A `select` control of the page: its options and its current value. -/
structure SelectEl where
  options : List OptionEl
  value : String
deriving DecidableEq, Repr

/-- The call `text.includes(name)`. -/
def includes (text name : String) : Bool := decide (name.data <:+: text.data)

/-- The predicate given to `find` in the scan:
`opt.value === id || opt.text.includes(name)`. -/
def optionMatches (id name : String) (opt : OptionEl) : Bool :=
  opt.value == id || includes opt.text name

/-- The function `setUser` runs in the page when `#ddUser` is not usable: the first
select control that has a matching option is set to the value of its first matching
option. Returns what the function returns and the controls after it. -/
def scanSelects (id name : String) : List SelectEl → Bool × List SelectEl
  | [] => (false, [])
  | sel :: rest =>
    match sel.options.find? (optionMatches id name) with
    | some opt => (true, { sel with value := opt.value } :: rest)
    | none => ((scanSelects id name rest).1, sel :: (scanSelects id name rest).2)

/-- A page whose state is its select controls: `#ddUser` is not visible, the scan of
`setUser` runs `scanSelects` on the controls, every other call succeeds. -/
def selectsPage : Ctx (List SelectEl) :=
  { env :=
      { perform := fun o s =>
          match o with
          | .isVisible _ => (.ok false, s)
          | .selectScan id name => (.ok (scanSelects id name s).1, (scanSelects id name s).2)
          | _ => (.ok true, s)
        first := fun _ => 0 }
    cfg := sampleConfig }

/-- A select control that lists 'Kevin Sellers' before 'Kevin'. -/
def userSelect : SelectEl :=
  { options := [⟨"0", "All users"⟩, ⟨"200229000", "Kevin Sellers"⟩, ⟨"200223210", "Kevin"⟩],
    value := "0" }

/-- A page on which the end-date field and the apply button are visible and nothing
else is, the start-date field in particular; every other call succeeds and the probes of
a race settle in call order. -/
def startDateHidden : Ctx Unit :=
  { env :=
      { perform := fun o s =>
          match o with
          | .isVisible loc => (.ok (loc == "#end-date" || loc == "#ctl00_btnApply"), s)
          | _ => (.ok true, s)
        first := fun _ => 0 }
    cfg := sampleConfig }

/-! ## Calls that name a representative -/

/-- The screenshot paths of the iteration of a representative: the report and the five
debug screenshots. -/
def repShots (cfg : Config) (d : String) (rep : Rep) : List String :=
  [ reportPath cfg rep d,
    pathJoin cfg.OUT_DIR ("debug-no-detail-link-" ++ rep.name ++ ".png"),
    pathJoin cfg.OUT_DIR ("debug-wrong-page-" ++ rep.name ++ ".png"),
    pathJoin cfg.OUT_DIR ("debug-navigation-failed-" ++ rep.name ++ ".png"),
    pathJoin cfg.OUT_DIR ("debug-filter-panel-failed-after-" ++ rep.name ++ ".png"),
    pathJoin cfg.OUT_DIR ("debug-user-dropdown-not-ready-after-" ++ rep.name ++ ".png") ]

/-- A call the iteration of `rep` may make: when the call chooses a user, takes a
screenshot or sends a mail, it is the choice of `rep`, a screenshot of `rep` or the
report mail of `rep`. -/
def namesRep (cfg : Config) (d : String) (rep : Rep) (o : Op) : Bool :=
  match o with
  | .selectOption _ v => decide (v = rep.id)
  | .selectScan id name => decide (id = rep.id ∧ name = rep.name)
  | .screenshot p => decide (p ∈ repShots cfg d rep)
  | .sendMail m => decide (m = reportMail cfg rep d)
  | _ => true

/-- Every `page.waitForTimeout` completes. -/
def WaitsComplete {σ : Type} (c : Ctx σ) : Prop :=
  ∀ ms s, (c.env.perform (.waitForTimeout ms) s).1.isOk = true

/-- A call that names no representative: it chooses no user, takes no screenshot and
sends no mail. -/
def namesNobody (o : Op) : Bool :=
  match o with
  | .selectOption _ _ => false
  | .selectScan _ _ => false
  | .screenshot _ => false
  | .sendMail _ => false
  | _ => true

/-- A page, context and browser that have been closed: every call raises. -/
def closedPage : Ctx Unit :=
  { env :=
      { perform := fun _ s => (.fail "Target page, context or browser has been closed", s)
        first := fun _ => 0 }
    cfg := sampleConfig }

/-! ## Part 4. Theorems -/

/-! ### The date of the run -/

theorem DayFromYear_succ (y : Nat) : DayFromYear (y + 1) = DayFromYear y + DaysInYear y := by
  unfold DayFromYear DaysInYear
  push_cast
  split_ifs <;> omega

theorem DayFromYear_lt {a b : Nat} (h : a < b) : DayFromYear a < DayFromYear b := by
  unfold DayFromYear
  omega

theorem DaysInYear_pos (y : Nat) : 365 ≤ DaysInYear y ∧ DaysInYear y ≤ 366 := by
  unfold DaysInYear
  split_ifs <;> omega

theorem YearFromDay_eq {y : Nat} {day : Int} (hy : y ≤ maxYear)
    (h1 : DayFromYear y ≤ day) (h2 : day < DayFromYear (y + 1)) : YearFromDay day = y := by
  unfold YearFromDay
  rw [Nat.findGreatest_eq_iff]
  refine ⟨hy, fun _ => h1, ?_⟩
  intro n hn _ hle
  have : DayFromYear (y + 1) ≤ DayFromYear n := by
    rcases Nat.lt_or_ge (y + 1) n with h | h
    · exact le_of_lt (DayFromYear_lt h)
    · have : n = y + 1 := by omega
      rw [this]
  omega

theorem Day_MakeDate (day ms : Int) (h0 : 0 ≤ ms) (h1 : ms < msPerDay) :
    Day (MakeDate day ms) = day := by
  unfold Day MakeDate msPerDay at *
  omega

theorem TimeWithinDay_MakeDate (day ms : Int) (h0 : 0 ≤ ms) (h1 : ms < msPerDay) :
    TimeWithinDay (MakeDate day ms) = ms := by
  unfold TimeWithinDay MakeDate msPerDay at *
  omega

theorem leap_cases (y : Nat) :
    (InLeapYear y = 0 ∧ DaysInYear y = 365 ∧ daysInMonth y 2 = 28) ∨
      (InLeapYear y = 1 ∧ DaysInYear y = 366 ∧ daysInMonth y 2 = 29) := by
  unfold InLeapYear daysInMonth
  rcases DaysInYear_pos y with ⟨h1, h2⟩
  by_cases h : DaysInYear y = 366
  · right; simp [h]
  · left; simp [h]; omega

theorem MakeDay_eq (y m : Nat) (d : Int) (hm : m < 12) :
    MakeDay y m d = DayFromYear y + daysBeforeMonth y m + d - 1 := by
  unfold MakeDay
  have h1 : m / 12 = 0 := by omega
  have h2 : m % 12 = m := by omega
  simp [h1, h2]

theorem month_chain (n l : Int) (k : Nat) (hl : 0 ≤ l)
    (h : (k = 0 ∧ 0 ≤ n ∧ n < 31) ∨ (k = 1 ∧ 31 ≤ n ∧ n < 59 + l) ∨
      (k = 2 ∧ 59 + l ≤ n ∧ n < 90 + l) ∨ (k = 3 ∧ 90 + l ≤ n ∧ n < 120 + l) ∨
      (k = 4 ∧ 120 + l ≤ n ∧ n < 151 + l) ∨ (k = 5 ∧ 151 + l ≤ n ∧ n < 181 + l) ∨
      (k = 6 ∧ 181 + l ≤ n ∧ n < 212 + l) ∨ (k = 7 ∧ 212 + l ≤ n ∧ n < 243 + l) ∨
      (k = 8 ∧ 243 + l ≤ n ∧ n < 273 + l) ∨ (k = 9 ∧ 273 + l ≤ n ∧ n < 304 + l) ∨
      (k = 10 ∧ 304 + l ≤ n ∧ n < 334 + l) ∨ (k = 11 ∧ 334 + l ≤ n)) :
    (if n < 31 then 0
    else if n < 59 + l then 1
    else if n < 90 + l then 2
    else if n < 120 + l then 3
    else if n < 151 + l then 4
    else if n < 181 + l then 5
    else if n < 212 + l then 6
    else if n < 243 + l then 7
    else if n < 273 + l then 8
    else if n < 304 + l then 9
    else if n < 334 + l then 10
    else 11 : Nat) = k := by
  rcases h with ⟨rfl, h1, h2⟩ | ⟨rfl, h1, h2⟩ | ⟨rfl, h1, h2⟩ | ⟨rfl, h1, h2⟩ | ⟨rfl, h1, h2⟩ |
    ⟨rfl, h1, h2⟩ | ⟨rfl, h1, h2⟩ | ⟨rfl, h1, h2⟩ | ⟨rfl, h1, h2⟩ | ⟨rfl, h1, h2⟩ |
    ⟨rfl, h1, h2⟩ | ⟨rfl, h1⟩ <;>
  repeat (first | rw [if_pos (by omega)] | rw [if_neg (by omega)])

/-- The day within the year of a valid date lies in the range of its month. -/
theorem dayInYear_range (y m d : Nat) (hv : CivilDate.Valid ⟨y, m, d⟩) :
    ∃ n l : Int, n = daysBeforeMonth y (m - 1) + d - 1 ∧ l = InLeapYear y ∧
      DaysInYear y = 365 + l ∧ 0 ≤ n ∧ n < 365 + l ∧
      ((m = 1 ∧ 0 ≤ n ∧ n < 31 ∧ (d : Int) = n + 1) ∨
       (m = 2 ∧ 31 ≤ n ∧ n < 59 + l ∧ (d : Int) = n - 30) ∨
       (m = 3 ∧ 59 + l ≤ n ∧ n < 90 + l ∧ (d : Int) = n - 58 - l) ∨
       (m = 4 ∧ 90 + l ≤ n ∧ n < 120 + l ∧ (d : Int) = n - 89 - l) ∨
       (m = 5 ∧ 120 + l ≤ n ∧ n < 151 + l ∧ (d : Int) = n - 119 - l) ∨
       (m = 6 ∧ 151 + l ≤ n ∧ n < 181 + l ∧ (d : Int) = n - 150 - l) ∨
       (m = 7 ∧ 181 + l ≤ n ∧ n < 212 + l ∧ (d : Int) = n - 180 - l) ∨
       (m = 8 ∧ 212 + l ≤ n ∧ n < 243 + l ∧ (d : Int) = n - 211 - l) ∨
       (m = 9 ∧ 243 + l ≤ n ∧ n < 273 + l ∧ (d : Int) = n - 242 - l) ∨
       (m = 10 ∧ 273 + l ≤ n ∧ n < 304 + l ∧ (d : Int) = n - 272 - l) ∨
       (m = 11 ∧ 304 + l ≤ n ∧ n < 334 + l ∧ (d : Int) = n - 303 - l) ∨
       (m = 12 ∧ 334 + l ≤ n ∧ (d : Int) = n - 333 - l)) := by
  obtain ⟨hm1, hm2, hd1, hd2⟩ := hv
  simp only at hm1 hm2 hd1 hd2
  refine ⟨_, _, rfl, rfl, ?_⟩
  rcases leap_cases y with ⟨h1, h2, h3⟩ | ⟨h1, h2, h3⟩ <;>
    interval_cases m <;>
    (first | rw [h3] at hd2 | simp only [daysInMonth] at hd2) <;>
    norm_num [daysBeforeMonth, h1, h2] <;> omega

theorem fields_MakeDay (y m d : Nat) (hv : CivilDate.Valid ⟨y, m, d⟩) (hy : y < maxYear) :
    YearFromDay (MakeDay y (m - 1) d) = y ∧ MonthFromDay (MakeDay y (m - 1) d) = m - 1 ∧
      DateFromDay (MakeDay y (m - 1) d) = d := by
  have hm12 : m - 1 < 12 := by have := hv.2.1; simp only at this; omega
  obtain ⟨n, l, hn, hl, hdy, h0, h1, hcases⟩ := dayInYear_range y m d hv
  have hsucc := DayFromYear_succ y
  rw [MakeDay_eq y (m - 1) d hm12]
  have e : DayFromYear y + daysBeforeMonth y (m - 1) + (d : Int) - 1 = DayFromYear y + n := by
    rw [hn]; ring
  rw [e]
  have hyear : YearFromDay (DayFromYear y + n) = y := by
    apply YearFromDay_eq (le_of_lt hy)
    · omega
    · rw [hsucc, hdy]; omega
  have hmonth : MonthFromDay (DayFromYear y + n) = m - 1 := by
    unfold MonthFromDay DayWithinYear
    rw [hyear, ← hl, add_sub_cancel_left]
    have hl0 : 0 ≤ l := by have := (DaysInYear_pos y).1; omega
    dsimp only
    refine month_chain n l (m - 1) hl0 ?_
    clear hyear e hsucc hn hl hdy hv hm12
    rcases hcases with h | h | h | h | h | h | h | h | h | h | h | h <;>
      obtain ⟨rfl, h⟩ := h <;> norm_num <;> omega
  refine ⟨hyear, hmonth, ?_⟩
  unfold DateFromDay DayWithinYear
  rw [hyear, hmonth, ← hl, add_sub_cancel_left]
  rcases hcases with h | h | h | h | h | h | h | h | h | h | h | h <;>
    obtain ⟨rfl, h⟩ := h <;> simp only [Nat.reduceSub] <;> omega

theorem jsString_natCast (k : Nat) : jsString ((k : Nat) : Int) = Nat.repr k := rfl

theorem repr_four_digits (y : Nat) (h1 : 1000 ≤ y) (h2 : y ≤ 9999) :
    Nat.repr y = String.mk [Nat.digitChar (y / 1000 % 10), Nat.digitChar (y / 100 % 10),
      Nat.digitChar (y / 10 % 10), Nat.digitChar (y % 10)] := by
  obtain ⟨f, hf⟩ : ∃ f, y + 1 = f + 4 := ⟨y - 3, by omega⟩
  unfold Nat.repr Nat.toDigits
  rw [hf]
  simp only [Nat.toDigitsCore]
  rw [if_neg (by omega), if_neg (by omega), if_neg (by omega), if_pos (by omega)]
  simp only [Nat.div_div_eq_div_mul, Nat.reduceMul]
  rfl

theorem repr_three_digits (y : Nat) (h1 : 100 ≤ y) (h2 : y ≤ 999) :
    Nat.repr y = String.mk [Nat.digitChar (y / 100 % 10),
      Nat.digitChar (y / 10 % 10), Nat.digitChar (y % 10)] := by
  obtain ⟨f, hf⟩ : ∃ f, y + 1 = f + 3 := ⟨y - 2, by omega⟩
  unfold Nat.repr Nat.toDigits
  rw [hf]
  simp only [Nat.toDigitsCore]
  rw [if_neg (by omega), if_neg (by omega), if_pos (by omega)]
  simp only [Nat.div_div_eq_div_mul, Nat.reduceMul]
  rfl

theorem padStart_two (n : Nat) (h1 : 1 ≤ n) (h2 : n ≤ 31) :
    padStart (jsString ((n : Nat) : Int)) 2 '0' =
      String.mk [Nat.digitChar (n / 10 % 10), Nat.digitChar (n % 10)] := by
  rw [jsString_natCast]
  interval_cases n <;> decide

theorem daysInMonth_bounds (y m : Nat) : 28 ≤ daysInMonth y m ∧ daysInMonth y m ≤ 31 := by
  unfold daysInMonth
  split <;> (try split_ifs) <;> omega

theorem pred_valid (c : CivilDate) (hv : c.Valid) : c.pred.Valid := by
  obtain ⟨hm1, hm2, hd1, hd2⟩ := hv
  unfold CivilDate.pred
  split_ifs with h1 h2
  · exact ⟨hm1, hm2, by simp only; omega, by simp only; omega⟩
  · have := daysInMonth_bounds c.year (c.month - 1)
    exact ⟨by simp only; omega, by simp only; omega, by simp only; omega, le_refl _⟩
  · exact ⟨by simp, by simp, by simp, by simp [daysInMonth]⟩

/-- Setting the day of the month to one less lands on the calendar predecessor. -/
theorem MakeDay_pred (c : CivilDate) (hv : c.Valid) (hy : 1 ≤ c.year) :
    MakeDay c.year (c.month - 1) ((c.day : Int) - 1) =
      MakeDay c.pred.year (c.pred.month - 1) c.pred.day := by
  obtain ⟨hm1, hm2, hd1, hd2⟩ := hv
  unfold CivilDate.pred
  split_ifs with h1 h2
  · simp only
    rw [MakeDay_eq _ _ _ (by omega), MakeDay_eq _ _ _ (by omega)]
    push_cast [Nat.cast_sub (le_of_lt h1)]
    ring
  · simp only
    have hd : c.day = 1 := by omega
    rw [MakeDay_eq _ _ _ (by omega), MakeDay_eq _ _ _ (by omega), hd]
    have hm : c.month = 2 ∨ c.month = 3 ∨ c.month = 4 ∨ c.month = 5 ∨ c.month = 6 ∨ c.month = 7 ∨
        c.month = 8 ∨ c.month = 9 ∨ c.month = 10 ∨ c.month = 11 ∨ c.month = 12 := by omega
    rcases leap_cases c.year with ⟨l1, l2, l3⟩ | ⟨l1, l2, l3⟩ <;>
      rcases hm with h | h | h | h | h | h | h | h | h | h | h <;>
      rw [h] <;> simp only [daysBeforeMonth, Nat.reduceSub, l1] <;>
      (first | rw [l3] | simp only [daysInMonth]) <;> push_cast <;> omega
  · simp only
    have hd : c.day = 1 := by omega
    have hm : c.month = 1 := by omega
    obtain ⟨y, hy⟩ : ∃ y, c.year = y + 1 := ⟨c.year - 1, by omega⟩
    rw [MakeDay_eq _ _ _ (by omega), MakeDay_eq _ _ _ (by omega), hd, hm, hy]
    have := DayFromYear_succ y
    rcases leap_cases y with ⟨l1, l2, l3⟩ | ⟨l1, l2, l3⟩ <;>
      norm_num [daysBeforeMonth, l1, l2, this] <;> omega

/-- What the code computes, for every valid date of the common era: the month, day and
year of the calendar predecessor, rendered by `String()` and `padStart`. -/
theorem yesterday_eq_pred (c : CivilDate) (ms : Int) (hv : c.Valid) (hy1 : 1 ≤ c.year)
    (hy2 : c.year < maxYear) (h0 : 0 ≤ ms) (h1 : ms < msPerDay) :
    yesterdayMMDDYYYY (c.toTime ms) =
      padStart (jsString (c.pred.month : Int)) 2 '0' ++ "/" ++
        padStart (jsString (c.pred.day : Int)) 2 '0' ++ "/" ++ jsString (c.pred.year : Int) := by
  have hpv := pred_valid c hv
  have hpy : c.pred.year < maxYear := by
    unfold CivilDate.pred; split_ifs <;> simp only <;> omega
  obtain ⟨f1, f2, f3⟩ := fields_MakeDay c.year c.month c.day hv hy2
  obtain ⟨g1, g2, g3⟩ := fields_MakeDay c.pred.year c.pred.month c.pred.day hpv hpy
  unfold yesterdayMMDDYYYY
  simp only [setDate, getDate, getMonth, getFullYear, CivilDate.toTime,
    Day_MakeDate _ _ h0 h1, TimeWithinDay_MakeDate _ _ h0 h1, f1, f2, f3,
    MakeDay_pred c hv hy1, g1, g2, g3]
  have hm : ((c.pred.month - 1 : Nat) : Int) + 1 = (c.pred.month : Int) := by
    have := hpv.1; omega
  rw [hm]

theorem pred_year_ge (c : CivilDate) (hv : c.Valid) (hy : 1000 ≤ c.year)
    (hne : c ≠ ⟨1000, 1, 1⟩) : 1000 ≤ c.pred.year ∧ c.pred.year ≤ c.year := by
  obtain ⟨hm1, hm2, hd1, hd2⟩ := hv
  unfold CivilDate.pred
  split_ifs with h1 h2
  · exact ⟨hy, le_refl _⟩
  · exact ⟨hy, le_refl _⟩
  · simp only
    have hd : c.day = 1 := by omega
    have hm : c.month = 1 := by omega
    have : c.year ≠ 1000 := by
      intro h
      apply hne
      cases c
      simp_all
    omega

/-! ### How computations compose -/

section Basics
variable {σ α β : Type}

@[simp] theorem bind_eq (m : M σ α) (f : α → M σ β) : (m >>= f) = M.bind m f := rfl

@[simp] theorem pure_eq (a : α) : (pure a : M σ α) = M.pure a := rfl

@[simp] theorem pure_res (a : α) (w : World σ) : (M.pure a w).res = .ok a := rfl
@[simp] theorem pure_out (a : α) (w : World σ) : (M.pure a w).out = [] := rfl
@[simp] theorem pure_world (a : α) (w : World σ) : (M.pure a w).world = w := rfl

@[simp] theorem throwE_res (e : Thrown) (w : World σ) : (throwE e w : Ran σ α).res = .throw e := rfl
@[simp] theorem throwE_out (e : Thrown) (w : World σ) : (throwE e w : Ran σ α).out = [] := rfl
@[simp] theorem throwE_world (e : Thrown) (w : World σ) : (throwE e w : Ran σ α).world = w := rfl

@[simp] theorem bind_res (m : M σ α) (f : α → M σ β) (w : World σ) :
    (M.bind m f w).res =
      match (m w).res with
      | .ok a => (f a (m w).world).res
      | .throw e => .throw e := by
  unfold M.bind
  rcases m w with ⟨r | e, w1, o1⟩ <;> rfl

@[simp] theorem bind_out (m : M σ α) (f : α → M σ β) (w : World σ) :
    (M.bind m f w).out =
      (m w).out ++
        match (m w).res with
        | .ok a => (f a (m w).world).out
        | .throw _ => [] := by
  unfold M.bind
  rcases m w with ⟨r | e, w1, o1⟩ <;> simp

@[simp] theorem bind_world (m : M σ α) (f : α → M σ β) (w : World σ) :
    (M.bind m f w).world =
      match (m w).res with
      | .ok a => (f a (m w).world).world
      | .throw _ => (m w).world := by
  unfold M.bind
  rcases m w with ⟨r | e, w1, o1⟩ <;> rfl

@[simp] theorem tryCatch_res (m : M σ α) (h : Thrown → M σ α) (w : World σ) :
    (tryCatch m h w).res =
      match (m w).res with
      | .ok a => .ok a
      | .throw e => (h e (m w).world).res := by
  unfold tryCatch
  rcases m w with ⟨r | e, w1, o1⟩ <;> rfl

@[simp] theorem tryCatch_out (m : M σ α) (h : Thrown → M σ α) (w : World σ) :
    (tryCatch m h w).out =
      (m w).out ++
        match (m w).res with
        | .ok _ => []
        | .throw e => (h e (m w).world).out := by
  unfold tryCatch
  rcases m w with ⟨r | e, w1, o1⟩ <;> simp

@[simp] theorem tryCatch_world (m : M σ α) (h : Thrown → M σ α) (w : World σ) :
    (tryCatch m h w).world =
      match (m w).res with
      | .ok _ => (m w).world
      | .throw e => (h e (m w).world).world := by
  unfold tryCatch
  rcases m w with ⟨r | e, w1, o1⟩ <;> rfl

@[simp] theorem tryFinally_res (m : M σ α) (fin : M σ Unit) (w : World σ) :
    (tryFinally m fin w).res =
      match (fin (m w).world).res with
      | .ok _ => (m w).res
      | .throw e => .throw e := by
  unfold tryFinally
  rcases m w with ⟨r, w1, o1⟩
  simp only
  rcases fin w1 with ⟨_ | e, w2, o2⟩ <;> rfl

@[simp] theorem tryFinally_out (m : M σ α) (fin : M σ Unit) (w : World σ) :
    (tryFinally m fin w).out = (m w).out ++ (fin (m w).world).out := by
  unfold tryFinally
  rcases m w with ⟨r, w1, o1⟩
  simp only
  rcases fin w1 with ⟨_ | e, w2, o2⟩ <;> rfl

@[simp] theorem tryFinally_world (m : M σ α) (fin : M σ Unit) (w : World σ) :
    (tryFinally m fin w).world = (fin (m w).world).world := by
  unfold tryFinally
  rcases m w with ⟨r, w1, o1⟩
  simp only
  rcases fin w1 with ⟨_ | e, w2, o2⟩ <;> rfl

@[simp] theorem query_res (c : Ctx σ) (o : Op) (w : World σ) :
    (query c o w).res = (c.env.perform o w.ext).1.toRes := rfl
@[simp] theorem query_out (c : Ctx σ) (o : Op) (w : World σ) :
    (query c o w).out = [Event.op o (c.env.perform o w.ext).1] := rfl
@[simp] theorem query_world (c : Ctx σ) (o : Op) (w : World σ) :
    (query c o w).world =
      ⟨(c.env.perform o w.ext).2, filesAfter o (c.env.perform o w.ext).1 w.files⟩ := rfl

theorem exec_res (c : Ctx σ) (o : Op) (w : World σ) :
    (exec c o w).res =
      match (c.env.perform o w.ext).1 with
      | .ok _ => .ok ()
      | .fail m => .throw (.external m) := by
  simp only [exec, bind_res, query_res]
  cases (c.env.perform o w.ext).1 <;> rfl

theorem exec_res_ok (c : Ctx σ) (o : Op) (w : World σ)
    (h : (c.env.perform o w.ext).1.isOk = true) : (exec c o w).res = .ok () := by
  rw [exec_res]
  cases hq : (c.env.perform o w.ext).1 <;> simp_all [Outcome.isOk]

@[simp] theorem exec_out (c : Ctx σ) (o : Op) (w : World σ) :
    (exec c o w).out = [Event.op o (c.env.perform o w.ext).1] := by
  simp only [exec, bind_out, query_out, query_res]
  cases (c.env.perform o w.ext).1 <;> rfl

@[simp] theorem exec_world (c : Ctx σ) (o : Op) (w : World σ) :
    (exec c o w).world =
      ⟨(c.env.perform o w.ext).2, filesAfter o (c.env.perform o w.ext).1 w.files⟩ := by
  simp only [exec, bind_world, query_world, query_res]
  cases (c.env.perform o w.ext).1 <;> rfl

@[simp] theorem delay_res (ms : Nat) (w : World σ) : (delay ms w).res = .ok () := rfl
@[simp] theorem delay_out (ms : Nat) (w : World σ) : (delay ms w).out = [Event.wait ms] := rfl
@[simp] theorem delay_world (ms : Nat) (w : World σ) : (delay ms w).world = w := rfl

@[simp] theorem log_res (c : Ctx σ) (t : String) (a : List String) (w : World σ) :
    (log c t a w).res = .ok () := rfl
@[simp] theorem log_out (c : Ctx σ) (t : String) (a : List String) (w : World σ) :
    (log c t a w).out = [Event.log t a] := rfl
@[simp] theorem log_world (c : Ctx σ) (t : String) (a : List String) (w : World σ) :
    (log c t a w).world = ⟨w.ext, w.files.insert (LOG_FILE c.cfg)⟩ := rfl

@[simp] theorem existsSync_res (p : String) (w : World σ) :
    (existsSync p w).res = .ok (decide (p ∈ w.files)) := rfl
@[simp] theorem existsSync_out (p : String) (w : World σ) : (existsSync p w).out = [] := rfl
@[simp] theorem existsSync_world (p : String) (w : World σ) : (existsSync p w).world = w := rfl

@[simp] theorem settlesFirst_res (c : Ctx σ) (n : Nat) (w : World σ) :
    (settlesFirst c n w).res = .ok (c.env.first w.ext % n) := rfl
@[simp] theorem settlesFirst_out (c : Ctx σ) (n : Nat) (w : World σ) :
    (settlesFirst c n w).out = [] := rfl
@[simp] theorem settlesFirst_world (c : Ctx σ) (n : Nat) (w : World σ) :
    (settlesFirst c n w).world = w := rfl

end Basics

/-! ### Visibility probes and ranked loops -/

section
variable {σ α β : Type}

theorem visibleOrFalse_out (c : Ctx σ) (loc : String) (w : World σ) :
    (visibleOrFalse c loc w).out =
      [Event.op (.isVisible loc) (c.env.perform (.isVisible loc) w.ext).1] := by
  simp only [visibleOrFalse, orElse, tryCatch_out, query_out, query_res]
  cases (c.env.perform (.isVisible loc) w.ext).1 <;> simp [Outcome.toRes]

theorem visibleOrFalse_res (c : Ctx σ) (loc : String) (w : World σ) :
    (visibleOrFalse c loc w).res =
      .ok (match (c.env.perform (.isVisible loc) w.ext).1 with
        | .ok v => v
        | .fail _ => false) := by
  simp only [visibleOrFalse, orElse, tryCatch_res, query_res]
  cases (c.env.perform (.isVisible loc) w.ext).1 <;> simp [Outcome.toRes]

theorem visibleOrFalse_never (c : Ctx σ) (loc : String) (h : NeverVisible c loc) (w : World σ) :
    (visibleOrFalse c loc w).res = .ok false := by
  rw [visibleOrFalse_res]
  have := h w.ext
  cases hq : (c.env.perform (.isVisible loc) w.ext).1 with
  | ok v => cases v <;> simp_all
  | fail m => rfl

theorem visibleOrFalse_always (c : Ctx σ) (loc : String) (h : AlwaysVisible c loc)
    (w : World σ) : (visibleOrFalse c loc w).res = .ok true := by
  rw [visibleOrFalse_res, h w.ext]

@[simp] theorem forFirst_nil (body : α → M σ (Option β)) :
    forFirst [] body = M.pure none := rfl

theorem forFirst_cons (x : α) (xs : List α) (body : α → M σ (Option β)) :
    forFirst (x :: xs) body =
      M.bind (body x) (fun r =>
        match r with
        | some b => M.pure (some b)
        | none => forFirst xs body) := rfl

/-- Candidates whose body falls through are skipped: the loop goes on with the rest, and
what the skipped bodies produced satisfies whatever each of them satisfies. -/
theorem forFirst_skip (P : Event → Prop) (body : α → M σ (Option β)) (rest : List α) :
    ∀ (pre : List α),
      (∀ l ∈ pre, ∀ w, (body l w).res = .ok none ∧ ∀ e ∈ (body l w).out, P e) →
      ∀ w, ∃ w1 o, (∀ e ∈ o, P e) ∧
        (forFirst (pre ++ rest) body w).res = (forFirst rest body w1).res ∧
        (forFirst (pre ++ rest) body w).out = o ++ (forFirst rest body w1).out ∧
        (forFirst (pre ++ rest) body w).world = (forFirst rest body w1).world := by
  intro pre
  induction pre with
  | nil => intro _ w; exact ⟨w, [], by simp, rfl, rfl, rfl⟩
  | cons x xs ih =>
    intro h w
    obtain ⟨hx1, hx2⟩ := h x (List.mem_cons_self _ _) w
    obtain ⟨w1, o, ho, h1, h2, h3⟩ :=
      ih (fun l hl => h l (List.mem_cons_of_mem _ hl)) (body x w).world
    refine ⟨w1, (body x w).out ++ o, ?_, ?_, ?_, ?_⟩
    · intro e he
      rcases List.mem_append.mp he with he | he
      · exact hx2 e he
      · exact ho e he
    · rw [List.cons_append, forFirst_cons, bind_res, hx1]; exact h1
    · rw [List.cons_append, forFirst_cons, bind_out, hx1]; simp only; rw [h2, List.append_assoc]
    · rw [List.cons_append, forFirst_cons, bind_world, hx1]; exact h3

@[simp] theorem clicksOf_nil : clicksOf [] = [] := rfl

@[simp] theorem clicksOf_cons (e : Event) (o : List Event) :
    clicksOf (e :: o) =
      (match e with
        | .op (.click l) _ => [l]
        | _ => []) ++ clicksOf o := by
  unfold clicksOf
  rcases e with ⟨t, a⟩ | ⟨o1, r⟩ | ms
  · simp
  · cases o1 <;> simp
  · simp

@[simp] theorem clicksOf_append (a b : List Event) : clicksOf (a ++ b) = clicksOf a ++ clicksOf b := by
  simp [clicksOf]

theorem clicksOf_eq_nil (o : List Event) (h : ∀ e ∈ o, NoClick e) : clicksOf o = [] := by
  unfold clicksOf
  rw [List.filterMap_eq_nil_iff]
  intro e he
  have := h e he
  split
  · rename_i l r; exact absurd rfl (this l r)
  · rfl

/-- A ranked loop whose candidates before `loc` fall through and whose body at `loc`
returns `true` after one click on `loc`. -/
theorem forFirst_ranked (body : String → M σ (Option Bool)) (pre post : List String)
    (loc : String)
    (hpre : ∀ l ∈ pre, ∀ w, (body l w).res = .ok none ∧ ∀ e ∈ (body l w).out, NoClick e)
    (hloc : ∀ w, (body loc w).res = .ok (some true) ∧ clicksOf (body loc w).out = [loc])
    (w : World σ) :
    (forFirst (pre ++ loc :: post) body w).res = .ok (some true) ∧
      clicksOf (forFirst (pre ++ loc :: post) body w).out = [loc] := by
  obtain ⟨w1, o, ho, h1, h2, _⟩ := forFirst_skip NoClick body (loc :: post) pre hpre w
  obtain ⟨hl1, hl2⟩ := hloc w1
  rw [h1, h2, clicksOf_append, clicksOf_eq_nil o ho, forFirst_cons, bind_res, bind_out, hl1]
  simp [hl2]

/-- A ranked loop all of whose candidates fall through. -/
theorem forFirst_none (body : String → M σ (Option Bool)) (cands : List String)
    (h : ∀ l ∈ cands, ∀ w, (body l w).res = .ok none ∧ ∀ e ∈ (body l w).out, NoClick e)
    (w : World σ) :
    (forFirst cands body w).res = .ok none ∧ clicksOf (forFirst cands body w).out = [] := by
  obtain ⟨w1, o, ho, h1, h2, _⟩ := forFirst_skip NoClick body [] cands h w
  rw [List.append_nil] at h1 h2
  rw [h1, h2, clicksOf_append, clicksOf_eq_nil o ho]
  simp

end

section
variable {σ : Type}

theorem applyStep_hidden (c : Ctx σ) (loc : String) (h : NeverVisible c loc) (w : World σ) :
    (applyStep c loc w).res = .ok none ∧ ∀ e ∈ (applyStep c loc w).out, NoClick e := by
  simp [applyStep, visibleOrFalse_never c loc h, visibleOrFalse_out, NoClick]

theorem applyStep_visible (c : Ctx σ) (loc : String) (h : AlwaysVisible c loc)
    (hc : Succeeds c (.click loc)) (w : World σ) :
    (applyStep c loc w).res = .ok (some true) ∧ clicksOf (applyStep c loc w).out = [loc] := by
  have hc1 := fun w => exec_res_ok c (.click loc) w (hc _)
  cases hx : (exec c (Op.waitForLoadState "networkidle") (visibleOrFalse c loc w).world).res <;>
    simp [applyStep, visibleOrFalse_always c loc h, visibleOrFalse_out, orElse, hx, hc1]

theorem corStep_hidden (c : Ctx σ) (loc : String) (h : NeverVisible c loc) (w : World σ) :
    (corStep c loc w).res = .ok none ∧ ∀ e ∈ (corStep c loc w).out, NoClick e := by
  simp [corStep, visibleOrFalse_never c loc h, visibleOrFalse_out, NoClick]

theorem corStep_visible (c : Ctx σ) (loc : String) (h : AlwaysVisible c loc)
    (hc : Succeeds c (.click loc)) (w : World σ) :
    (corStep c loc w).res = .ok (some true) ∧ clicksOf (corStep c loc w).out = [loc] := by
  have hc1 := fun w => exec_res_ok c (.click loc) w (hc _)
  simp [corStep, visibleOrFalse_always c loc h, visibleOrFalse_out, hc1]

theorem filterBarStep_hidden (c : Ctx σ) (loc : String) (h : NeverVisible c loc)
    (w : World σ) :
    (filterBarStep c loc w).res = .ok none ∧ ∀ e ∈ (filterBarStep c loc w).out, NoClick e := by
  simp [filterBarStep, visibleOrFalse_never c loc h, visibleOrFalse_out, NoClick]

theorem filterBarStep_visible (c : Ctx σ) (loc : String) (h : AlwaysVisible c loc)
    (hc : Succeeds c (.click loc)) (w : World σ) :
    (filterBarStep c loc w).res = .ok (some true) ∧
      clicksOf (filterBarStep c loc w).out = [loc] := by
  have hc1 := fun w => exec_res_ok c (.click loc) w (hc _)
  cases hx : (exec c (Op.scrollIntoViewIfNeeded loc) (visibleOrFalse c loc w).world).res <;>
    simp [filterBarStep, visibleOrFalse_always c loc h, visibleOrFalse_out, orElse, hx, hc1]

/-- What the three ranked operations do on a page where the candidates before `loc` are
never visible, `loc` is visible and the click on it succeeds, and on a page where no
candidate is visible. -/
theorem rankedOps_spec (c : Ctx σ) (cands : List String) (op : M σ Bool)
    (hop : (cands, op) ∈ rankedOps c) :
    (∀ pre loc post w, cands = pre ++ loc :: post → (∀ l ∈ pre, NeverVisible c l) →
        AlwaysVisible c loc → Succeeds c (.click loc) →
        (op w).res = .ok true ∧ clicksOf (op w).out = [loc]) ∧
      ((∀ l ∈ cands, NeverVisible c l) → ∀ w, (op w).res = .ok false ∧ clicksOf (op w).out = []) := by
  simp only [rankedOps, List.mem_cons, Prod.mk.injEq, List.mem_singleton, List.not_mem_nil,
    or_false] at hop
  rcases hop with ⟨rfl, rfl⟩ | ⟨rfl, rfl⟩ | ⟨rfl, rfl⟩
  · constructor
    · intro pre loc post w hc hpre hloc hclick
      obtain ⟨h1, h2⟩ := forFirst_ranked (applyStep c) pre post loc
        (fun l hl => applyStep_hidden c l (hpre l hl)) (applyStep_visible c loc hloc hclick)
        (log c "  Clicking Apply Filters..." [] w).world
      simp only [log_world] at h1 h2
      simp [clickApply, hc, h1, h2]
    · intro hall w
      obtain ⟨h1, h2⟩ := forFirst_none (applyStep c) applyCandidates
        (fun l hl => applyStep_hidden c l (hall l hl))
        (log c "  Clicking Apply Filters..." [] w).world
      simp only [log_world] at h1 h2
      simp [clickApply, h1, h2]
  · constructor
    · intro pre loc post w hc hpre hloc hclick
      obtain ⟨h1, h2⟩ := forFirst_ranked (corStep c) pre post loc
        (fun l hl => corStep_hidden c l (hpre l hl)) (corStep_visible c loc hloc hclick) w
      simp [openCORFromWelcome, hc, h1, h2]
    · intro hall w
      obtain ⟨h1, h2⟩ := forFirst_none (corStep c) corCandidates
        (fun l hl => corStep_hidden c l (hall l hl)) w
      simp [openCORFromWelcome, h1, h2]
  · constructor
    · intro pre loc post w hc hpre hloc hclick
      obtain ⟨h1, h2⟩ := forFirst_ranked (filterBarStep c) pre post loc
        (fun l hl => filterBarStep_hidden c l (hpre l hl))
        (filterBarStep_visible c loc hloc hclick)
        (log c "  Attempting to click Filter bar..." [] w).world
      simp only [log_world] at h1 h2
      simp [clickFilterBar, hc, h1, h2]
    · intro hall w
      obtain ⟨h1, h2⟩ := forFirst_none (filterBarStep c) filterBarCandidates
        (fun l hl => filterBarStep_hidden c l (hall l hl))
        (log c "  Attempting to click Filter bar..." [] w).world
      simp only [log_world] at h1 h2
      simp [clickFilterBar, h1, h2]

end

/-! ### The filter panel -/

section
variable {σ α β : Type}

@[simp] theorem countLog_nil (t : String) : countLog t [] = 0 := rfl

@[simp] theorem countLog_append (t : String) (a b : List Event) :
    countLog t (a ++ b) = countLog t a + countLog t b := by
  simp [countLog]

@[simp] theorem countLog_cons (t : String) (e : Event) (o : List Event) :
    countLog t (e :: o) =
      (match e with
        | .log t1 _ => if t1 = t then 1 else 0
        | _ => 0) + countLog t o := by
  unfold countLog
  rcases e with ⟨t1, a⟩ | ⟨o1, r⟩ | ms
  · by_cases h : t1 = t <;> simp [List.countP_cons, h, Nat.add_comm, isLog]
  · simp [List.countP_cons, isLog]
  · simp [List.countP_cons, isLog]

/-- A loop all of whose rounds fall through, each writing the line `t` once, writes it
once per round. -/
theorem forFirst_count (t : String) (body : α → M σ (Option β)) :
    ∀ (xs : List α),
      (∀ x ∈ xs, ∀ w, (body x w).res = .ok none ∧ countLog t (body x w).out = 1) →
      ∀ w, (forFirst xs body w).res = .ok none ∧ countLog t (forFirst xs body w).out = xs.length := by
  intro xs
  induction xs with
  | nil => intro _ w; simp
  | cons x xs ih =>
    intro h w
    obtain ⟨hx1, hx2⟩ := h x (List.mem_cons_self _ _) w
    obtain ⟨h1, h2⟩ := ih (fun l hl => h l (List.mem_cons_of_mem _ hl)) (body x w).world
    simp [forFirst_cons, hx1, hx2, h1, h2, Nat.add_comm]

/-- A loop whose rounds never raise and never write the line `t` does neither. -/
theorem forFirst_quiet (t : String) (body : α → M σ (Option β)) :
    ∀ (xs : List α),
      (∀ x ∈ xs, ∀ w, (∃ r, (body x w).res = .ok r) ∧ countLog t (body x w).out = 0) →
      ∀ w, (∃ r, (forFirst xs body w).res = .ok r) ∧ countLog t (forFirst xs body w).out = 0 := by
  intro xs
  induction xs with
  | nil => intro _ w; simp
  | cons x xs ih =>
    intro h w
    obtain ⟨⟨r, hx1⟩, hx2⟩ := h x (List.mem_cons_self _ _) w
    obtain ⟨⟨r2, h1⟩, h2⟩ := ih (fun l hl => h l (List.mem_cons_of_mem _ hl)) (body x w).world
    cases r with
    | none => simp [forFirst_cons, hx1, hx2, h1, h2]
    | some b => simp [forFirst_cons, hx1, hx2]

end

section
variable {σ : Type}

theorem filterBarStep_quiet (c : Ctx σ) (loc : String) (w : World σ) :
    (∃ r, (filterBarStep c loc w).res = .ok r) ∧
      countLog filterBarLine (filterBarStep c loc w).out = 0 := by
  rcases hv : (c.env.perform (.isVisible loc) w.ext).1 with v | m
  · cases v
    · simp [filterBarStep, visibleOrFalse_res, visibleOrFalse_out, hv, filterBarLine]
    · cases hs : (exec c (Op.scrollIntoViewIfNeeded loc) (visibleOrFalse c loc w).world).res <;>
        cases hk : (exec c (Op.click loc)
          (orElse (exec c (Op.scrollIntoViewIfNeeded loc)) () (visibleOrFalse c loc w).world).world).res <;>
        simp_all [filterBarStep, visibleOrFalse_res, visibleOrFalse_out, hv, filterBarLine, orElse]
  · simp [filterBarStep, visibleOrFalse_res, visibleOrFalse_out, hv, filterBarLine]

theorem clickFilterBar_once (c : Ctx σ) (w : World σ) :
    (∃ b, (clickFilterBar c w).res = .ok b) ∧
      countLog filterBarLine (clickFilterBar c w).out = 1 := by
  obtain ⟨⟨r, h1⟩, h2⟩ := forFirst_quiet filterBarLine (filterBarStep c) filterBarCandidates
    (fun l _ => filterBarStep_quiet c l) (log c filterBarLine [] w).world
  simp only [log_world, filterBarLine] at h1 h2
  simp [clickFilterBar, h1, h2, filterBarLine]

theorem filterControlsRace_hidden (c : Ctx σ) (h : PanelHidden c) (w : World σ) :
    (filterControlsRace c w).res = .ok false ∧
      countLog filterBarLine (filterControlsRace c w).out = 0 := by
  obtain ⟨h1, h2, h3⟩ := h
  simp [filterControlsRace, visibleOrFalse_never c _ h1, visibleOrFalse_never c _ h2,
    visibleOrFalse_never c _ h3, visibleOrFalse_out]

theorem wait_ok (c : Ctx σ) (hw : WaitsComplete c) (ms : Nat) (w : World σ) :
    (exec c (.waitForTimeout ms) w).res = .ok () :=
  exec_res_ok c _ w (hw ms w.ext)

theorem panelRound_hidden (c : Ctx σ) (h : PanelHidden c) (hw : WaitsComplete c) (k : Nat)
    (w : World σ) :
    (panelRound c k w).res = .ok none ∧ countLog filterBarLine (panelRound c k w).out = 1 := by
  have hwait := wait_ok c hw
  obtain ⟨⟨b, h1⟩, h2⟩ := clickFilterBar_once c
    (log c "  Attempt $1 to open filter panel..." [toString (k + 1)] w).world
  simp only [log_world, filterBarLine] at h1 h2
  cases b
  · simp [panelRound, h1, h2, hwait, filterBarLine]
  · obtain ⟨h3, h4⟩ := filterControlsRace_hidden c h
      (exec c (.waitForTimeout 1000)
        (clickFilterBar c ⟨w.ext, w.files.insert (LOG_FILE c.cfg)⟩).world).world
    simp only [filterBarLine, exec_world] at h3 h4
    simp [panelRound, h1, h2, h3, h4, hwait, filterBarLine]

theorem ensureFilterPanel_hidden (c : Ctx σ) (h : PanelHidden c) (hw : WaitsComplete c)
    (w : World σ) :
    (ensureFilterPanel c w).res = .ok false ∧
      countLog filterBarLine (ensureFilterPanel c w).out = 10 := by
  obtain ⟨h3, h4⟩ := filterControlsRace_hidden c h
    (log c "  Checking if filter panel is already open..." [] w).world
  obtain ⟨h1, h2⟩ := forFirst_count filterBarLine (panelRound c) (List.range 10)
    (fun k _ => panelRound_hidden c h hw k)
    (filterControlsRace c (log c "  Checking if filter panel is already open..." [] w).world).world
  simp only [log_world, filterBarLine, List.length_range] at h1 h2 h3 h4
  simp [ensureFilterPanel, h1, h2, h3, h4, filterBarLine]

theorem runBody_panel_hidden (c : Ctx σ) (h : PanelHidden c) (hw : WaitsComplete c)
    (reps : List Rep) (d : String) (w : World σ) (hopen : (openReport c w).res = .ok ()) :
    (runBody c reps d w).res = .throw (.error "Could not open Filter panel") := by
  obtain ⟨h1, _⟩ := ensureFilterPanel_hidden c h hw
    (log c "Opening Filter panel…" [] (openReport c w).world).world
  simp only [log_world] at h1
  simp [runBody, hopen, h1]

theorem reopenFilterPanel_hidden (c : Ctx σ) (h : PanelHidden c) (hw : WaitsComplete c)
    (rep : Rep) (w : World σ) :
    (reopenFilterPanel c rep w).res =
      .throw (match (c.env.perform (.screenshot (panelFailedShot c.cfg rep))
          (ensureFilterPanel c w).world.ext).1 with
        | .ok _ => .error "Could not re-open Filter panel for next rep"
        | .fail m => .external m) := by
  obtain ⟨h1, _⟩ := ensureFilterPanel_hidden c h hw w
  cases hs : (c.env.perform (.screenshot (panelFailedShot c.cfg rep))
      (ensureFilterPanel c w).world.ext).1 <;>
    simp_all [reopenFilterPanel, h1, exec_res, panelFailedShot]

end

/-! ### safeGoto -/

section
variable {σ : Type}

theorem safeGotoLoop_zero (c : Ctx σ) (url : String) (n : Nat) (wu : String) (i : Nat)
    (lastErr : Thrown) : safeGotoLoop c url n wu 0 i lastErr = throwE lastErr := rfl

/-- What one more iteration of the loop of `safeGoto` does, by the outcomes of its calls:
the `page.goto` succeeds; or it raises and the wait raises; or the in-page redirect
completes; or the loop goes on. -/
theorem safeGotoLoop_succ (c : Ctx σ) (url : String) (n : Nat) (wu : String) (fuel i : Nat)
    (lastErr : Thrown) (w : World σ) :
    (∃ v, (c.env.perform (.goto url (some wu)) w.ext).1 = .ok v ∧
      (safeGotoLoop c url n wu (fuel + 1) i lastErr w).res = .ok () ∧
      (safeGotoLoop c url n wu (fuel + 1) i lastErr w).out =
        [Event.op (.goto url (some wu)) (.ok v)]) ∨
    (∃ m t mw, (safeGotoLoop c url n wu (fuel + 1) i lastErr w).res = .throw (.external mw) ∧
      (safeGotoLoop c url n wu (fuel + 1) i lastErr w).out =
        [Event.op (.goto url (some wu)) (.fail m), t,
          Event.op (.waitForTimeout 700) (.fail mw)] ∧
      loaded t = false ∧ gotoCount [t] = 0 ∧ redirectCount [t] = 0 ∧ gotoErrors [t] = []) ∨
    (∃ m pre e, (safeGotoLoop c url n wu (fuel + 1) i lastErr w).res = .ok () ∧
      (safeGotoLoop c url n wu (fuel + 1) i lastErr w).out =
        Event.op (.goto url (some wu)) (.fail m) :: pre ++ [e] ∧
      loaded e = true ∧ (∀ x ∈ pre, loaded x = false) ∧
      gotoCount (pre ++ [e]) = 0) ∨
    (∃ m pre w1, (safeGotoLoop c url n wu (fuel + 1) i lastErr w).res =
        (safeGotoLoop c url n wu fuel (i + 1) (.external m) w1).res ∧
      (safeGotoLoop c url n wu (fuel + 1) i lastErr w).out =
        Event.op (.goto url (some wu)) (.fail m) :: pre ++
          (safeGotoLoop c url n wu fuel (i + 1) (.external m) w1).out ∧
      (∀ x ∈ pre, loaded x = false) ∧ gotoCount pre = 0 ∧ redirectCount pre = 1 ∧
      gotoErrors pre = []) := by
  rcases hg : (c.env.perform (.goto url (some wu)) w.ext).1 with v | m
  · left
    exact ⟨v, rfl, by simp [safeGotoLoop, exec_res, hg], by simp [safeGotoLoop, exec_res, hg]⟩
  · right
    rcases ht : (c.env.perform (.waitForTimeout 700)
        (c.env.perform (.goto url (some wu)) w.ext).2).1 with vt | mt
    · right
      rcases ha : (c.env.perform (.locationAssign url)
          (c.env.perform (.waitForTimeout 700) (c.env.perform (.goto url (some wu)) w.ext).2).2).1
        with va | ma
      · rcases hw : (c.env.perform (.waitForLoadState "domcontentloaded")
          (c.env.perform (.locationAssign url)
            (c.env.perform (.waitForTimeout 700)
              (c.env.perform (.goto url (some wu)) w.ext).2).2).2).1
          with vw | mw
        · left
          refine ⟨m, [Event.log "safeGoto attempt $1/$2 to $3 failed: $4"
              [toString (i + 1), toString n, url, m], .op (.waitForTimeout 700) (.ok vt),
              .op (.locationAssign url) (.ok va)],
            .op (.waitForLoadState "domcontentloaded") (.ok vw), ?_, ?_, ?_, ?_, ?_⟩
          · simp [safeGotoLoop, exec_res, hg, ht, ha, hw, filesAfter, Thrown.text]
          · simp [safeGotoLoop, exec_res, hg, ht, ha, hw, filesAfter, Thrown.text]
          · rfl
          · simp [loaded]
          · simp [gotoCount]
        · right
          refine ⟨m, [Event.log "safeGoto attempt $1/$2 to $3 failed: $4"
              [toString (i + 1), toString n, url, m], .op (.waitForTimeout 700) (.ok vt),
              .op (.locationAssign url) (.ok va),
              .op (.waitForLoadState "domcontentloaded") (.fail mw)],
            (exec c (.waitForLoadState "domcontentloaded")
              (exec c (.locationAssign url)
                (exec c (.waitForTimeout 700)
                  (log c "safeGoto attempt $1/$2 to $3 failed: $4"
                    [toString (i + 1), toString n, url, m]
                    (exec c (.goto url (some wu)) w).world).world).world).world).world,
            ?_, ?_, ?_, ?_, ?_, ?_⟩
          · simp [safeGotoLoop, exec_res, hg, ht, ha, hw, filesAfter, Thrown.text]
          · simp [safeGotoLoop, exec_res, hg, ht, ha, hw, filesAfter, Thrown.text]
          · simp [loaded]
          · simp [gotoCount]
          · simp [redirectCount]
          · simp [gotoErrors]
      · right
        refine ⟨m, [Event.log "safeGoto attempt $1/$2 to $3 failed: $4"
            [toString (i + 1), toString n, url, m], .op (.waitForTimeout 700) (.ok vt),
            .op (.locationAssign url) (.fail ma)],
          (exec c (.locationAssign url)
            (exec c (.waitForTimeout 700)
              (log c "safeGoto attempt $1/$2 to $3 failed: $4"
                [toString (i + 1), toString n, url, m]
                (exec c (.goto url (some wu)) w).world).world).world).world,
          ?_, ?_, ?_, ?_, ?_, ?_⟩
        · simp [safeGotoLoop, exec_res, hg, ht, ha, filesAfter, Thrown.text]
        · simp [safeGotoLoop, exec_res, hg, ht, ha, filesAfter, Thrown.text]
        · simp [loaded]
        · simp [gotoCount]
        · simp [redirectCount]
        · simp [gotoErrors]
    · left
      refine ⟨m, Event.log "safeGoto attempt $1/$2 to $3 failed: $4"
          [toString (i + 1), toString n, url, m], mt, ?_, ?_, rfl, rfl, rfl, rfl⟩
      · simp [safeGotoLoop, exec_res, hg, ht, Thrown.text]
      · simp [safeGotoLoop, exec_res, hg, ht, Thrown.text]

theorem gotoCount_cons_append (url : String) (wu : Option String) (r : Outcome)
    (pre rest : List Event) (h : gotoCount pre = 0) :
    gotoCount (Event.op (.goto url wu) r :: pre ++ rest) = gotoCount rest + 1 := by
  unfold gotoCount at *
  simp [List.countP_cons, List.countP_append, h]

theorem redirectCount_cons_append (url : String) (wu : Option String) (r : Outcome)
    (pre rest : List Event) (h : redirectCount pre = 1) :
    redirectCount (Event.op (.goto url wu) r :: pre ++ rest) = redirectCount rest + 1 := by
  unfold redirectCount at *
  simp [List.countP_cons, List.countP_append, h, Nat.add_comm]

theorem gotoErrors_cons_append (url : String) (wu : Option String) (m : String)
    (pre rest : List Event) (h : gotoErrors pre = []) :
    gotoErrors (Event.op (.goto url wu) (.fail m) :: pre ++ rest) = m :: gotoErrors rest := by
  unfold gotoErrors at *
  simp [List.filterMap_cons, List.filterMap_append, h]

theorem lastGotoError_cons (m : String) (rest : List String) (lastErr : Thrown) :
    lastGotoError (m :: rest) lastErr = lastGotoError rest (.external m) := by
  unfold lastGotoError
  cases rest with
  | nil => rfl
  | cons x xs =>
    cases h : (x :: xs).getLast? with
    | none => simp at h
    | some y => simp [List.getLast?_cons_cons, h]

/-- The loop of `safeGoto`, by induction on the iterations left. -/
theorem safeGotoLoop_spec (c : Ctx σ) (url : String) (n : Nat) (wu : String) :
    ∀ (fuel i : Nat) (lastErr : Thrown) (w : World σ),
      gotoCount (safeGotoLoop c url n wu fuel i lastErr w).out ≤ fuel ∧
      ((safeGotoLoop c url n wu fuel i lastErr w).res = .ok () →
        ∃ pre e, (safeGotoLoop c url n wu fuel i lastErr w).out = pre ++ [e] ∧
          loaded e = true ∧ ∀ x ∈ pre, loaded x = false) ∧
      (∀ err, (safeGotoLoop c url n wu fuel i lastErr w).res = .throw err →
        (∀ x ∈ (safeGotoLoop c url n wu fuel i lastErr w).out, loaded x = false) ∧
        (gotoErrors (safeGotoLoop c url n wu fuel i lastErr w).out).length =
          gotoCount (safeGotoLoop c url n wu fuel i lastErr w).out ∧
        ((gotoCount (safeGotoLoop c url n wu fuel i lastErr w).out = fuel ∧
            redirectCount (safeGotoLoop c url n wu fuel i lastErr w).out = fuel ∧
            err = lastGotoError (gotoErrors (safeGotoLoop c url n wu fuel i lastErr w).out)
              lastErr) ∨
          (∃ mw pre, (safeGotoLoop c url n wu fuel i lastErr w).out =
              pre ++ [Event.op (.waitForTimeout 700) (.fail mw)] ∧
            err = .external mw ∧
            redirectCount (safeGotoLoop c url n wu fuel i lastErr w).out < fuel))) := by
  intro fuel
  induction fuel with
  | zero =>
    intro i lastErr w
    simp [safeGotoLoop_zero, gotoCount, redirectCount, gotoErrors, lastGotoError]
  | succ fuel ih =>
    intro i lastErr w
    rcases safeGotoLoop_succ c url n wu fuel i lastErr w with
      ⟨v, _, h1, h2⟩ | ⟨m, t, mw, h1, h2, h3, h4, h5, h6⟩ | ⟨m, pre, e, h1, h2, h3, h4, h5⟩ |
      ⟨m, pre, w1, h1, h2, h3, h4, h5, h6⟩
    · rw [h1, h2]
      refine ⟨by simp [gotoCount], fun _ => ⟨[], _, rfl, rfl, by simp⟩, ?_⟩
      intro err h; cases h
    · rw [h1, h2]
      have e2 : [Event.op (.goto url (some wu)) (.fail m), t,
            Event.op (.waitForTimeout 700) (.fail mw)] =
          Event.op (.goto url (some wu)) (.fail m) :: [t] ++
            [Event.op (.waitForTimeout 700) (.fail mw)] := rfl
      have g1 := gotoCount_cons_append url (some wu) (.fail m) [t]
        [Event.op (.waitForTimeout 700) (.fail mw)] h4
      have g3 := gotoErrors_cons_append url (some wu) m [t]
        [Event.op (.waitForTimeout 700) (.fail mw)] h6
      have g2 : redirectCount [Event.op (.goto url (some wu)) (.fail m), t,
            Event.op (.waitForTimeout 700) (.fail mw)] = 0 := by
        have : redirectCount [t] = 0 := h5
        unfold redirectCount at this ⊢
        simp only [List.countP_cons, List.countP_nil] at this ⊢
        simpa using this
      rw [← e2] at g1 g3
      refine ⟨?_, ?_, ?_⟩
      · rw [g1]; simp [gotoCount]
      · intro h; cases h
      · intro err herr
        cases herr
        refine ⟨?_, ?_, Or.inr ⟨mw, [Event.op (.goto url (some wu)) (.fail m), t], rfl, rfl, ?_⟩⟩
        · intro x hx
          simp only [List.mem_cons, List.mem_singleton, List.not_mem_nil, or_false] at hx
          rcases hx with rfl | rfl | rfl
          · rfl
          · exact h3
          · rfl
        · rw [g1, g3]; simp [gotoErrors, gotoCount]
        · rw [g2]; omega
    · rw [h1, h2]
      refine ⟨?_, fun _ => ⟨Event.op (.goto url (some wu)) (.fail m) :: pre, e, rfl, h3, ?_⟩, ?_⟩
      · have := gotoCount_cons_append url (some wu) (.fail m) (pre ++ [e]) [] h5
        rw [List.append_nil] at this
        have e2 : Event.op (.goto url (some wu)) (.fail m) :: pre ++ [e] =
            Event.op (.goto url (some wu)) (.fail m) :: (pre ++ [e]) := rfl
        rw [e2, this]
        simp [gotoCount]
      · intro x hx
        rcases List.mem_cons.mp hx with rfl | hx
        · rfl
        · exact h4 x hx
      · intro err h; cases h
    · obtain ⟨i1, i2, i3⟩ := ih (i + 1) (.external m) w1
      rw [h1, h2]
      refine ⟨?_, ?_, ?_⟩
      · rw [gotoCount_cons_append _ _ _ _ _ h4]; omega
      · intro hok
        obtain ⟨pre2, e, j1, j2, j3⟩ := i2 hok
        refine ⟨Event.op (.goto url (some wu)) (.fail m) :: pre ++ pre2, e, ?_, j2, ?_⟩
        · rw [j1]; simp
        · intro x hx
          rcases List.mem_cons.mp hx with rfl | hx
          · rfl
          · rcases List.mem_append.mp hx with hx | hx
            · exact h3 x hx
            · exact j3 x hx
      · intro err herr
        obtain ⟨k1, k2, k3⟩ := i3 err herr
        refine ⟨?_, ?_, ?_⟩
        · intro x hx
          rcases List.mem_cons.mp hx with rfl | hx
          · rfl
          · rcases List.mem_append.mp hx with hx | hx
            · exact h3 x hx
            · exact k1 x hx
        · rw [gotoErrors_cons_append _ _ _ _ _ h6, List.length_cons, k2,
            gotoCount_cons_append _ _ _ _ _ h4]
        · rcases k3 with ⟨a1, a2, a3⟩ | ⟨mw, pre2, b1, b2, b3⟩
          · left
            refine ⟨?_, ?_, ?_⟩
            · rw [gotoCount_cons_append _ _ _ _ _ h4, a1]
            · rw [redirectCount_cons_append _ _ _ _ _ h5, a2]
            · rw [gotoErrors_cons_append _ _ _ _ _ h6, lastGotoError_cons]; exact a3
          · right
            refine ⟨mw, Event.op (.goto url (some wu)) (.fail m) :: pre ++ pre2, ?_, b2, ?_⟩
            · rw [b1]; simp
            · rw [redirectCount_cons_append _ _ _ _ _ h5]; omega

end

/-! ### Returning to the landing page -/

section
variable {σ α β : Type}

@[simp] theorem shotCalls_nil : shotCalls [] = [] := rfl

@[simp] theorem shotCalls_append (a b : List Event) :
    shotCalls (a ++ b) = shotCalls a ++ shotCalls b := by
  simp [shotCalls]

@[simp] theorem shotCalls_cons (e : Event) (o : List Event) :
    shotCalls (e :: o) =
      (match e with
        | .op (.screenshot p) _ => [p]
        | _ => []) ++ shotCalls o := by
  unfold shotCalls
  rcases e with ⟨t, a⟩ | ⟨o1, r⟩ | ms
  · simp
  · cases o1 <;> simp
  · simp

/-- A loop whose rounds each write the line `t` at most once writes it at most once per
round. -/
theorem forFirst_count_le (t : String) (body : α → M σ (Option β)) :
    ∀ (xs : List α), (∀ x w, countLog t (body x w).out ≤ 1) →
      ∀ w, countLog t (forFirst xs body w).out ≤ xs.length := by
  intro xs
  induction xs with
  | nil => intro _ w; simp
  | cons x xs ih =>
    intro h w
    have hx := h x w
    have hr := ih h (body x w).world
    rcases hb : (body x w).res with r | e
    · cases r with
      | none => simp [forFirst_cons, hb]; omega
      | some b => simp [forFirst_cons, hb]; omega
    · simp [forFirst_cons, hb]; omega

theorem safeLoop_zero (c : Ctx σ) (name : String) (fn : M σ α) (retries delayMs i : Nat)
    (lastErr : Thrown) : safeLoop c name fn retries delayMs 0 i lastErr = throwE lastErr := rfl

theorem safeLoop_succ (c : Ctx σ) (name : String) (fn : M σ α) (retries delayMs fuel i : Nat)
    (lastErr : Thrown) :
    safeLoop c name fn retries delayMs (fuel + 1) i lastErr =
      tryCatch fn (fun err =>
        M.bind (log c "$1 failed (attempt $2/$3): $4"
          [name, toString (i + 1), toString (retries + 1), err.text]) (fun _ =>
        M.bind (whenM (decide (i < retries)) (delay delayMs)) (fun _ =>
        safeLoop c name fn retries delayMs fuel (i + 1) err))) := rfl

@[simp] theorem whenM_true (m : M σ Unit) : whenM true m = m := rfl
@[simp] theorem whenM_false (m : M σ Unit) : whenM false m = M.pure () := rfl

theorem whenM_delay_res (b : Bool) (ms : Nat) (w : World σ) :
    (whenM b (delay ms) w).res = .ok () := by cases b <;> rfl

theorem whenM_delay_world (b : Bool) (ms : Nat) (w : World σ) :
    (whenM b (delay ms) w).world = w := by cases b <;> rfl

theorem whenM_delay_out (b : Bool) (ms : Nat) (w : World σ) :
    (whenM b (delay ms) w).out = if b then [Event.wait ms] else [] := by cases b <;> rfl

/-- The retries of `safe` multiply the number of lines `t` its body may write. -/
theorem safeLoop_count_le (c : Ctx σ) (name : String) (fn : M σ α) (retries delayMs : Nat)
    (t : String) (k : Nat) (ht : t ≠ "$1 failed (attempt $2/$3): $4")
    (hfn : ∀ w, countLog t (fn w).out ≤ k) :
    ∀ (fuel i : Nat) (lastErr : Thrown) (w : World σ),
      countLog t (safeLoop c name fn retries delayMs fuel i lastErr w).out ≤ fuel * k := by
  intro fuel
  induction fuel with
  | zero => intro i lastErr w; simp [safeLoop_zero]
  | succ fuel ih =>
    intro i lastErr w
    have h1 := hfn w
    rcases hb : (fn w).res with r | e
    · simp [safeLoop_succ, hb]
      have : k ≤ (fuel + 1) * k := Nat.le_mul_of_pos_left k (Nat.succ_pos fuel)
      omega
    · have h2 := ih (i + 1) e
        (whenM (decide (i < retries)) (delay delayMs)
          (log c "$1 failed (attempt $2/$3): $4"
            [name, toString (i + 1), toString (retries + 1), e.text] (fn w).world).world).world
      simp only [whenM_delay_world, log_world] at h2
      simp [safeLoop_succ, hb, whenM_delay_res, whenM_delay_world, whenM_delay_out, Ne.symm ht]
      have : (fuel + 1) * k = fuel * k + k := Nat.succ_mul fuel k
      split <;> simp <;> omega

end

/-! ### Computations that stay silent about chosen events -/

section
variable {σ α β : Type} {ts : List String} {ops : Op → Bool}

theorem Silent.pure (a : α) : Silent ts ops (M.pure a : M σ α) := by
  refine ⟨fun w e he => ?_⟩; simp at he

theorem Silent.throwE (x : Thrown) : Silent ts ops (throwE x : M σ α) := by
  refine ⟨fun w e he => ?_⟩; simp at he

theorem Silent.bind {m : M σ α} {f : α → M σ β} (hm : Silent ts ops m)
    (hf : ∀ a, Silent ts ops (f a)) : Silent ts ops (M.bind m f) := by
  refine ⟨fun w e he => ?_⟩
  rw [bind_out] at he
  rcases List.mem_append.mp he with he | he
  · exact hm.silent w e he
  · rcases hr : (m w).res with a | x
    · rw [hr] at he; exact (hf a).silent _ e he
    · rw [hr] at he; simp at he

theorem Silent.tryCatch {m : M σ α} {h : Thrown → M σ α} (hm : Silent ts ops m)
    (hh : ∀ x, Silent ts ops (h x)) : Silent ts ops (tryCatch m h) := by
  refine ⟨fun w e he => ?_⟩
  rw [tryCatch_out] at he
  rcases List.mem_append.mp he with he | he
  · exact hm.silent w e he
  · rcases hr : (m w).res with a | x
    · rw [hr] at he; simp at he
    · rw [hr] at he; exact (hh x).silent _ e he

theorem Silent.tryFinally {m : M σ α} {fin : M σ Unit} (hm : Silent ts ops m)
    (hf : Silent ts ops fin) : Silent ts ops (tryFinally m fin) := by
  refine ⟨fun w e he => ?_⟩
  rw [tryFinally_out] at he
  rcases List.mem_append.mp he with he | he
  · exact hm.silent w e he
  · exact hf.silent _ e he

theorem Silent.orElse {m : M σ α} (d : α) (hm : Silent ts ops m) :
    Silent ts ops (orElse m d) :=
  Silent.tryCatch hm (fun _ => Silent.pure d)

theorem Silent.query (c : Ctx σ) (o : Op) (h : ops o = false) : Silent ts ops (query c o) := by
  refine ⟨fun w e he => ?_⟩
  simp only [query_out, List.mem_singleton] at he
  subst he
  simp [silentEvent, h]

theorem Silent.exec (c : Ctx σ) (o : Op) (h : ops o = false) : Silent ts ops (exec c o) := by
  refine ⟨fun w e he => ?_⟩
  simp only [exec_out, List.mem_singleton] at he
  subst he
  simp [silentEvent, h]

theorem Silent.delay (ms : Nat) : Silent ts ops (delay ms : M σ Unit) := by
  refine ⟨fun w e he => ?_⟩
  simp only [delay_out, List.mem_singleton] at he
  subst he
  rfl

theorem Silent.log (c : Ctx σ) (t : String) (a : List String) (h : t ∉ ts) :
    Silent ts ops (log c t a) := by
  refine ⟨fun w e he => ?_⟩
  simp only [log_out, List.mem_singleton] at he
  subst he
  simp [silentEvent, h]

theorem Silent.existsSync (p : String) : Silent ts ops (existsSync p : M σ Bool) := by
  refine ⟨fun w e he => ?_⟩; simp at he

theorem Silent.settlesFirst (c : Ctx σ) (n : Nat) : Silent ts ops (settlesFirst c n) := by
  refine ⟨fun w e he => ?_⟩; simp at he

theorem Silent.ite {p : Prop} [Decidable p] {a b : M σ α} (ha : Silent ts ops a)
    (hb : Silent ts ops b) : Silent ts ops (if p then a else b) := by
  split
  · exact ha
  · exact hb

theorem Silent.whenM {b : Bool} {m : M σ Unit} (hm : Silent ts ops m) :
    Silent ts ops (whenM b m) := by
  cases b
  · exact Silent.pure ()
  · exact hm

theorem Silent.visibleOrFalse (c : Ctx σ) (loc : String) (h : ops (.isVisible loc) = false) :
    Silent ts ops (visibleOrFalse c loc) :=
  Silent.orElse false (Silent.query c _ h)

theorem Silent.forFirst {body : α → M σ (Option β)} (hb : ∀ x, Silent ts ops (body x)) :
    ∀ xs : List α, Silent ts ops (forFirst xs body) := by
  intro xs
  induction xs with
  | nil => exact Silent.pure none
  | cons x xs ih =>
    rw [forFirst_cons]
    refine Silent.bind (hb x) (fun r => ?_)
    cases r with
    | none => exact ih
    | some b => exact Silent.pure _

theorem Silent.safeLoop (c : Ctx σ) (name : String) {fn : M σ α} (retries delayMs : Nat)
    (hfn : Silent ts ops fn) (ht : "$1 failed (attempt $2/$3): $4" ∉ ts) :
    ∀ (fuel i : Nat) (lastErr : Thrown),
      Silent ts ops (safeLoop c name fn retries delayMs fuel i lastErr) := by
  intro fuel
  induction fuel with
  | zero => intro i lastErr; exact Silent.throwE lastErr
  | succ fuel ih =>
    intro i lastErr
    rw [safeLoop_succ]
    refine Silent.tryCatch hfn (fun err => ?_)
    refine Silent.bind (Silent.log c _ _ ht) (fun _ => ?_)
    exact Silent.bind (Silent.whenM (Silent.delay _)) (fun _ => ih (i + 1) err)

theorem Silent.safe (c : Ctx σ) (name : String) {fn : M σ α} (retries delayMs : Nat)
    (hfn : Silent ts ops fn) (ht : "$1 failed (attempt $2/$3): $4" ∉ ts) :
    Silent ts ops (safe c name fn retries delayMs) :=
  Silent.safeLoop c name retries delayMs hfn ht _ _ _

theorem Silent.countLog_eq_zero {m : M σ α} (h : Silent ts ops m) (t : String) (ht : t ∈ ts)
    (w : World σ) : countLog t (m w).out = 0 := by
  unfold countLog
  rw [List.countP_eq_zero]
  intro e he
  have := h.silent w e he
  rcases e with ⟨t1, a⟩ | ⟨o1, r⟩ | ms
  · simp only [silentEvent, Bool.not_eq_true', decide_eq_false_iff_not] at this
    simp only [isLog, decide_eq_true_eq]
    intro h2; exact this (h2 ▸ ht)
  · simp [isLog]
  · simp [isLog]

theorem Silent.shotCalls_eq_nil {m : M σ α} (h : Silent ts isShot m) (w : World σ) :
    shotCalls (m w).out = [] := by
  unfold shotCalls
  rw [List.filterMap_eq_nil_iff]
  intro e he
  have := h.silent w e he
  rcases e with ⟨t1, a⟩ | ⟨o1, r⟩ | ms
  · rfl
  · cases o1 <;> first | rfl | simp [silentEvent, isShot] at this
  · rfl

end

section
variable {σ : Type}

theorem landingRace_silent (c : Ctx σ) (ts : List String) (ops : Op → Bool)
    (h : ∀ loc, ops (.isVisible loc) = false) : Silent ts ops (landingRace c) := by
  simp only [landingRace, bind_eq, pure_eq]
  repeat' first
    | intro _
    | apply Silent.bind
    | apply Silent.pure
    | apply Silent.visibleOrFalse
    | apply Silent.settlesFirst
    | apply h

end

section
variable {σ α β : Type}

/-- A computation that writes the line `t` and then stays silent about it writes it once. -/
theorem countLog_log_bind (c : Ctx σ) (t : String) (args : List String) (ops : Op → Bool)
    (f : Unit → M σ α) (hf : ∀ a, Silent [t] ops (f a)) (w : World σ) :
    countLog t (M.bind (log c t args) f w).out = 1 := by
  simp [Silent.countLog_eq_zero (hf ()) t (by simp)]

theorem navigateBack_silent (c : Ctx σ) (ts : List String) (ops : Op → Bool)
    (h1 : ∀ loc, ops (.isVisible loc) = false) (h2 : ∀ loc, ops (.click loc) = false)
    (h3 : ops .goBack = false) (h4 : ∀ ms, ops (.waitForTimeout ms) = false) :
    Silent ts ops (navigateBack c) := by
  simp only [navigateBack, bind_eq, pure_eq]
  repeat' first
    | intro _
    | apply Silent.visibleOrFalse
    | apply Silent.exec
    | apply Silent.delay
    | apply Silent.pure
    | apply Silent.orElse
    | apply Silent.ite
    | apply Silent.bind
    | apply h1
    | apply h2
    | apply h3
    | apply h4

theorem landingRound_count (c : Ctx σ) (rep : Rep) (mx k : Nat) (w : World σ) :
    countLog navLine (landingRound c rep mx k w).out = 1 := by
  simp only [landingRound, verifyLanding, bind_eq, pure_eq, navLine]
  apply countLog_log_bind c _ _ noOp
  intro _
  repeat' first
    | decide
    | intro _
    | apply landingRace_silent
    | apply navigateBack_silent
    | apply Silent.visibleOrFalse
    | apply Silent.exec
    | apply Silent.query
    | apply Silent.delay
    | apply Silent.log
    | apply Silent.pure
    | apply Silent.throwE
    | apply Silent.whenM
    | apply Silent.orElse
    | apply Silent.ite
    | apply Silent.tryCatch
    | apply Silent.bind
    | rfl

theorem landingRace_hidden (c : Ctx σ) (h : LandingHidden c) (w : World σ) :
    (landingRace c w).res = .ok false ∧ shotCalls (landingRace c w).out = [] := by
  obtain ⟨h1, h2⟩ := h
  simp [landingRace, visibleOrFalse_never c _ h1, visibleOrFalse_never c _ h2,
    visibleOrFalse_out]

/-- Rounds that fall through, each writing the line `t` once and taking no screenshot. -/
theorem forFirst_rounds (t : String) (body : α → M σ (Option β)) (rest : List α) :
    ∀ (xs : List α),
      (∀ x ∈ xs, ∀ w, (body x w).res = .ok none ∧ countLog t (body x w).out = 1 ∧
        shotCalls (body x w).out = []) →
      ∀ w, ∃ w1,
        (forFirst (xs ++ rest) body w).res = (forFirst rest body w1).res ∧
        countLog t (forFirst (xs ++ rest) body w).out =
          xs.length + countLog t (forFirst rest body w1).out ∧
        shotCalls (forFirst (xs ++ rest) body w).out = shotCalls (forFirst rest body w1).out := by
  intro xs
  induction xs with
  | nil => intro _ w; exact ⟨w, rfl, by simp, rfl⟩
  | cons x xs ih =>
    intro h w
    obtain ⟨hx1, hx2, hx3⟩ := h x (List.mem_cons_self _ _) w
    obtain ⟨w1, h1, h2, h3⟩ := ih (fun l hl => h l (List.mem_cons_of_mem _ hl)) (body x w).world
    refine ⟨w1, ?_, ?_, ?_⟩
    · simp [forFirst_cons, hx1, h1]
    · simp [forFirst_cons, hx1, hx2, h2]; omega
    · simp [forFirst_cons, hx1, hx3, h3]

/-- A body that always raises, writing the line `t` `k` times and calling the screenshot
`p` once, makes `safe` raise after all its tries. -/
theorem safeLoop_always_raises (c : Ctx σ) (name : String) (fn : M σ α) (retries delayMs : Nat)
    (t : String) (k : Nat) (p : String) (ht : t ≠ "$1 failed (attempt $2/$3): $4")
    (hfn : ∀ w, (∃ e, (fn w).res = .throw e) ∧ countLog t (fn w).out = k ∧
      shotCalls (fn w).out = [p]) :
    ∀ (fuel i : Nat) (lastErr : Thrown) (w : World σ),
      (∃ e, (safeLoop c name fn retries delayMs fuel i lastErr w).res = .throw e) ∧
      countLog t (safeLoop c name fn retries delayMs fuel i lastErr w).out = fuel * k ∧
      shotCalls (safeLoop c name fn retries delayMs fuel i lastErr w).out =
        List.replicate fuel p := by
  intro fuel
  induction fuel with
  | zero => intro i lastErr w; simp [safeLoop_zero]
  | succ fuel ih =>
    intro i lastErr w
    obtain ⟨⟨e, h1⟩, h2, h3⟩ := hfn w
    obtain ⟨⟨e2, i1⟩, i2, i3⟩ := ih (i + 1) e
      (whenM (decide (i < retries)) (delay delayMs)
        (log c "$1 failed (attempt $2/$3): $4"
          [name, toString (i + 1), toString (retries + 1), e.text] (fn w).world).world).world
    simp only [whenM_delay_world, log_world] at i1 i2 i3
    refine ⟨⟨e2, ?_⟩, ?_, ?_⟩
    · simp [safeLoop_succ, h1, whenM_delay_res, whenM_delay_world, i1]
    · simp [safeLoop_succ, h1, h2, whenM_delay_res, whenM_delay_world, whenM_delay_out, i2,
        Ne.symm ht]
      have : (fuel + 1) * k = fuel * k + k := Nat.succ_mul fuel k
      split <;> simp <;> omega
    · simp [safeLoop_succ, h1, h3, whenM_delay_res, whenM_delay_world, whenM_delay_out, i3,
        List.replicate_succ]
      split <;> simp

end

section
variable {σ : Type}

theorem navigateBack_ok (c : Ctx σ)
    (hc1 : Succeeds c (.click "role(link, /^Call Outcome Report$/i)"))
    (hc2 : Succeeds c (.click "role(listitem, /Call Outcome Report/i)"))
    (hw : WaitsComplete c) (w : World σ) :
    (navigateBack c w).res = .ok () := by
  have hwait := wait_ok c hw
  have e1 := fun w => exec_res_ok c _ w (hc1 w.ext)
  have e2 := fun w => exec_res_ok c _ w (hc2 w.ext)
  have hg : ∀ w, (orElse (exec c .goBack) () w).res = .ok () := by
    intro w
    cases h : (exec c .goBack w).res <;> simp [orElse, h]
  obtain ⟨b1, hb1⟩ : ∃ b, (visibleOrFalse c "role(link, /^Call Outcome Report$/i)" w).res = .ok b :=
    ⟨_, visibleOrFalse_res _ _ _⟩
  obtain ⟨b2, hb2⟩ : ∃ b, (visibleOrFalse c "role(listitem, /Call Outcome Report/i)"
      (visibleOrFalse c "role(link, /^Call Outcome Report$/i)" w).world).res = .ok b :=
    ⟨_, visibleOrFalse_res _ _ _⟩
  cases b1 <;> cases b2 <;> simp [navigateBack, hb1, hb2, e1, e2, hg, hwait]

theorem verifyLanding_hidden (c : Ctx σ) (rep : Rep) (k : Nat) (w : World σ)
    (hl : LandingHidden c) (hw : WaitsComplete c) :
    ((verifyLanding c rep 5 (k + 1) w).res = .ok none ∨
        (k + 1 = 5 ∧ ∃ e, (verifyLanding c rep 5 (k + 1) w).res = .throw e)) ∧
      shotCalls (verifyLanding c rep 5 (k + 1) w).out =
        if k + 1 = 5 then [navFailedShot c.cfg rep] else [] := by
  have hr1 : ∀ w, (landingRace c w).res = .ok false := fun w => (landingRace_hidden c hl w).1
  have hr2 : ∀ w, shotCalls (landingRace c w).out = [] := fun w => (landingRace_hidden c hl w).2
  have hwait := wait_ok c hw
  by_cases hk : k + 1 = 5
  · have hk4 : k = 4 := by omega
    subst hk4
    rcases hs : (exec c (.screenshot (navFailedShot c.cfg rep))
        (log c "  ✗ Not on landing page yet, attempt $1 failed" [toString (4 + 1)]
          (landingRace c w).world).world).res with u | e
    · simp only [navFailedShot, log_world] at hs
      simp [verifyLanding, hr1, hr2, hs, hwait, navFailedShot]
    · simp only [navFailedShot, log_world] at hs
      simp [verifyLanding, hr1, hr2, hs, hwait, navFailedShot]
  · have hb : (k + 1 == 5) = false := by simpa using hk
    simp [verifyLanding, hr1, hr2, hk, hb, hwait]

theorem landingRound_hidden (c : Ctx σ) (rep : Rep) (k : Nat) (w : World σ)
    (hl : LandingHidden c)
    (hc1 : Succeeds c (.click "role(link, /^Call Outcome Report$/i)"))
    (hc2 : Succeeds c (.click "role(listitem, /Call Outcome Report/i)"))
    (hw : WaitsComplete c) :
    ((landingRound c rep 5 k w).res = .ok none ∨
        (k + 1 = 5 ∧ ∃ e, (landingRound c rep 5 k w).res = .throw e)) ∧
      shotCalls (landingRound c rep 5 k w).out =
        if k + 1 = 5 then [navFailedShot c.cfg rep] else [] := by
  have hn := fun w => navigateBack_ok c hc1 hc2 hw w
  have hs := fun w => (navigateBack_silent c [] isShot (fun _ => rfl) (fun _ => rfl) rfl
    (fun _ => rfl)).shotCalls_eq_nil w
  obtain ⟨h1, h2⟩ := verifyLanding_hidden c rep k
    (navigateBack c (log c "  Navigation attempt $1/$2" [toString (k + 1), toString 5] w).world).world
    hl hw
  simp only [log_world] at h1 h2
  constructor
  · rcases h1 with h1 | ⟨hk, e, h1⟩
    · left; simp [landingRound, hn, h1]
    · right; exact ⟨hk, e, by simp [landingRound, hn, h1]⟩
  · simp [landingRound, hn, hs, h2]

theorem returnToLanding_count_le (c : Ctx σ) (rep : Rep) (w : World σ) :
    countLog navLine (returnToLanding c rep w).out ≤ 5 := by
  have h := forFirst_count_le navLine (landingRound c rep 5) (List.range 5)
    (fun x w => le_of_eq (landingRound_count c rep 5 x w)) w
  simp only [List.length_range] at h
  rcases hr : (forFirst (List.range 5) (landingRound c rep 5) w).res with r | e
  · cases r <;> simp [returnToLanding, hr] <;> exact h
  · simp [returnToLanding, hr]; exact h

theorem returnStep_count_le (c : Ctx σ) (rep : Rep) (w : World σ) :
    countLog navLine (returnStep c rep w).out ≤ 15 :=
  safeLoop_count_le c _ (returnToLanding c rep) 2 700 navLine 5 (by decide)
    (returnToLanding_count_le c rep) 3 0 .undefined w

theorem returnToLanding_hidden (c : Ctx σ) (rep : Rep) (w : World σ) (hl : LandingHidden c)
    (hc1 : Succeeds c (.click "role(link, /^Call Outcome Report$/i)"))
    (hc2 : Succeeds c (.click "role(listitem, /Call Outcome Report/i)"))
    (hw : WaitsComplete c) :
    (∃ e, (returnToLanding c rep w).res = .throw e) ∧
      countLog navLine (returnToLanding c rep w).out = 5 ∧
      shotCalls (returnToLanding c rep w).out = [navFailedShot c.cfg rep] := by
  have hrange : List.range 5 = [0, 1, 2, 3] ++ [4] := by decide
  obtain ⟨w1, h1, h2, h3⟩ := forFirst_rounds navLine (landingRound c rep 5) [4] [0, 1, 2, 3]
    (fun x hx w => by
      obtain ⟨a, b⟩ := landingRound_hidden c rep x w hl hc1 hc2 hw
      have hx5 : x + 1 ≠ 5 := by
        simp only [List.mem_cons, List.mem_singleton, List.not_mem_nil, or_false] at hx
        omega
      refine ⟨?_, landingRound_count c rep 5 x w, ?_⟩
      · rcases a with a | ⟨a, _⟩
        · exact a
        · exact absurd a hx5
      · simpa [hx5] using b) w
  rw [← hrange] at h1 h2 h3
  obtain ⟨a, b⟩ := landingRound_hidden c rep 4 w1 hl hc1 hc2 hw
  have cnt := landingRound_count c rep 5 4 w1
  simp only [Nat.reduceAdd, if_true] at b
  rcases a with a | ⟨_, e, a⟩
  · refine ⟨⟨.error "Failed to navigate back to landing page after 5 attempts", ?_⟩, ?_, ?_⟩
    · simp [returnToLanding, h1, forFirst_cons, a]
    · simp [returnToLanding, h1, h2, forFirst_cons, a, cnt]
    · simp [returnToLanding, h1, h3, forFirst_cons, a, b]
  · refine ⟨⟨e, ?_⟩, ?_, ?_⟩
    · simp [returnToLanding, h1, forFirst_cons, a]
    · simp [returnToLanding, h1, h2, forFirst_cons, a, cnt]
    · simp [returnToLanding, h1, h3, forFirst_cons, a, b]

theorem returnStep_hidden (c : Ctx σ) (rep : Rep) (w : World σ) (hl : LandingHidden c)
    (hc1 : Succeeds c (.click "role(link, /^Call Outcome Report$/i)"))
    (hc2 : Succeeds c (.click "role(listitem, /Call Outcome Report/i)"))
    (hw : WaitsComplete c) :
    (∃ e, (returnStep c rep w).res = .throw e) ∧
      countLog navLine (returnStep c rep w).out = 15 ∧
      shotCalls (returnStep c rep w).out =
        [navFailedShot c.cfg rep, navFailedShot c.cfg rep, navFailedShot c.cfg rep] :=
  safeLoop_always_raises c _ (returnToLanding c rep) 2 700 navLine 5 (navFailedShot c.cfg rep)
    (by decide) (fun w => returnToLanding_hidden c rep w hl hc1 hc2 hw) 3 0 .undefined w

end

theorem data_ne_of_suffix (a b : String) (x y : List Char) (h : x.length = y.length)
    (hxy : x ≠ y) : a ++ String.mk x ≠ b ++ String.mk y := by
  intro heq
  have h1 := congrArg String.data heq
  simp only [String.data_append] at h1
  have h2 := congrArg List.reverse h1
  simp only [List.reverse_append] at h2
  have h3 := congrArg (List.take x.length) h2
  rw [List.take_left' (by simp), h, List.take_left' (by simp)] at h3
  exact hxy (List.reverse_injective h3)

theorem fatalShot_ne_log (cfg : Config) : fatalShotPath cfg ≠ LOG_FILE cfg := by
  unfold fatalShotPath LOG_FILE pathJoin
  rw [← String.append_assoc, ← String.append_assoc, ← String.append_assoc, ← String.append_assoc]
  exact data_ne_of_suffix _ _ ['.', 'p', 'n', 'g'] ['.', 'l', 'o', 'g'] rfl (by decide)

theorem fatalShot_ne_html (cfg : Config) : fatalShotPath cfg ≠ fatalHtmlPath cfg := by
  unfold fatalShotPath fatalHtmlPath pathJoin
  have e : ".html" = "." ++ "html" := by decide
  rw [e, ← String.append_assoc, ← String.append_assoc, ← String.append_assoc,
    ← String.append_assoc, ← String.append_assoc]
  exact data_ne_of_suffix _ _ ['.', 'p', 'n', 'g'] ['h', 't', 'm', 'l'] rfl (by decide)

/-! ### The handlers of `run` -/

section
variable {σ : Type}

@[simp] theorem opEvents_nil : opEvents [] = [] := rfl

@[simp] theorem opEvents_append (a b : List Event) :
    opEvents (a ++ b) = opEvents a ++ opEvents b := by
  simp [opEvents]

@[simp] theorem opEvents_cons (e : Event) (o : List Event) :
    opEvents (e :: o) =
      (match e with
        | .op o1 r => [(o1, r)]
        | _ => []) ++ opEvents o := by
  unfold opEvents
  rcases e with ⟨t, a⟩ | ⟨o1, r⟩ | ms <;> simp

theorem sendAlert_res (c : Ctx σ) (subject text : String) (atts : Option (List Attachment))
    (w : World σ) : (sendAlert c subject text atts w).res = .ok () := by
  rcases h : (c.env.perform
      (.sendMail ⟨alertSender c.cfg, ALERT_TO c.cfg, subject, text, atts⟩) w.ext).1 with v | m <;>
    simp [sendAlert, exec_res, h]

theorem sendAlert_opEvents (c : Ctx σ) (subject text : String)
    (atts : Option (List Attachment)) (w : World σ) :
    opEvents (sendAlert c subject text atts w).out =
      [(Op.sendMail ⟨alertSender c.cfg, ALERT_TO c.cfg, subject, text, atts⟩,
        (c.env.perform
          (.sendMail ⟨alertSender c.cfg, ALERT_TO c.cfg, subject, text, atts⟩) w.ext).1)] := by
  rcases h : (c.env.perform
      (.sendMail ⟨alertSender c.cfg, ALERT_TO c.cfg, subject, text, atts⟩) w.ext).1 with v | m <;>
    simp [sendAlert, exec_res, h]

/-- The `catch` block of `run`: the calls it makes, whatever their outcomes, and the
error it raises. -/
theorem onFatal_spec (c : Ctx σ) (fatal : Thrown) (w : World σ)
    (hfresh : fatalShotPath c.cfg ∉ w.files) :
    (onFatal c fatal w).res = .throw fatal ∧
      ∃ rs rc rw ra, opEvents (onFatal c fatal w).out = fatalCalls c.cfg fatal rs rc rw ra := by
  have n1 := fatalShot_ne_log c.cfg
  have n2 := fatalShot_ne_html c.cfg
  rcases hs : (c.env.perform (.screenshot (fatalShotPath c.cfg)) w.ext).1 with vs | ms
  · rcases hc : (c.env.perform .content
        (c.env.perform (.screenshot (fatalShotPath c.cfg)) w.ext).2).1 with vc | mc
    · rcases hw : (c.env.perform (.writeFile (fatalHtmlPath c.cfg))
          (c.env.perform .content
            (c.env.perform (.screenshot (fatalShotPath c.cfg)) w.ext).2).2).1 with vw | mw
      · refine ⟨?_, .ok vs, .ok vc, .ok vw,
          (c.env.perform (.sendMail (fatalAlert c.cfg fatal true))
            (c.env.perform (.writeFile (fatalHtmlPath c.cfg))
              (c.env.perform .content
                (c.env.perform (.screenshot (fatalShotPath c.cfg)) w.ext).2).2).2).1, ?_⟩
        · simp [onFatal, exec_res, hs, hc, hw, sendAlert_res]
        · simp [onFatal, exec_res, hs, hc, hw, sendAlert_res, sendAlert_opEvents, filesAfter,
            fatalCalls, fatalAlert, Outcome.isOk, List.mem_insert_iff]
      · refine ⟨?_, .ok vs, .ok vc, .fail mw,
          (c.env.perform (.sendMail (fatalAlert c.cfg fatal true))
            (c.env.perform (.writeFile (fatalHtmlPath c.cfg))
              (c.env.perform .content
                (c.env.perform (.screenshot (fatalShotPath c.cfg)) w.ext).2).2).2).1, ?_⟩
        · simp [onFatal, exec_res, hs, hc, hw, sendAlert_res]
        · simp [onFatal, exec_res, hs, hc, hw, sendAlert_res, sendAlert_opEvents, filesAfter,
            fatalCalls, fatalAlert, Outcome.isOk, List.mem_insert_iff]
    · refine ⟨?_, .ok vs, .fail mc, .ok true,
        (c.env.perform (.sendMail (fatalAlert c.cfg fatal true))
          (c.env.perform .content
            (c.env.perform (.screenshot (fatalShotPath c.cfg)) w.ext).2).2).1, ?_⟩
      · simp [onFatal, exec_res, hs, hc, sendAlert_res]
      · simp [onFatal, exec_res, hs, hc, sendAlert_res, sendAlert_opEvents, filesAfter,
          fatalCalls, fatalAlert, Outcome.isOk, List.mem_insert_iff]
  · rcases hc : (c.env.perform .content
        (c.env.perform (.screenshot (fatalShotPath c.cfg)) w.ext).2).1 with vc | mc
    · rcases hw : (c.env.perform (.writeFile (fatalHtmlPath c.cfg))
          (c.env.perform .content
            (c.env.perform (.screenshot (fatalShotPath c.cfg)) w.ext).2).2).1 with vw | mw
      · refine ⟨?_, .fail ms, .ok vc, .ok vw,
          (c.env.perform (.sendMail (fatalAlert c.cfg fatal false))
            (c.env.perform (.writeFile (fatalHtmlPath c.cfg))
              (c.env.perform .content
                (c.env.perform (.screenshot (fatalShotPath c.cfg)) w.ext).2).2).2).1, ?_⟩
        · simp [onFatal, exec_res, hs, hc, hw, sendAlert_res]
        · simp [onFatal, exec_res, hs, hc, hw, sendAlert_res, sendAlert_opEvents, filesAfter,
            fatalCalls, fatalAlert, Outcome.isOk, List.mem_insert_iff, n1, n2, hfresh]
      · refine ⟨?_, .fail ms, .ok vc, .fail mw,
          (c.env.perform (.sendMail (fatalAlert c.cfg fatal false))
            (c.env.perform (.writeFile (fatalHtmlPath c.cfg))
              (c.env.perform .content
                (c.env.perform (.screenshot (fatalShotPath c.cfg)) w.ext).2).2).2).1, ?_⟩
        · simp [onFatal, exec_res, hs, hc, hw, sendAlert_res]
        · simp [onFatal, exec_res, hs, hc, hw, sendAlert_res, sendAlert_opEvents, filesAfter,
            fatalCalls, fatalAlert, Outcome.isOk, List.mem_insert_iff, n1, n2, hfresh]
    · refine ⟨?_, .fail ms, .fail mc, .ok true,
        (c.env.perform (.sendMail (fatalAlert c.cfg fatal false))
          (c.env.perform .content
            (c.env.perform (.screenshot (fatalShotPath c.cfg)) w.ext).2).2).1, ?_⟩
      · simp [onFatal, exec_res, hs, hc, sendAlert_res]
      · simp [onFatal, exec_res, hs, hc, sendAlert_res, sendAlert_opEvents, filesAfter,
          fatalCalls, fatalAlert, Outcome.isOk, List.mem_insert_iff, n1, n2, hfresh]

end

/-! ### The helpers write no key line and send no mail -/

section
variable {σ : Type} {ts : List String} {ops : Op → Bool}

theorem filterControlsRace_watch (c : Ctx σ) (hW : Watch ts ops) :
    Silent ts ops (filterControlsRace c) := by
  simp only [filterControlsRace, bind_eq, pure_eq]
  repeat' first
    | exact hW.calls _ rfl
    | exact fun hx => absurd (hW.lines _ hx) (by decide)
    | intro _
    | apply Silent.visibleOrFalse
    | apply Silent.exec
    | apply Silent.query
    | apply Silent.delay
    | apply Silent.log
    | apply Silent.pure
    | apply Silent.throwE
    | apply Silent.settlesFirst
    | apply Silent.forFirst
    | apply Silent.safe
    | apply Silent.whenM
    | apply Silent.orElse
    | apply Silent.ite
    | apply Silent.tryCatch
    | apply Silent.bind

theorem filterBarStep_watch (c : Ctx σ) (loc : String) (hW : Watch ts ops) :
    Silent ts ops (filterBarStep c loc) := by
  simp only [filterBarStep, bind_eq, pure_eq]
  repeat' first
    | exact hW.calls _ rfl
    | exact fun hx => absurd (hW.lines _ hx) (by decide)
    | intro _
    | apply Silent.visibleOrFalse
    | apply Silent.exec
    | apply Silent.query
    | apply Silent.delay
    | apply Silent.log
    | apply Silent.pure
    | apply Silent.throwE
    | apply Silent.settlesFirst
    | apply Silent.forFirst
    | apply Silent.safe
    | apply Silent.whenM
    | apply Silent.orElse
    | apply Silent.ite
    | apply Silent.tryCatch
    | apply Silent.bind

theorem clickFilterBar_watch (c : Ctx σ) (hW : Watch ts ops) :
    Silent ts ops (clickFilterBar c) := by
  simp only [clickFilterBar, bind_eq, pure_eq]
  repeat' first
    | exact hW.calls _ rfl
    | exact fun hx => absurd (hW.lines _ hx) (by decide)
    | intro _
    | apply filterBarStep_watch c _ hW
    | apply Silent.visibleOrFalse
    | apply Silent.exec
    | apply Silent.query
    | apply Silent.delay
    | apply Silent.log
    | apply Silent.pure
    | apply Silent.throwE
    | apply Silent.settlesFirst
    | apply Silent.forFirst
    | apply Silent.safe
    | apply Silent.whenM
    | apply Silent.orElse
    | apply Silent.ite
    | apply Silent.tryCatch
    | apply Silent.bind

theorem panelRound_watch (c : Ctx σ) (k : Nat) (hW : Watch ts ops) :
    Silent ts ops (panelRound c k) := by
  simp only [panelRound, bind_eq, pure_eq]
  repeat' first
    | exact hW.calls _ rfl
    | exact fun hx => absurd (hW.lines _ hx) (by decide)
    | intro _
    | apply filterControlsRace_watch c hW
    | apply clickFilterBar_watch c hW
    | apply Silent.visibleOrFalse
    | apply Silent.exec
    | apply Silent.query
    | apply Silent.delay
    | apply Silent.log
    | apply Silent.pure
    | apply Silent.throwE
    | apply Silent.settlesFirst
    | apply Silent.forFirst
    | apply Silent.safe
    | apply Silent.whenM
    | apply Silent.orElse
    | apply Silent.ite
    | apply Silent.tryCatch
    | apply Silent.bind

theorem ensureFilterPanel_watch (c : Ctx σ) (hW : Watch ts ops) :
    Silent ts ops (ensureFilterPanel c) := by
  simp only [ensureFilterPanel, bind_eq, pure_eq]
  repeat' first
    | exact hW.calls _ rfl
    | exact fun hx => absurd (hW.lines _ hx) (by decide)
    | intro _
    | apply filterControlsRace_watch c hW
    | apply panelRound_watch c _ hW
    | apply Silent.visibleOrFalse
    | apply Silent.exec
    | apply Silent.query
    | apply Silent.delay
    | apply Silent.log
    | apply Silent.pure
    | apply Silent.throwE
    | apply Silent.settlesFirst
    | apply Silent.forFirst
    | apply Silent.safe
    | apply Silent.whenM
    | apply Silent.orElse
    | apply Silent.ite
    | apply Silent.tryCatch
    | apply Silent.bind
    | split

theorem corStep_watch (c : Ctx σ) (loc : String) (hW : Watch ts ops) :
    Silent ts ops (corStep c loc) := by
  simp only [corStep, bind_eq, pure_eq]
  repeat' first
    | exact hW.calls _ rfl
    | exact fun hx => absurd (hW.lines _ hx) (by decide)
    | intro _
    | apply Silent.visibleOrFalse
    | apply Silent.exec
    | apply Silent.query
    | apply Silent.delay
    | apply Silent.log
    | apply Silent.pure
    | apply Silent.throwE
    | apply Silent.settlesFirst
    | apply Silent.forFirst
    | apply Silent.safe
    | apply Silent.whenM
    | apply Silent.orElse
    | apply Silent.ite
    | apply Silent.tryCatch
    | apply Silent.bind

theorem openCORFromWelcome_watch (c : Ctx σ) (hW : Watch ts ops) :
    Silent ts ops (openCORFromWelcome c) := by
  simp only [openCORFromWelcome, bind_eq, pure_eq]
  repeat' first
    | exact hW.calls _ rfl
    | exact fun hx => absurd (hW.lines _ hx) (by decide)
    | intro _
    | apply corStep_watch c _ hW
    | apply Silent.visibleOrFalse
    | apply Silent.exec
    | apply Silent.query
    | apply Silent.delay
    | apply Silent.log
    | apply Silent.pure
    | apply Silent.throwE
    | apply Silent.settlesFirst
    | apply Silent.forFirst
    | apply Silent.safe
    | apply Silent.whenM
    | apply Silent.orElse
    | apply Silent.ite
    | apply Silent.tryCatch
    | apply Silent.bind

theorem fillIfVisible_watch (c : Ctx σ) (loc d a b : String) (hW : Watch ts ops)
    (ha : a ∉ keyLines) (hb : b ∉ keyLines) :
    Silent ts ops (fillIfVisible c loc d a b) := by
  simp only [fillIfVisible, bind_eq, pure_eq]
  repeat' first
    | exact hW.calls _ rfl
    | exact fun hx => absurd (hW.lines _ hx) (by decide)
    | exact fun hx => ha (hW.lines _ hx)
    | exact fun hx => hb (hW.lines _ hx)
    | intro _
    | apply Silent.visibleOrFalse
    | apply Silent.exec
    | apply Silent.query
    | apply Silent.delay
    | apply Silent.log
    | apply Silent.pure
    | apply Silent.throwE
    | apply Silent.settlesFirst
    | apply Silent.forFirst
    | apply Silent.safe
    | apply Silent.whenM
    | apply Silent.orElse
    | apply Silent.ite
    | apply Silent.tryCatch
    | apply Silent.bind

theorem setStartDate_watch (c : Ctx σ) (d : String) (hW : Watch ts ops) :
    Silent ts ops (setStartDate c d) := by
  simp only [setStartDate, bind_eq, pure_eq]
  repeat' first
    | exact hW.calls _ rfl
    | exact fun hx => absurd (hW.lines _ hx) (by decide)
    | intro _
    | apply fillIfVisible_watch c _ _ _ _ hW (by decide) (by decide)
    | apply Silent.visibleOrFalse
    | apply Silent.exec
    | apply Silent.query
    | apply Silent.delay
    | apply Silent.log
    | apply Silent.pure
    | apply Silent.throwE
    | apply Silent.settlesFirst
    | apply Silent.forFirst
    | apply Silent.safe
    | apply Silent.whenM
    | apply Silent.orElse
    | apply Silent.ite
    | apply Silent.tryCatch
    | apply Silent.bind

theorem setEndDate_watch (c : Ctx σ) (d : String) (hW : Watch ts ops) :
    Silent ts ops (setEndDate c d) := by
  simp only [setEndDate, bind_eq, pure_eq]
  repeat' first
    | exact hW.calls _ rfl
    | exact fun hx => absurd (hW.lines _ hx) (by decide)
    | intro _
    | apply fillIfVisible_watch c _ _ _ _ hW (by decide) (by decide)
    | apply Silent.visibleOrFalse
    | apply Silent.exec
    | apply Silent.query
    | apply Silent.delay
    | apply Silent.log
    | apply Silent.pure
    | apply Silent.throwE
    | apply Silent.settlesFirst
    | apply Silent.forFirst
    | apply Silent.safe
    | apply Silent.whenM
    | apply Silent.orElse
    | apply Silent.ite
    | apply Silent.tryCatch
    | apply Silent.bind

theorem dismissCalendar_watch (c : Ctx σ) (hW : Watch ts ops) :
    Silent ts ops (dismissCalendar c) := by
  simp only [dismissCalendar, bind_eq, pure_eq]
  repeat' first
    | exact hW.calls _ rfl
    | exact fun hx => absurd (hW.lines _ hx) (by decide)
    | intro _
    | apply Silent.visibleOrFalse
    | apply Silent.exec
    | apply Silent.query
    | apply Silent.delay
    | apply Silent.log
    | apply Silent.pure
    | apply Silent.throwE
    | apply Silent.settlesFirst
    | apply Silent.forFirst
    | apply Silent.safe
    | apply Silent.whenM
    | apply Silent.orElse
    | apply Silent.ite
    | apply Silent.tryCatch
    | apply Silent.bind

theorem setDateInputs_watch (c : Ctx σ) (d : String) (hW : Watch ts ops) :
    Silent ts ops (setDateInputs c d) := by
  simp only [setDateInputs, bind_eq, pure_eq]
  repeat' first
    | exact hW.calls _ rfl
    | exact fun hx => absurd (hW.lines _ hx) (by decide)
    | intro _
    | apply setStartDate_watch c _ hW
    | apply setEndDate_watch c _ hW
    | apply dismissCalendar_watch c hW
    | apply Silent.visibleOrFalse
    | apply Silent.exec
    | apply Silent.query
    | apply Silent.delay
    | apply Silent.log
    | apply Silent.pure
    | apply Silent.throwE
    | apply Silent.settlesFirst
    | apply Silent.forFirst
    | apply Silent.safe
    | apply Silent.whenM
    | apply Silent.orElse
    | apply Silent.ite
    | apply Silent.tryCatch
    | apply Silent.bind

theorem applyStep_watch (c : Ctx σ) (loc : String) (hW : Watch ts ops) :
    Silent ts ops (applyStep c loc) := by
  simp only [applyStep, bind_eq, pure_eq]
  repeat' first
    | exact hW.calls _ rfl
    | exact fun hx => absurd (hW.lines _ hx) (by decide)
    | intro _
    | apply Silent.visibleOrFalse
    | apply Silent.exec
    | apply Silent.query
    | apply Silent.delay
    | apply Silent.log
    | apply Silent.pure
    | apply Silent.throwE
    | apply Silent.settlesFirst
    | apply Silent.forFirst
    | apply Silent.safe
    | apply Silent.whenM
    | apply Silent.orElse
    | apply Silent.ite
    | apply Silent.tryCatch
    | apply Silent.bind

theorem clickApply_watch (c : Ctx σ) (hW : Watch ts ops) :
    Silent ts ops (clickApply c) := by
  simp only [clickApply, bind_eq, pure_eq]
  repeat' first
    | exact hW.calls _ rfl
    | exact fun hx => absurd (hW.lines _ hx) (by decide)
    | intro _
    | apply applyStep_watch c _ hW
    | apply Silent.visibleOrFalse
    | apply Silent.exec
    | apply Silent.query
    | apply Silent.delay
    | apply Silent.log
    | apply Silent.pure
    | apply Silent.throwE
    | apply Silent.settlesFirst
    | apply Silent.forFirst
    | apply Silent.safe
    | apply Silent.whenM
    | apply Silent.orElse
    | apply Silent.ite
    | apply Silent.tryCatch
    | apply Silent.bind
    | split

theorem detailStep_watch (c : Ctx σ) (loc : String) (hW : Watch ts ops) :
    Silent ts ops (detailStep c loc) := by
  simp only [detailStep, bind_eq, pure_eq]
  repeat' first
    | exact hW.calls _ rfl
    | exact fun hx => absurd (hW.lines _ hx) (by decide)
    | intro _
    | apply Silent.visibleOrFalse
    | apply Silent.exec
    | apply Silent.query
    | apply Silent.delay
    | apply Silent.log
    | apply Silent.pure
    | apply Silent.throwE
    | apply Silent.settlesFirst
    | apply Silent.forFirst
    | apply Silent.safe
    | apply Silent.whenM
    | apply Silent.orElse
    | apply Silent.ite
    | apply Silent.tryCatch
    | apply Silent.bind

theorem openDetail_watch (c : Ctx σ) (rep : Rep) (hW : Watch ts ops) :
    Silent ts ops (openDetail c rep) := by
  simp only [openDetail, bind_eq, pure_eq]
  repeat' first
    | exact hW.calls _ rfl
    | exact fun hx => absurd (hW.lines _ hx) (by decide)
    | intro _
    | apply detailStep_watch c _ hW
    | apply Silent.visibleOrFalse
    | apply Silent.exec
    | apply Silent.query
    | apply Silent.delay
    | apply Silent.log
    | apply Silent.pure
    | apply Silent.throwE
    | apply Silent.settlesFirst
    | apply Silent.forFirst
    | apply Silent.safe
    | apply Silent.whenM
    | apply Silent.orElse
    | apply Silent.ite
    | apply Silent.tryCatch
    | apply Silent.bind

theorem adjustColumns_watch (c : Ctx σ) (hW : Watch ts ops) :
    Silent ts ops (adjustColumns c) := by
  simp only [adjustColumns, bind_eq, pure_eq]
  repeat' first
    | exact hW.calls _ rfl
    | exact fun hx => absurd (hW.lines _ hx) (by decide)
    | intro _
    | apply Silent.visibleOrFalse
    | apply Silent.exec
    | apply Silent.query
    | apply Silent.delay
    | apply Silent.log
    | apply Silent.pure
    | apply Silent.throwE
    | apply Silent.settlesFirst
    | apply Silent.forFirst
    | apply Silent.safe
    | apply Silent.whenM
    | apply Silent.orElse
    | apply Silent.ite
    | apply Silent.tryCatch
    | apply Silent.bind

theorem landingRace_watch (c : Ctx σ) (hW : Watch ts ops) :
    Silent ts ops (landingRace c) := by
  simp only [landingRace, bind_eq, pure_eq]
  repeat' first
    | exact hW.calls _ rfl
    | exact fun hx => absurd (hW.lines _ hx) (by decide)
    | intro _
    | apply Silent.visibleOrFalse
    | apply Silent.exec
    | apply Silent.query
    | apply Silent.delay
    | apply Silent.log
    | apply Silent.pure
    | apply Silent.throwE
    | apply Silent.settlesFirst
    | apply Silent.forFirst
    | apply Silent.safe
    | apply Silent.whenM
    | apply Silent.orElse
    | apply Silent.ite
    | apply Silent.tryCatch
    | apply Silent.bind

theorem navigateBack_watch (c : Ctx σ) (hW : Watch ts ops) :
    Silent ts ops (navigateBack c) := by
  simp only [navigateBack, bind_eq, pure_eq]
  repeat' first
    | exact hW.calls _ rfl
    | exact fun hx => absurd (hW.lines _ hx) (by decide)
    | intro _
    | apply Silent.visibleOrFalse
    | apply Silent.exec
    | apply Silent.query
    | apply Silent.delay
    | apply Silent.log
    | apply Silent.pure
    | apply Silent.throwE
    | apply Silent.settlesFirst
    | apply Silent.forFirst
    | apply Silent.safe
    | apply Silent.whenM
    | apply Silent.orElse
    | apply Silent.ite
    | apply Silent.tryCatch
    | apply Silent.bind

theorem verifyLanding_watch (c : Ctx σ) (rep : Rep) (mx k : Nat) (hW : Watch ts ops) :
    Silent ts ops (verifyLanding c rep mx k) := by
  simp only [verifyLanding, bind_eq, pure_eq]
  repeat' first
    | exact hW.calls _ rfl
    | exact fun hx => absurd (hW.lines _ hx) (by decide)
    | intro _
    | apply landingRace_watch c hW
    | apply Silent.visibleOrFalse
    | apply Silent.exec
    | apply Silent.query
    | apply Silent.delay
    | apply Silent.log
    | apply Silent.pure
    | apply Silent.throwE
    | apply Silent.settlesFirst
    | apply Silent.forFirst
    | apply Silent.safe
    | apply Silent.whenM
    | apply Silent.orElse
    | apply Silent.ite
    | apply Silent.tryCatch
    | apply Silent.bind

theorem landingRound_watch (c : Ctx σ) (rep : Rep) (mx k : Nat) (hW : Watch ts ops) :
    Silent ts ops (landingRound c rep mx k) := by
  simp only [landingRound, bind_eq, pure_eq]
  repeat' first
    | exact hW.calls _ rfl
    | exact fun hx => absurd (hW.lines _ hx) (by decide)
    | intro _
    | apply navigateBack_watch c hW
    | apply verifyLanding_watch c _ _ _ hW
    | apply Silent.visibleOrFalse
    | apply Silent.exec
    | apply Silent.query
    | apply Silent.delay
    | apply Silent.log
    | apply Silent.pure
    | apply Silent.throwE
    | apply Silent.settlesFirst
    | apply Silent.forFirst
    | apply Silent.safe
    | apply Silent.whenM
    | apply Silent.orElse
    | apply Silent.ite
    | apply Silent.tryCatch
    | apply Silent.bind

theorem returnToLanding_watch (c : Ctx σ) (rep : Rep) (hW : Watch ts ops) :
    Silent ts ops (returnToLanding c rep) := by
  simp only [returnToLanding, bind_eq, pure_eq]
  repeat' first
    | exact hW.calls _ rfl
    | exact fun hx => absurd (hW.lines _ hx) (by decide)
    | intro _
    | apply landingRound_watch c _ _ _ hW
    | apply Silent.visibleOrFalse
    | apply Silent.exec
    | apply Silent.query
    | apply Silent.delay
    | apply Silent.log
    | apply Silent.pure
    | apply Silent.throwE
    | apply Silent.settlesFirst
    | apply Silent.forFirst
    | apply Silent.safe
    | apply Silent.whenM
    | apply Silent.orElse
    | apply Silent.ite
    | apply Silent.tryCatch
    | apply Silent.bind
    | split

theorem returnStep_watch (c : Ctx σ) (rep : Rep) (hW : Watch ts ops) :
    Silent ts ops (returnStep c rep) := by
  simp only [returnStep, bind_eq, pure_eq]
  repeat' first
    | exact hW.calls _ rfl
    | exact fun hx => absurd (hW.lines _ hx) (by decide)
    | intro _
    | apply returnToLanding_watch c _ hW
    | apply Silent.visibleOrFalse
    | apply Silent.exec
    | apply Silent.query
    | apply Silent.delay
    | apply Silent.log
    | apply Silent.pure
    | apply Silent.throwE
    | apply Silent.settlesFirst
    | apply Silent.forFirst
    | apply Silent.safe

theorem reopenFilterPanel_watch (c : Ctx σ) (rep : Rep) (hW : Watch ts ops) :
    Silent ts ops (reopenFilterPanel c rep) := by
  simp only [reopenFilterPanel, bind_eq, pure_eq]
  repeat' first
    | exact hW.calls _ rfl
    | exact fun hx => absurd (hW.lines _ hx) (by decide)
    | intro _
    | apply ensureFilterPanel_watch c hW
    | apply Silent.visibleOrFalse
    | apply Silent.exec
    | apply Silent.query
    | apply Silent.delay
    | apply Silent.log
    | apply Silent.pure
    | apply Silent.throwE
    | apply Silent.settlesFirst
    | apply Silent.forFirst
    | apply Silent.safe
    | apply Silent.whenM
    | apply Silent.orElse
    | apply Silent.ite
    | apply Silent.tryCatch
    | apply Silent.bind

theorem prepareNextRep_watch (c : Ctx σ) (rep : Rep) (hW : Watch ts ops) :
    Silent ts ops (prepareNextRep c rep) := by
  simp only [prepareNextRep, bind_eq, pure_eq]
  repeat' first
    | exact hW.calls _ rfl
    | exact fun hx => absurd (hW.lines _ hx) (by decide)
    | intro _
    | apply returnStep_watch c _ hW
    | apply reopenFilterPanel_watch c _ hW
    | apply Silent.visibleOrFalse
    | apply Silent.exec
    | apply Silent.query
    | apply Silent.delay
    | apply Silent.log
    | apply Silent.pure
    | apply Silent.throwE
    | apply Silent.settlesFirst
    | apply Silent.forFirst
    | apply Silent.safe
    | apply Silent.whenM
    | apply Silent.orElse
    | apply Silent.ite
    | apply Silent.tryCatch
    | apply Silent.bind

end

section
variable {σ : Type}

@[simp] theorem artifacts_nil : artifacts [] = [] := rfl

@[simp] theorem artifacts_append (a b : List Event) :
    artifacts (a ++ b) = artifacts a ++ artifacts b := by
  simp [artifacts]

@[simp] theorem artifacts_cons (e : Event) (o : List Event) :
    artifacts (e :: o) =
      (match e with
        | .op (.screenshot p) r => [(Op.screenshot p, r)]
        | .op (.sendMail m) r => [(Op.sendMail m, r)]
        | _ => []) ++ artifacts o := by
  unfold artifacts
  rcases e with ⟨t, a⟩ | ⟨o1, r⟩ | ms
  · simp
  · cases o1 <;> simp
  · simp

theorem setDateInputs_happy (c : Ctx σ) (hA : AllSucceed c) (d : String) (w : World σ) :
    (setDateInputs c d w).res = .ok () ∧ artifacts (setDateInputs c d w).out = [] := by
  have hq : ∀ o w, (query c o w).res = .ok (nominal o) := by
    intro o w; simp [hA o w.ext, Outcome.toRes]
  have he : ∀ o w, (exec c o w).res = .ok () := by
    intro o w; simp [exec_res, hA o w.ext]
  have hv : ∀ loc w, (visibleOrFalse c loc w).res = .ok (nominal (.isVisible loc)) := by
    intro loc w; simp [visibleOrFalse_res, hA _ w.ext]
  constructor
  · simp [setDateInputs, safe, safeLoop_succ, setStartDate, setEndDate, dismissCalendar,
      fillIfVisible, hq, he, hv, nominal, orElse, -query_res]
  · simp [setDateInputs, safe, safeLoop_succ, setStartDate, setEndDate, dismissCalendar,
      fillIfVisible, hq, he, hv, nominal, orElse, visibleOrFalse_out, -query_res]

end

/-! ### The marks of the loop over the representatives -/

section
variable {σ α β : Type}

@[simp] theorem keysOf_nil : keysOf [] = [] := rfl

@[simp] theorem keysOf_append (a b : List Event) : keysOf (a ++ b) = keysOf a ++ keysOf b := by
  simp [keysOf]

@[simp] theorem keysOf_cons (e : Event) (o : List Event) :
    keysOf (e :: o) = (keyOf e).toList ++ keysOf o := by
  unfold keysOf
  rw [List.filterMap_cons]
  cases keyOf e <;> simp

theorem Silent.keysOf_eq_nil {m : M σ α} (h : Silent keyLines isMail m) (w : World σ) :
    keysOf (m w).out = [] := by
  unfold keysOf
  rw [List.filterMap_eq_nil_iff]
  intro e he
  have := h.silent w e he
  rcases e with ⟨t, a⟩ | ⟨o1, r⟩ | ms
  · simp only [silentEvent, Bool.not_eq_true', decide_eq_false_iff_not, keyLines,
      List.mem_cons, List.mem_singleton, List.not_mem_nil, or_false, not_or] at this
    simp [keyOf, this.1, this.2.1, this.2.2]
  · cases o1 <;> first | rfl | simp [silentEvent, isMail] at this
  · rfl

theorem watch_keys : Watch keyLines isMail :=
  ⟨fun _ h => h, fun _ h => h⟩

theorem Tracks.quiet {m : M σ α} (h : Silent keyLines isMail m) : Tracks m [] :=
  ⟨fun w _ _ => h.keysOf_eq_nil w, fun w _ _ => by rw [h.keysOf_eq_nil w]⟩

theorem Tracks.append {m : M σ α} {f : α → M σ β} {ks1 ks2 : List Key} (hm : Tracks m ks1)
    (hf : ∀ a, Tracks (f a) ks2) : Tracks (M.bind m f) (ks1 ++ ks2) := by
  constructor
  · intro w b hb
    rcases hr : (m w).res with a | e
    · rw [bind_res, hr] at hb
      simp only [bind_out, hr, keysOf_append, hm.done w a hr, (hf a).done _ b hb]
    · rw [bind_res, hr] at hb; cases hb
  · intro w e he
    rcases hr : (m w).res with a | e2
    · rw [bind_res, hr] at he
      simp only [bind_out, hr, keysOf_append, hm.done w a hr]
      exact (List.prefix_append_right_inj ks1).mpr ((hf a).cut _ e he)
    · simp only [bind_out, hr, keysOf_append, keysOf_nil, List.append_nil]
      exact (hm.cut w e2 hr).trans (List.prefix_append ks1 ks2)

theorem Tracks.cons {m : M σ α} {f : α → M σ β} {k : Key} {ks : List Key} (hm : Tracks m [k])
    (hf : ∀ a, Tracks (f a) ks) : Tracks (M.bind m f) (k :: ks) :=
  Tracks.append hm hf

theorem Tracks.after_quiet {m : M σ α} {f : α → M σ β} {ks : List Key}
    (hm : Silent keyLines isMail m) (hf : ∀ a, Tracks (f a) ks) : Tracks (M.bind m f) ks := by
  have := Tracks.append (Tracks.quiet hm) hf
  simpa using this

theorem Tracks.then_quiet {m : M σ α} {f : α → M σ β} {ks : List Key}
    (hm : Tracks m ks) (hf : ∀ a, Silent keyLines isMail (f a)) : Tracks (M.bind m f) ks := by
  have := Tracks.append hm (fun a => Tracks.quiet (hf a))
  simpa using this

theorem Tracks.log_visit (c : Ctx σ) (a : List String) :
    Tracks (log c "--- Running $1 ($2) ---" a) [.visit a] :=
  ⟨fun _ _ _ => by simp [keyOf, visitLine], fun _ _ h => by simp at h⟩

theorem Tracks.log_user (c : Ctx σ) (a : List String) :
    Tracks (log c "  Setting user to: $1 ($2)" a) [.user a] :=
  ⟨fun _ _ _ => by simp [keyOf, visitLine, setUserLine], fun _ _ h => by simp at h⟩

theorem Tracks.log_saved (c : Ctx σ) (a : List String) :
    Tracks (log c "Saved: $1" a) [.saved a] :=
  ⟨fun _ _ _ => by simp [keyOf, visitLine, setUserLine, savedLine], fun _ _ h => by simp at h⟩

theorem sendEmail_cases (c : Ctx σ) (s t : String) (a : Option (List Attachment))
    (w : World σ) :
    ((sendEmail c s t a w).res = .ok () ∧
        keysOf (sendEmail c s t a w).out = [.mail ⟨reportSender c.cfg, c.cfg.TO_EMAIL, s, t, a⟩]) ∨
      ((∃ e, (sendEmail c s t a w).res = .throw e) ∧ keysOf (sendEmail c s t a w).out = []) := by
  rcases h : (c.env.perform (.sendMail ⟨reportSender c.cfg, c.cfg.TO_EMAIL, s, t, a⟩) w.ext).1
    with v | m
  · left
    simp [sendEmail, exec_res, h, keyOf, visitLine, setUserLine, savedLine]
  · right
    simp [sendEmail, exec_res, h, keyOf]

theorem safeLoop_email_tracks (c : Ctx σ) (s t : String) (a : Option (List Attachment))
    (retries delayMs : Nat) :
    ∀ (fuel i : Nat) (lastErr : Thrown),
      Tracks (safeLoop c "Email report" (sendEmail c s t a) retries delayMs fuel i lastErr)
        [.mail ⟨reportSender c.cfg, c.cfg.TO_EMAIL, s, t, a⟩] := by
  intro fuel
  induction fuel with
  | zero =>
    intro i lastErr
    exact ⟨fun w b h => by simp [safeLoop_zero] at h, fun w e h => by simp [safeLoop_zero]⟩
  | succ fuel ih =>
    intro i lastErr
    constructor
    · intro w b hb
      rcases sendEmail_cases c s t a w with ⟨h1, h2⟩ | ⟨⟨e, h1⟩, h2⟩
      · simp [safeLoop_succ, h1, h2]
      · have hrec := (ih (i + 1) e).done
          (whenM (decide (i < retries)) (delay delayMs)
            (log c "$1 failed (attempt $2/$3): $4"
              ["Email report", toString (i + 1), toString (retries + 1), e.text]
              (sendEmail c s t a w).world).world).world b
        simp only [whenM_delay_world, log_world] at hrec
        simp only [safeLoop_succ, tryCatch_res, h1, bind_res, log_res, whenM_delay_res,
          log_world, whenM_delay_world] at hb
        have := hrec hb
        have hw : keysOf (whenM (decide (i < retries)) (delay delayMs)
            ⟨(sendEmail c s t a w).world.ext,
              List.insert (LOG_FILE c.cfg) (sendEmail c s t a w).world.files⟩).out = [] := by
          rw [whenM_delay_out]; split <;> simp [keyOf]
        simpa [safeLoop_succ, h1, h2, whenM_delay_res, whenM_delay_world, hw,
          keyOf, visitLine, setUserLine, savedLine] using this
    · intro w e2 hb
      rcases sendEmail_cases c s t a w with ⟨h1, h2⟩ | ⟨⟨e, h1⟩, h2⟩
      · simp [safeLoop_succ, h1] at hb
      · have hrec := (ih (i + 1) e).cut
          (whenM (decide (i < retries)) (delay delayMs)
            (log c "$1 failed (attempt $2/$3): $4"
              ["Email report", toString (i + 1), toString (retries + 1), e.text]
              (sendEmail c s t a w).world).world).world e2
        simp only [whenM_delay_world, log_world] at hrec
        simp only [safeLoop_succ, tryCatch_res, h1, bind_res, log_res, whenM_delay_res,
          log_world, whenM_delay_world] at hb
        have := hrec hb
        have hw : keysOf (whenM (decide (i < retries)) (delay delayMs)
            ⟨(sendEmail c s t a w).world.ext,
              List.insert (LOG_FILE c.cfg) (sendEmail c s t a w).world.files⟩).out = [] := by
          rw [whenM_delay_out]; split <;> simp [keyOf]
        simpa [safeLoop_succ, h1, h2, whenM_delay_res, whenM_delay_world, hw,
          keyOf, visitLine, setUserLine, savedLine] using this

theorem setUser_tracks (c : Ctx σ) (rep : Rep) :
    Tracks (setUser c rep) [.user [rep.name, rep.id]] := by
  simp only [setUser, bind_eq, pure_eq]
  refine Tracks.then_quiet (Tracks.log_user c _) (fun _ => ?_)
  repeat' first
    | exact watch_keys.calls _ rfl
    | exact fun hx => absurd (watch_keys.lines _ hx) (by decide)
    | intro _
    | apply Silent.visibleOrFalse
    | apply Silent.exec
    | apply Silent.query
    | apply Silent.delay
    | apply Silent.log
    | apply Silent.pure
    | apply Silent.throwE
    | apply Silent.whenM
    | apply Silent.orElse
    | apply Silent.ite
    | apply Silent.tryCatch
    | apply Silent.bind

/-- One iteration of the loop leaves the marks of its representative, in order, up to
the point where it raises. -/
theorem processRep_tracks (c : Ctx σ) (d : String) (n i : Nat) (rep : Rep) :
    Tracks (processRep c d n i rep) (repKeys c.cfg d rep) := by
  simp only [processRep, bind_eq, pure_eq, repKeys, reportMail]
  refine Tracks.cons (Tracks.log_visit c _) (fun _ => ?_)
  refine Tracks.after_quiet (setDateInputs_watch c _ watch_keys) (fun _ => ?_)
  refine Tracks.cons (setUser_tracks c rep) (fun _ => ?_)
  refine Tracks.after_quiet (Silent.ite (Silent.throwE _) (Silent.pure _)) (fun _ => ?_)
  refine Tracks.after_quiet (clickApply_watch c watch_keys) (fun _ => ?_)
  refine Tracks.after_quiet (Silent.ite (Silent.throwE _) (Silent.pure _)) (fun _ => ?_)
  refine Tracks.after_quiet (Silent.exec c _ rfl) (fun _ => ?_)
  refine Tracks.after_quiet
    (Silent.safe c _ 2 700 (openDetail_watch c rep watch_keys) (by decide)) (fun _ => ?_)
  refine Tracks.after_quiet
    (Silent.whenM (Silent.safe c _ 2 700 (adjustColumns_watch c watch_keys) (by decide)))
    (fun _ => ?_)
  refine Tracks.after_quiet
    (Silent.safe c _ 2 700 (Silent.exec c _ rfl) (by decide)) (fun _ => ?_)
  refine Tracks.cons (Tracks.log_saved c _)
    (fun _ => ?_)
  refine Tracks.then_quiet (safeLoop_email_tracks c _ _ _ 2 700 _ _ _) (fun _ => ?_)
  repeat' first
    | exact watch_keys.calls _ rfl
    | exact fun hx => absurd (watch_keys.lines _ hx) (by decide)
    | intro _
    | apply prepareNextRep_watch c _ watch_keys
    | apply Silent.log
    | apply Silent.pure
    | apply Silent.whenM
    | apply Silent.bind

theorem processRep_head (c : Ctx σ) (d : String) (n i : Nat) (rep : Rep) (w : World σ) :
    ∃ rest, keysOf (processRep c d n i rep w).out = .visit [rep.name, rep.id] :: rest := by
  unfold processRep
  have hk : keyOf (Event.log "--- Running $1 ($2) ---" [rep.name, rep.id]) =
      some (.visit [rep.name, rep.id]) := by simp [keyOf, visitLine]
  rw [bind_eq, bind_out, log_out, List.singleton_append, keysOf_cons, hk]
  exact ⟨_, rfl⟩

end

section
variable {σ : Type}

theorem repLoop_nil (c : Ctx σ) (d : String) (n i : Nat) :
    repLoop c d n i [] = M.pure () := rfl

theorem repLoop_cons (c : Ctx σ) (d : String) (n i : Nat) (r : Rep) (rs : List Rep) :
    repLoop c d n i (r :: rs) =
      M.bind (processRep c d n i r) (fun _ => repLoop c d n (i + 1) rs) := rfl

/-- The marks of the loop: those of every representative when it completes; when it
raises, those of the representatives before the one whose iteration raised, then the
first marks of that one, the opening line of its iteration at least. -/
theorem repLoop_keys (c : Ctx σ) (d : String) (n : Nat) :
    ∀ (reps : List Rep) (i : Nat) (w : World σ),
      (∀ a, (repLoop c d n i reps w).res = .ok a →
        keysOf (repLoop c d n i reps w).out = loopKeys c.cfg d reps) ∧
      (∀ e, (repLoop c d n i reps w).res = .throw e →
        ∃ pre r post p, reps = pre ++ r :: post ∧ p <+: repKeys c.cfg d r ∧
          (∃ rest, p = .visit [r.name, r.id] :: rest) ∧
          keysOf (repLoop c d n i reps w).out = loopKeys c.cfg d pre ++ p) := by
  intro reps
  induction reps with
  | nil =>
    intro i w
    exact ⟨fun a _ => by simp [repLoop_nil, loopKeys], fun e h => by simp [repLoop_nil] at h⟩
  | cons r rs ih =>
    intro i w
    have ht := processRep_tracks c d n i r
    rcases hr : (processRep c d n i r w).res with a | e1
    · obtain ⟨i1, i2⟩ := ih (i + 1) (processRep c d n i r w).world
      have hk := ht.done w a hr
      constructor
      · intro b hb
        rw [repLoop_cons, bind_res, hr] at hb
        rw [repLoop_cons, bind_out, hr, keysOf_append, hk, i1 b hb]
        rfl
      · intro e he
        rw [repLoop_cons, bind_res, hr] at he
        obtain ⟨pre, r2, post, p, h1, h2, h3, h4⟩ := i2 e he
        refine ⟨r :: pre, r2, post, p, by rw [h1]; rfl, h2, h3, ?_⟩
        rw [repLoop_cons, bind_out, hr, keysOf_append, hk]
        simp only [h4, loopKeys, List.append_assoc]
    · constructor
      · intro b hb
        rw [repLoop_cons, bind_res, hr] at hb
        cases hb
      · intro e he
        refine ⟨[], r, rs, keysOf (processRep c d n i r w).out, rfl, ht.cut w e1 hr,
          processRep_head c d n i r w, ?_⟩
        rw [repLoop_cons, bind_out, hr]
        simp [loopKeys]

theorem keyLines_ne : visitLine ≠ setUserLine ∧ visitLine ≠ savedLine ∧ setUserLine ≠ savedLine := by
  decide

@[simp] theorem logArgs_nil (t : String) : logArgs t [] = [] := rfl

@[simp] theorem logArgs_cons (t : String) (e : Event) (o : List Event) :
    logArgs t (e :: o) =
      (match e with
        | .log t1 a => if t1 = t then [a] else []
        | _ => []) ++ logArgs t o := by
  unfold logArgs
  rcases e with ⟨t1, a⟩ | ⟨o1, r⟩ | ms
  · by_cases h : t1 = t <;> simp [h]
  · simp
  · simp

@[simp] theorem mailsSent_nil : mailsSent [] = [] := rfl

@[simp] theorem mailsSent_cons (e : Event) (o : List Event) :
    mailsSent (e :: o) =
      (match e with
        | .op (.sendMail m) (.ok _) => [m]
        | _ => []) ++ mailsSent o := by
  unfold mailsSent
  rcases e with ⟨t1, a⟩ | ⟨o1, r⟩ | ms
  · simp
  · cases o1 <;> cases r <;> simp
  · simp

theorem logArgs_visit (out : List Event) : logArgs visitLine out = visitsOf (keysOf out) := by
  obtain ⟨n1, n2, n3⟩ := keyLines_ne
  induction out with
  | nil => rfl
  | cons e o ih =>
    rw [logArgs_cons, keysOf_cons, ih]
    rcases e with ⟨t, a⟩ | ⟨o1, r⟩ | ms
    · simp only [keyOf]
      split_ifs with h1 h2 h3 <;> simp_all [visitsOf]
    · cases o1 <;> cases r <;> simp [keyOf, visitsOf]
    · simp [keyOf, visitsOf]

theorem logArgs_user (out : List Event) : logArgs setUserLine out = usersOf (keysOf out) := by
  obtain ⟨n1, n2, n3⟩ := keyLines_ne
  induction out with
  | nil => rfl
  | cons e o ih =>
    rw [logArgs_cons, keysOf_cons, ih]
    rcases e with ⟨t, a⟩ | ⟨o1, r⟩ | ms
    · simp only [keyOf]
      split_ifs with h1 h2 h3 <;> simp_all [usersOf]
    · cases o1 <;> cases r <;> simp [keyOf, usersOf]
    · simp [keyOf, usersOf]

theorem logArgs_saved (out : List Event) : logArgs savedLine out = savedOf (keysOf out) := by
  obtain ⟨n1, n2, n3⟩ := keyLines_ne
  induction out with
  | nil => rfl
  | cons e o ih =>
    rw [logArgs_cons, keysOf_cons, ih]
    rcases e with ⟨t, a⟩ | ⟨o1, r⟩ | ms
    · simp only [keyOf]
      split_ifs with h1 h2 h3 <;> simp_all [savedOf]
    · cases o1 <;> cases r <;> simp [keyOf, savedOf]
    · simp [keyOf, savedOf]

theorem mailsSent_keys (out : List Event) : mailsSent out = mailsOf (keysOf out) := by
  induction out with
  | nil => rfl
  | cons e o ih =>
    rw [mailsSent_cons, keysOf_cons, ih]
    rcases e with ⟨t, a⟩ | ⟨o1, r⟩ | ms
    · simp only [keyOf]
      split_ifs <;> simp [mailsOf]
    · cases o1 <;> cases r <;> simp [keyOf, mailsOf]
    · simp [keyOf, mailsOf]

theorem loopKeys_append (cfg : Config) (d : String) (a b : List Rep) :
    loopKeys cfg d (a ++ b) = loopKeys cfg d a ++ loopKeys cfg d b := by
  induction a with
  | nil => rfl
  | cons r rs ih => simp [loopKeys, ih]

theorem visitsOf_loopKeys (cfg : Config) (d : String) (reps : List Rep) :
    visitsOf (loopKeys cfg d reps) = reps.map (fun r => [r.name, r.id]) := by
  induction reps with
  | nil => rfl
  | cons r rs ih =>
    have : visitsOf (loopKeys cfg d (r :: rs)) = [r.name, r.id] :: visitsOf (loopKeys cfg d rs) := by
      simp [loopKeys, repKeys, visitsOf]
    rw [this, ih]; rfl

theorem usersOf_loopKeys (cfg : Config) (d : String) (reps : List Rep) :
    usersOf (loopKeys cfg d reps) = reps.map (fun r => [r.name, r.id]) := by
  induction reps with
  | nil => rfl
  | cons r rs ih =>
    have : usersOf (loopKeys cfg d (r :: rs)) = [r.name, r.id] :: usersOf (loopKeys cfg d rs) := by
      simp [loopKeys, repKeys, usersOf]
    rw [this, ih]; rfl

theorem savedOf_loopKeys (cfg : Config) (d : String) (reps : List Rep) :
    savedOf (loopKeys cfg d reps) = reps.map (fun r => [reportPath cfg r d]) := by
  induction reps with
  | nil => rfl
  | cons r rs ih =>
    have : savedOf (loopKeys cfg d (r :: rs)) =
        [reportPath cfg r d] :: savedOf (loopKeys cfg d rs) := by
      simp [loopKeys, repKeys, savedOf]
    rw [this, ih]; rfl

theorem mailsOf_loopKeys (cfg : Config) (d : String) (reps : List Rep) :
    mailsOf (loopKeys cfg d reps) = reps.map (fun r => reportMail cfg r d) := by
  induction reps with
  | nil => rfl
  | cons r rs ih =>
    have : mailsOf (loopKeys cfg d (r :: rs)) =
        reportMail cfg r d :: mailsOf (loopKeys cfg d rs) := by
      simp [loopKeys, repKeys, mailsOf]
    rw [this, ih]; rfl

/-- The first marks of an iteration that opened: one to four of them. -/
theorem prefix_repKeys (cfg : Config) (d : String) (r : Rep) (p : List Key)
    (hp : p <+: repKeys cfg d r) (hh : ∃ rest, p = .visit [r.name, r.id] :: rest) :
    p = (repKeys cfg d r).take 1 ∨ p = (repKeys cfg d r).take 2 ∨
      p = (repKeys cfg d r).take 3 ∨ p = repKeys cfg d r := by
  obtain ⟨rest, rfl⟩ := hh
  have hlen := hp.length_le
  have := List.prefix_iff_eq_take.mp hp
  simp only [repKeys, List.length_cons, List.length_nil] at hlen this ⊢
  rcases rest with _ | ⟨b, _ | ⟨c1, _ | ⟨d1, _ | ⟨e1, l⟩⟩⟩⟩
  · left; simp
  · right; left; simpa using this
  · right; right; left; simpa using this
  · right; right; right; simpa using this
  · simp at hlen

/-- When the loop raises: the representatives split into those before the one whose
iteration raised, that one, and those after it. The iterations opened are those of the
first two groups; the `setUser` calls, saved screenshots and accepted report mails are
those of the first group, with or without that of the representative that raised. -/
theorem repLoop_abort (c : Ctx σ) (d : String) (n i : Nat) (reps : List Rep) (w : World σ)
    (e : Thrown) (h : (repLoop c d n i reps w).res = .throw e) :
    ∃ pre r post, reps = pre ++ r :: post ∧
      logArgs visitLine (repLoop c d n i reps w).out =
        (pre ++ [r]).map (fun x => [x.name, x.id]) ∧
      (logArgs setUserLine (repLoop c d n i reps w).out = pre.map (fun x => [x.name, x.id]) ∨
        logArgs setUserLine (repLoop c d n i reps w).out =
          (pre ++ [r]).map (fun x => [x.name, x.id])) ∧
      (logArgs savedLine (repLoop c d n i reps w).out =
          pre.map (fun x => [reportPath c.cfg x d]) ∨
        logArgs savedLine (repLoop c d n i reps w).out =
          (pre ++ [r]).map (fun x => [reportPath c.cfg x d])) ∧
      (mailsSent (repLoop c d n i reps w).out = pre.map (fun x => reportMail c.cfg x d) ∨
        mailsSent (repLoop c d n i reps w).out =
          (pre ++ [r]).map (fun x => reportMail c.cfg x d)) := by
  obtain ⟨pre, r, post, p, h1, h2, h3, h4⟩ := (repLoop_keys c d n reps i w).2 e h
  refine ⟨pre, r, post, h1, ?_, ?_, ?_, ?_⟩
  · rw [logArgs_visit, h4]
    rcases prefix_repKeys c.cfg d r p h2 h3 with hp | hp | hp | hp <;>
      simp [hp, visitsOf, repKeys, ← visitsOf_loopKeys c.cfg d pre]
  · rw [logArgs_user, h4]
    rcases prefix_repKeys c.cfg d r p h2 h3 with hp | hp | hp | hp <;>
      simp [hp, usersOf, repKeys, ← usersOf_loopKeys c.cfg d pre]
  · rw [logArgs_saved, h4]
    rcases prefix_repKeys c.cfg d r p h2 h3 with hp | hp | hp | hp <;>
      simp [hp, savedOf, repKeys, ← savedOf_loopKeys c.cfg d pre]
  · rw [mailsSent_keys, h4]
    rcases prefix_repKeys c.cfg d r p h2 h3 with hp | hp | hp | hp <;>
      simp [hp, mailsOf, repKeys, ← mailsOf_loopKeys c.cfg d pre]

/-- When the loop completes: every representative was visited once, in list order, and
got one `setUser` call, one saved screenshot and one accepted report mail. -/
theorem repLoop_complete (c : Ctx σ) (d : String) (n i : Nat) (reps : List Rep) (w : World σ)
    (h : (repLoop c d n i reps w).res = .ok ()) :
    logArgs visitLine (repLoop c d n i reps w).out = reps.map (fun x => [x.name, x.id]) ∧
      logArgs setUserLine (repLoop c d n i reps w).out = reps.map (fun x => [x.name, x.id]) ∧
      logArgs savedLine (repLoop c d n i reps w).out =
        reps.map (fun x => [reportPath c.cfg x d]) ∧
      mailsSent (repLoop c d n i reps w).out = reps.map (fun x => reportMail c.cfg x d) := by
  have hk := (repLoop_keys c d n reps i w).1 () h
  refine ⟨?_, ?_, ?_, ?_⟩
  · rw [logArgs_visit, hk, visitsOf_loopKeys]
  · rw [logArgs_user, hk, usersOf_loopKeys]
  · rw [logArgs_saved, hk, savedOf_loopKeys]
  · rw [mailsSent_keys, hk, mailsOf_loopKeys]

end

/-! ### `run` and the top level -/

section
variable {σ : Type}

theorem cleanup_res (c : Ctx σ) (w : World σ) : (cleanup c w).res = .ok () := by
  rcases h1 : (exec c .closeContext w).res with u | e <;>
    rcases h2 : (exec c .closeBrowser (orElse (exec c .closeContext) () w).world).res
      with u2 | e2 <;>
    simp_all [cleanup, orElse]

theorem cleanup_opEvents (c : Ctx σ) (w : World σ) :
    opEvents (cleanup c w).out =
      [(Op.closeContext, (c.env.perform .closeContext w.ext).1),
        (Op.closeBrowser,
          (c.env.perform .closeBrowser (c.env.perform .closeContext w.ext).2).1)] := by
  rcases h1 : (c.env.perform .closeContext w.ext).1 with u | e <;>
    rcases h2 : (c.env.perform .closeBrowser (c.env.perform .closeContext w.ext).2).1
      with u2 | e2 <;>
    simp [cleanup, orElse, exec_res, h1, h2]

/-- What `run` does once an error is raised in its `try` block. -/
theorem run_fatal (c : Ctx σ) (reps : List Rep) (now : Int) (w : World σ) (fatal : Thrown)
    (hacq : (acquire c (yesterdayMMDDYYYY now) w).res = .ok ())
    (hbody : (runBody c reps (yesterdayMMDDYYYY now)
      (acquire c (yesterdayMMDDYYYY now) w).world).res = .throw fatal)
    (hfresh : fatalShotPath c.cfg ∉ (runBody c reps (yesterdayMMDDYYYY now)
      (acquire c (yesterdayMMDDYYYY now) w).world).world.files) :
    (run c reps now w).res = .throw fatal ∧
      ∃ tail rs rc rw ra r1 r2,
        (run c reps now w).out =
          (acquire c (yesterdayMMDDYYYY now) w).out ++
            (runBody c reps (yesterdayMMDDYYYY now)
              (acquire c (yesterdayMMDDYYYY now) w).world).out ++ tail ∧
        opEvents tail =
          fatalCalls c.cfg fatal rs rc rw ra ++
            [(Op.closeContext, r1), (Op.closeBrowser, r2)] := by
  obtain ⟨f1, rs, rc, rw, ra, f2⟩ := onFatal_spec c fatal _ hfresh
  have hc := fun w => cleanup_res c w
  refine ⟨?_,
    (onFatal c fatal (runBody c reps (yesterdayMMDDYYYY now)
        (acquire c (yesterdayMMDDYYYY now) w).world).world).out ++
      (cleanup c (onFatal c fatal (runBody c reps (yesterdayMMDDYYYY now)
        (acquire c (yesterdayMMDDYYYY now) w).world).world).world).out,
    rs, rc, rw, ra,
    (c.env.perform .closeContext (onFatal c fatal (runBody c reps (yesterdayMMDDYYYY now)
        (acquire c (yesterdayMMDDYYYY now) w).world).world).world.ext).1,
    (c.env.perform .closeBrowser (c.env.perform .closeContext
      (onFatal c fatal (runBody c reps (yesterdayMMDDYYYY now)
        (acquire c (yesterdayMMDDYYYY now) w).world).world).world.ext).2).1, ?_, ?_⟩
  · simp [run, hacq, hbody, f1, hc]
  · simp only [run, bind_out, hacq, tryFinally_out, tryCatch_out, tryCatch_world, hbody,
      List.append_assoc]
  · rw [opEvents_append, f2, cleanup_opEvents]

/-- What the process does once an error is raised in the `try` block of `run`. -/
theorem main_fatal (c : Ctx σ) (reps : List Rep) (now : Int) (w : World σ) (fatal : Thrown)
    (hacq : (acquire c (yesterdayMMDDYYYY now) w).res = .ok ())
    (hbody : (runBody c reps (yesterdayMMDDYYYY now)
      (acquire c (yesterdayMMDDYYYY now) w).world).res = .throw fatal)
    (hfresh : fatalShotPath c.cfg ∉ (runBody c reps (yesterdayMMDDYYYY now)
      (acquire c (yesterdayMMDDYYYY now) w).world).world.files) :
    (main c reps now w).res = .ok 1 ∧
      ∃ tail rs rc rw ra r1 r2 ra2,
        (main c reps now w).out =
          (acquire c (yesterdayMMDDYYYY now) w).out ++
            (runBody c reps (yesterdayMMDDYYYY now)
              (acquire c (yesterdayMMDDYYYY now) w).world).out ++ tail ∧
        opEvents tail =
          fatalCalls c.cfg fatal rs rc rw ra ++
            [(Op.closeContext, r1), (Op.closeBrowser, r2),
              (Op.sendMail (crashAlert c.cfg fatal), ra2)] := by
  obtain ⟨g1, tail, rs, rc, rw, ra, r1, r2, g2, g3⟩ := run_fatal c reps now w fatal hacq hbody hfresh
  have hA := fun s t a w => sendAlert_res c s t a w
  refine ⟨?_, tail ++ (tryCatch (M.bind (run c reps now) (fun _ => M.pure 0))
      (fun err => M.bind (log c "Top-level catch: $1" [err.text]) (fun _ =>
        M.bind (existsSync (LOG_FILE c.cfg)) (fun hasLog =>
          M.bind (sendAlert c ("ALERT: Sales-i script crashed (RunID " ++ c.cfg.RUN_ID ++ ")")
            err.text (orUndefined (logAttachments c.cfg hasLog))) (fun _ => M.pure 1)))) w).out.drop
        (run c reps now w).out.length,
    rs, rc, rw, ra, r1, r2,
    (c.env.perform (.sendMail (crashAlert c.cfg fatal)) (run c reps now w).world.ext).1, ?_, ?_⟩
  · simp [main, g1, hA]
  · simp only [main, bind_eq, pure_eq, tryCatch_out, bind_out, bind_res, g1, List.append_nil,
      List.drop_left', ← List.append_assoc, g2]
    simp
  · simp only [tryCatch_out, bind_out, bind_res, g1, List.append_nil, List.drop_left',
      opEvents_append, g3]
    simp [sendAlert_opEvents, crashAlert, List.mem_insert_iff, g1, hA]

end

/-! ### Alert mails -/

theorem data_ne_of_prefix (a b : String) (x y : List Char) (h : x.length = y.length)
    (hxy : x ≠ y) : String.mk x ++ a ≠ String.mk y ++ b := by
  intro heq
  have h1 := congrArg String.data heq
  simp only [String.data_append] at h1
  have h3 := congrArg (List.take x.length) h1
  rw [List.take_left' rfl, h, List.take_left' rfl] at h3
  exact hxy h3

theorem reportSender_ne_alertSender (cfg : Config) : reportSender cfg ≠ alertSender cfg := by
  unfold reportSender alertSender
  have e1 : "\"Sales-i Bot\" <" = String.mk ['"', 'S', 'a', 'l', 'e', 's', '-', 'i', ' ', 'B', 'o', 't', '"'] ++ " <" := by
    decide
  have e2 : "\"Sales-i Bot (ALERT)\" <" =
      String.mk ['"', 'S', 'a', 'l', 'e', 's', '-', 'i', ' ', 'B', 'o', 't', ' '] ++ "(ALERT)\" <" := by
    decide
  rw [e1, e2, String.append_assoc, String.append_assoc, String.append_assoc, String.append_assoc]
  exact data_ne_of_prefix _ _ _ _ rfl (by decide)

section
variable {σ : Type}

theorem watch_alert (cfg : Config) : Watch [] (isAlertMail cfg) :=
  ⟨fun _ h => by simp at h, fun o h => by cases o <;> first | rfl | simp [isMail] at h⟩

theorem isAlertMail_report (cfg : Config) (r s t : String) (a : Option (List Attachment)) :
    isAlertMail cfg (.sendMail ⟨reportSender cfg, r, s, t, a⟩) = false := by
  simp [isAlertMail, reportSender_ne_alertSender]

theorem safeGotoLoop_watch (c : Ctx σ) (url : String) (n : Nat) (wu : String)
    {ts : List String} {ops : Op → Bool} (hW : Watch ts ops) :
    ∀ (fuel i : Nat) (lastErr : Thrown), Silent ts ops (safeGotoLoop c url n wu fuel i lastErr) := by
  intro fuel
  induction fuel with
  | zero => intro i lastErr; exact Silent.throwE _
  | succ fuel ih =>
    intro i lastErr
    simp only [safeGotoLoop, bind_eq, pure_eq]
    repeat' first
      | exact hW.calls _ rfl
      | exact fun hx => absurd (hW.lines _ hx) (by decide)
      | intro _
      | apply ih
      | apply Silent.exec
      | apply Silent.delay
      | apply Silent.log
      | apply Silent.pure
      | apply Silent.ite
      | apply Silent.tryCatch
      | apply Silent.bind

theorem openReport_watch (c : Ctx σ) {ts : List String} {ops : Op → Bool} (hW : Watch ts ops) :
    Silent ts ops (openReport c) := by
  simp only [openReport, safeGoto, bind_eq, pure_eq]
  repeat' first
    | exact hW.calls _ rfl
    | exact fun hx => absurd (hW.lines _ hx) (by decide)
    | intro _
    | apply safeGotoLoop_watch c _ _ _ hW
    | apply openCORFromWelcome_watch c hW
    | apply Silent.exec
    | apply Silent.log
    | apply Silent.pure
    | apply Silent.throwE
    | apply Silent.orElse
    | apply Silent.ite
    | apply Silent.bind

theorem setUser_noAlert (c : Ctx σ) (rep : Rep) : Silent [] (isAlertMail c.cfg) (setUser c rep) := by
  have hW := watch_alert c.cfg
  simp only [setUser, bind_eq, pure_eq]
  repeat' first
    | exact hW.calls _ rfl
    | exact List.not_mem_nil _
    | intro _
    | apply Silent.exec
    | apply Silent.query
    | apply Silent.log
    | apply Silent.pure
    | apply Silent.ite
    | apply Silent.tryCatch
    | apply Silent.bind

set_option maxHeartbeats 2000000 in
theorem processRep_noAlert (c : Ctx σ) (d : String) (n i : Nat) (rep : Rep) :
    Silent [] (isAlertMail c.cfg) (processRep c d n i rep) := by
  have hW := watch_alert c.cfg
  simp only [processRep, sendEmail, bind_eq, pure_eq]
  repeat' first
    | exact hW.calls _ rfl
    | exact List.not_mem_nil _
    | exact isAlertMail_report _ _ _ _ _
    | intro _
    | apply setDateInputs_watch c _ hW
    | apply setUser_noAlert
    | apply clickApply_watch c hW
    | apply openDetail_watch c _ hW
    | apply adjustColumns_watch c hW
    | apply prepareNextRep_watch c _ hW
    | apply Silent.exec
    | apply Silent.delay
    | apply Silent.log
    | apply Silent.pure
    | apply Silent.throwE
    | apply Silent.safe
    | apply Silent.whenM
    | apply Silent.ite
    | apply Silent.bind

theorem repLoop_noAlert (c : Ctx σ) (d : String) (n : Nat) :
    ∀ (reps : List Rep) (i : Nat), Silent [] (isAlertMail c.cfg) (repLoop c d n i reps) := by
  intro reps
  induction reps with
  | nil => intro i; exact Silent.pure ()
  | cons r rs ih =>
    intro i
    rw [repLoop_cons]
    exact Silent.bind (processRep_noAlert c d n i r) (fun _ => ih (i + 1))

theorem runBody_noAlert (c : Ctx σ) (reps : List Rep) (d : String) :
    Silent [] (isAlertMail c.cfg) (runBody c reps d) := by
  have hW := watch_alert c.cfg
  simp only [runBody, bind_eq, pure_eq]
  repeat' first
    | exact hW.calls _ rfl
    | exact List.not_mem_nil _
    | intro _
    | apply openReport_watch c hW
    | apply ensureFilterPanel_watch c hW
    | apply repLoop_noAlert
    | apply Silent.exec
    | apply Silent.log
    | apply Silent.pure
    | apply Silent.throwE
    | apply Silent.ite
    | apply Silent.bind

theorem acquire_noAlert (c : Ctx σ) (d : String) :
    Silent [] (isAlertMail c.cfg) (acquire c d) := by
  have hW := watch_alert c.cfg
  simp only [acquire, bind_eq, pure_eq]
  repeat' first
    | exact hW.calls _ rfl
    | exact List.not_mem_nil _
    | intro _
    | apply Silent.exec
    | apply Silent.log
    | apply Silent.bind

@[simp] theorem alertCalls_append (cfg : Config) (a b : List Event) :
    alertCalls cfg (a ++ b) = alertCalls cfg a ++ alertCalls cfg b := by
  simp [alertCalls, mailCalls]

theorem Silent.alertCalls_eq_nil {α : Type} {cfg : Config} {m : M σ α}
    (h : Silent [] (isAlertMail cfg) m) (w : World σ) : alertCalls cfg (m w).out = [] := by
  unfold alertCalls mailCalls
  rw [List.filter_eq_nil_iff]
  intro x hx
  rw [List.mem_filterMap] at hx
  obtain ⟨e, he, hx⟩ := hx
  have := h.silent w e he
  rcases e with ⟨t, a⟩ | ⟨o1, r⟩ | ms
  · simp at hx
  · cases o1 <;> simp at hx
    subst hx
    simpa [silentEvent, isAlertMail] using this
  · simp at hx

/-- The alert mails among the calls of a record. -/
theorem alertCalls_of_opEvents (cfg : Config) (out : List Event) :
    alertCalls cfg out =
      ((opEvents out).filterMap (fun p => match p.1 with | .sendMail m => some m | _ => none)).filter
        (fun m => decide (m.sender = alertSender cfg)) := by
  unfold alertCalls mailCalls opEvents
  congr 1
  rw [List.filterMap_filterMap]
  congr 1
  funext e
  rcases e with ⟨t, a⟩ | ⟨o1, r⟩ | ms
  · rfl
  · cases o1 <;> rfl
  · rfl

end

section
variable {σ : Type}

/-! ### The run on which every page operation succeeds -/

theorem query_nominal (c : Ctx σ) (hA : AllSucceed c) (o : Op) (w : World σ) :
    (query c o w).res = .ok (nominal o) := by
  simp [hA o w.ext, Outcome.toRes]

theorem exec_nominal (c : Ctx σ) (hA : AllSucceed c) (o : Op) (w : World σ) :
    (exec c o w).res = .ok () := by
  simp [exec_res, hA o w.ext]

theorem visible_nominal (c : Ctx σ) (hA : AllSucceed c) (loc : String) (w : World σ) :
    (visibleOrFalse c loc w).res = .ok (nominal (.isVisible loc)) := by
  simp [visibleOrFalse_res, hA _ w.ext]

theorem exec_artifacts (c : Ctx σ) (hA : AllSucceed c) (o : Op) (w : World σ) :
    artifacts (exec c o w).out =
      (match o with
        | .screenshot p => [(Op.screenshot p, Outcome.ok true)]
        | .sendMail m => [(Op.sendMail m, Outcome.ok true)]
        | _ => []) := by
  rw [exec_out, artifacts_cons, hA o w.ext]
  cases o <;> simp [nominal]

theorem setUser_happy (c : Ctx σ) (hA : AllSucceed c) (rep : Rep) (w : World σ) :
    (setUser c rep w).res = .ok true ∧ artifacts (setUser c rep w).out = [] := by
  have hq := query_nominal c hA
  have he := exec_nominal c hA
  constructor
  · simp [setUser, hq, he, nominal, -query_res]
  · simp [setUser, hq, he, nominal, exec_artifacts c hA, -query_res]

theorem clickApply_happy (c : Ctx σ) (hA : AllSucceed c) (w : World σ) :
    (clickApply c w).res = .ok true ∧ artifacts (clickApply c w).out = [] := by
  have he := exec_nominal c hA
  have hv := visible_nominal c hA
  constructor
  · simp [clickApply, applyCandidates, forFirst_cons, applyStep, he, hv, nominal, orElse]
  · simp [clickApply, applyCandidates, forFirst_cons, applyStep, he, hv, nominal, orElse,
      visibleOrFalse_out, exec_artifacts c hA]

theorem openDetail_happy (c : Ctx σ) (hA : AllSucceed c) (rep : Rep) (w : World σ) :
    (openDetail c rep w).res = .ok () ∧ artifacts (openDetail c rep w).out = [] := by
  have hq := query_nominal c hA
  have he := exec_nominal c hA
  have hv := visible_nominal c hA
  constructor
  · simp [openDetail, detailCandidates, forFirst_cons, detailStep, hq, he, hv, nominal, orElse,
      -query_res]
  · simp [openDetail, detailCandidates, forFirst_cons, detailStep, hq, he, hv, nominal, orElse,
      visibleOrFalse_out, exec_artifacts c hA, -query_res]

theorem adjustColumns_happy (c : Ctx σ) (hA : AllSucceed c) (w : World σ) :
    (adjustColumns c w).res = .ok () ∧ artifacts (adjustColumns c w).out = [] := by
  have hq := query_nominal c hA
  have he := exec_nominal c hA
  constructor
  · simp [adjustColumns, hq, he, nominal, orElse, -query_res]
  · simp [adjustColumns, hq, he, nominal, orElse, exec_artifacts c hA, -query_res]

theorem safe_happy {α : Type} (c : Ctx σ) (name : String) (fn : M σ α) (r d : Nat) (a : α)
    (w : World σ) (h : (fn w).res = .ok a) :
    (safe c name fn r d w).res = .ok a ∧ (safe c name fn r d w).out = (fn w).out ∧
      (safe c name fn r d w).world = (fn w).world := by
  simp [safe, safeLoop_succ, h]

theorem filterControlsRace_happy (c : Ctx σ) (hA : AllSucceed c) (w : World σ) :
    (filterControlsRace c w).res = .ok true ∧ artifacts (filterControlsRace c w).out = [] := by
  have hv := visible_nominal c hA
  constructor
  · simp [filterControlsRace, hv, nominal]
  · simp [filterControlsRace, hv, nominal, visibleOrFalse_out]

theorem ensureFilterPanel_happy (c : Ctx σ) (hA : AllSucceed c) (w : World σ) :
    (ensureFilterPanel c w).res = .ok true ∧ artifacts (ensureFilterPanel c w).out = [] := by
  have h := filterControlsRace_happy c hA
  constructor
  · simp [ensureFilterPanel, (h _).1]
  · simp [ensureFilterPanel, (h _).1, (h _).2]

theorem whenM_good (b : Bool) (m : M σ Unit)
    (h : ∀ w, (m w).res = .ok () ∧ artifacts (m w).out = []) (w : World σ) :
    (whenM b m w).res = .ok () ∧ artifacts (whenM b m w).out = [] := by
  cases b
  · exact ⟨rfl, rfl⟩
  · exact h w

theorem returnToLanding_happy (c : Ctx σ) (hA : AllSucceed c) (rep : Rep) (w : World σ) :
    (returnToLanding c rep w).res = .ok () ∧ artifacts (returnToLanding c rep w).out = [] := by
  have he := exec_nominal c hA
  have hv := visible_nominal c hA
  have hr : List.range 5 = [0, 1, 2, 3, 4] := rfl
  constructor
  · simp [returnToLanding, hr, forFirst_cons, landingRound, navigateBack, verifyLanding,
      landingRace, he, hv, nominal]
  · simp [returnToLanding, hr, forFirst_cons, landingRound, navigateBack, verifyLanding,
      landingRace, he, hv, nominal, visibleOrFalse_out, exec_artifacts c hA]

theorem reopenFilterPanel_happy (c : Ctx σ) (hA : AllSucceed c) (rep : Rep) (w : World σ) :
    (reopenFilterPanel c rep w).res = .ok () ∧ artifacts (reopenFilterPanel c rep w).out = [] := by
  have hv := visible_nominal c hA
  have h := ensureFilterPanel_happy c hA
  constructor
  · simp [reopenFilterPanel, (h _).1, hv, nominal]
  · simp [reopenFilterPanel, (h _).1, (h _).2, hv, nominal, visibleOrFalse_out]

theorem prepareNextRep_happy (c : Ctx σ) (hA : AllSucceed c) (rep : Rep) (w : World σ) :
    (prepareNextRep c rep w).res = .ok () ∧ artifacts (prepareNextRep c rep w).out = [] := by
  have h1 := fun w => safe_happy c "Return to COR landing with verification"
    (returnToLanding c rep) 2 700 () w (returnToLanding_happy c hA rep w).1
  have h2 := returnToLanding_happy c hA rep
  have h3 := reopenFilterPanel_happy c hA rep
  have he := exec_nominal c hA
  constructor
  · simp [prepareNextRep, returnStep, (h1 _).1, (h3 _).1, he]
  · simp [prepareNextRep, returnStep, (h1 _).1, (h1 _).2.1, (h2 _).2, (h3 _).2, he]

/-- The screenshot and the mail of the complete iteration of a representative. -/
theorem processRep_happy (c : Ctx σ) (hA : AllSucceed c) (d : String) (n i : Nat) (rep : Rep)
    (w : World σ) :
    (processRep c d n i rep w).res = .ok () ∧
      artifacts (processRep c d n i rep w).out =
        [(Op.screenshot (reportPath c.cfg rep d), Outcome.ok true),
          (Op.sendMail (reportMail c.cfg rep d), Outcome.ok true)] := by
  have he := exec_nominal c hA
  have g1 := setDateInputs_happy c hA d
  have g2 := setUser_happy c hA rep
  have g3 := clickApply_happy c hA
  have g4 := fun w => safe_happy c "Open detail link" (openDetail c rep) 2 700 () w
    (openDetail_happy c hA rep w).1
  have g4b := openDetail_happy c hA rep
  have g5 := fun w => safe_happy c "Adjust columns (first rep only)" (adjustColumns c) 2 700 () w
    (adjustColumns_happy c hA w).1
  have g5b := adjustColumns_happy c hA
  have g6 := fun w => safe_happy c "Screenshot" (exec c (.screenshot (reportPath c.cfg rep d)))
    2 700 () w (he _ w)
  have hm : ∀ w, (sendEmail c
      ("Sales-i Call Outcome Report — " ++ rep.name ++ " — " ++ d)
      ("Attached is the Call Outcome Report for " ++ rep.name ++ " for " ++ d ++ ".")
      (some [⟨basename (reportPath c.cfg rep d), reportPath c.cfg rep d⟩]) w).res = .ok () := by
    intro w; simp [sendEmail, he]
  have g7 := fun w => safe_happy c "Email report" _ 2 700 () w (hm w)
  have g8 := prepareNextRep_happy c hA rep
  have ha : ∀ w, artifacts (sendEmail c
      ("Sales-i Call Outcome Report — " ++ rep.name ++ " — " ++ d)
      ("Attached is the Call Outcome Report for " ++ rep.name ++ " for " ++ d ++ ".")
      (some [⟨basename (reportPath c.cfg rep d), reportPath c.cfg rep d⟩]) w).out =
        [(Op.sendMail (reportMail c.cfg rep d), Outcome.ok true)] := by
    intro w; simp [sendEmail, he, hA _ w.ext, nominal, reportMail]
  have g5c := whenM_good (i == 0) _
    (fun w => ⟨(g5 w).1, by rw [(g5 w).2.1]; exact (g5b w).2⟩)
  have g8c := whenM_good (decide (i < n - 1)) _ g8
  simp only [processRep, bind_eq, pure_eq]
  generalize whenM (i == 0) (safe c "Adjust columns (first rep only)" (adjustColumns c) 2 700)
    = X at g5c ⊢
  generalize whenM (decide (i < n - 1)) (prepareNextRep c rep) = Y at g8c ⊢
  constructor
  · simp [(g1 _).1, (g2 _).1, (g3 _).1, (g4 _).1, (g5c _).1, (g6 _).1, (g7 _).1, (g8c _).1,
      he (Op.waitForTimeout 3000)]
  · simp [(g1 _).1, (g2 _).1, (g3 _).1, (g4 _).1, (g5c _).1, (g6 _).1,
        (g7 _).1, (g8c _).1, (g1 _).2, (g2 _).2, (g3 _).2, (g4 _).2.1, (g5c _).2, (g6 _).2.1,
        (g7 _).2.1, (g8c _).2, (g4b _).2, ha, hA (Op.screenshot _), nominal,
        he (Op.waitForTimeout 3000)]

theorem repLoop_happy (c : Ctx σ) (hA : AllSucceed c) (d : String) (n : Nat) :
    ∀ (reps : List Rep) (i : Nat) (w : World σ),
      (repLoop c d n i reps w).res = .ok () ∧
        artifacts (repLoop c d n i reps w).out = reportArtifacts c.cfg d reps := by
  intro reps
  induction reps with
  | nil => intro i w; exact ⟨rfl, rfl⟩
  | cons r rs ih =>
    intro i w
    have h1 := processRep_happy c hA d n i r w
    have h2 := ih (i + 1) (processRep c d n i r w).world
    rw [repLoop_cons]
    constructor
    · rw [bind_res, h1.1]; exact h2.1
    · rw [bind_out, h1.1]
      simp only [artifacts_append, h1.2, h2.2, reportArtifacts, List.flatMap_cons]

theorem openReport_happy (c : Ctx σ) (hA : AllSucceed c) (w : World σ) :
    (openReport c w).res = .ok () ∧ artifacts (openReport c w).out = [] := by
  have he := exec_nominal c hA
  have hv := visible_nominal c hA
  have h6 : (6 : Nat) = 5 + 1 := rfl
  constructor
  · simp [openReport, safeGoto, h6, safeGotoLoop, openCORFromWelcome, corCandidates, forFirst_cons,
      corStep, he, hv, nominal, orElse]
  · simp [openReport, safeGoto, h6, safeGotoLoop, openCORFromWelcome, corCandidates, forFirst_cons,
      corStep, he, hv, nominal, orElse, visibleOrFalse_out]

theorem runBody_happy (c : Ctx σ) (hA : AllSucceed c) (reps : List Rep) (d : String)
    (w : World σ) :
    (runBody c reps d w).res = .ok () ∧
      artifacts (runBody c reps d w).out =
        (Op.screenshot (panelShot c.cfg), Outcome.ok true) :: reportArtifacts c.cfg d reps := by
  have he := exec_nominal c hA
  have g1 := openReport_happy c hA
  have g2 := ensureFilterPanel_happy c hA
  have g3 := repLoop_happy c hA d reps.length reps 0
  constructor
  · simp [runBody, (g1 _).1, (g2 _).1, (g3 _).1, he]
  · simp [runBody, (g1 _).1, (g2 _).1, (g3 _).1, he, (g1 _).2, (g2 _).2, (g3 _).2,
      hA (Op.screenshot _), nominal, panelShot]

theorem cleanup_artifacts (c : Ctx σ) (w : World σ) : artifacts (cleanup c w).out = [] := by
  simp only [cleanup, orElse, bind_eq, pure_eq, bind_out, tryCatch_out, exec_out, log_out,
    pure_out, artifacts_append, artifacts_cons, artifacts_nil]
  repeat' split
  all_goals simp

theorem cleanup_watch (c : Ctx σ) {ts : List String} {ops : Op → Bool} (hW : Watch ts ops) :
    Silent ts ops (cleanup c) := by
  simp only [cleanup, bind_eq, pure_eq]
  repeat' first
    | exact hW.calls _ rfl
    | exact fun hx => absurd (hW.lines _ hx) (by decide)
    | intro _
    | apply Silent.exec
    | apply Silent.log
    | apply Silent.orElse
    | apply Silent.bind

theorem acquire_watch (c : Ctx σ) (d : String) {ts : List String} {ops : Op → Bool}
    (hW : Watch ts ops) : Silent ts ops (acquire c d) := by
  simp only [acquire, bind_eq, pure_eq]
  repeat' first
    | exact hW.calls _ rfl
    | exact fun hx => absurd (hW.lines _ hx) (by decide)
    | intro _
    | apply Silent.exec
    | apply Silent.log
    | apply Silent.bind

theorem acquire_happy (c : Ctx σ) (hA : AllSucceed c) (d : String) (w : World σ) :
    (acquire c d w).res = .ok () ∧ artifacts (acquire c d w).out = [] := by
  have he := exec_nominal c hA
  constructor
  · simp [acquire, he]
  · simp [acquire, he]

theorem repLoop_tracks (c : Ctx σ) (d : String) (n : Nat) :
    ∀ (reps : List Rep) (i : Nat), Tracks (repLoop c d n i reps) (loopKeys c.cfg d reps) := by
  intro reps
  induction reps with
  | nil => intro i; exact Tracks.quiet (Silent.pure ())
  | cons r rs ih =>
    intro i
    rw [repLoop_cons]
    exact Tracks.append (processRep_tracks c d n i r) (fun _ => ih (i + 1))

/-- The marks of the `try` block of `run` are those of its loop. -/
theorem runBody_tracks (c : Ctx σ) (reps : List Rep) (d : String) :
    Tracks (runBody c reps d) (loopKeys c.cfg d reps) := by
  simp only [runBody, bind_eq, pure_eq]
  refine Tracks.after_quiet (openReport_watch c watch_keys) (fun _ => ?_)
  refine Tracks.after_quiet (Silent.log c _ _ (by decide)) (fun _ => ?_)
  refine Tracks.after_quiet (ensureFilterPanel_watch c watch_keys) (fun _ => ?_)
  refine Tracks.after_quiet (Silent.ite (Silent.throwE _) (Silent.pure _)) (fun _ => ?_)
  refine Tracks.after_quiet (Silent.exec c _ rfl) (fun _ => ?_)
  refine Tracks.after_quiet (Silent.log c _ _ (by decide)) (fun _ => ?_)
  exact Tracks.then_quiet (repLoop_tracks c d reps.length reps 0)
    (fun _ => Silent.log c _ _ (by decide))

theorem main_ok_out (c : Ctx σ) (reps : List Rep) (now : Int) (w : World σ)
    (h1 : (acquire c (yesterdayMMDDYYYY now) w).res = .ok ())
    (h2 : (runBody c reps (yesterdayMMDDYYYY now)
      (acquire c (yesterdayMMDDYYYY now) w).world).res = .ok ()) :
    (main c reps now w).res = .ok 0 ∧
      (main c reps now w).out =
        (acquire c (yesterdayMMDDYYYY now) w).out ++
          ((runBody c reps (yesterdayMMDDYYYY now) (acquire c (yesterdayMMDDYYYY now) w).world).out ++
            (cleanup c (runBody c reps (yesterdayMMDDYYYY now)
              (acquire c (yesterdayMMDDYYYY now) w).world).world).out) := by
  have g3 := cleanup_res c
  constructor
  · simp [main, run, h1, h2, g3]
  · simp [main, run, h1, h2, g3]

/-- The complete run on which every page operation succeeds. -/
theorem main_happy (c : Ctx σ) (hA : AllSucceed c) (reps : List Rep) (now : Int) (w : World σ) :
    (main c reps now w).res = .ok 0 ∧
      keysOf (main c reps now w).out = loopKeys c.cfg (yesterdayMMDDYYYY now) reps ∧
      artifacts (main c reps now w).out =
        (Op.screenshot (panelShot c.cfg), Outcome.ok true) ::
          reportArtifacts c.cfg (yesterdayMMDDYYYY now) reps ∧
      alertCalls c.cfg (main c reps now w).out = [] := by
  have g1 := acquire_happy c hA (yesterdayMMDDYYYY now) w
  have g2 := runBody_happy c hA reps (yesterdayMMDDYYYY now)
    (acquire c (yesterdayMMDDYYYY now) w).world
  obtain ⟨m1, m2⟩ := main_ok_out c reps now w g1.1 g2.1
  refine ⟨m1, ?_, ?_, ?_⟩
  · rw [m2, keysOf_append, keysOf_append, (acquire_watch c _ watch_keys).keysOf_eq_nil,
      (cleanup_watch c watch_keys).keysOf_eq_nil,
      (runBody_tracks c reps _).done _ () g2.1]
    simp
  · rw [m2, artifacts_append, artifacts_append, g1.2, g2.2, cleanup_artifacts]
    simp
  · rw [m2, alertCalls_append, alertCalls_append, (acquire_noAlert c _).alertCalls_eq_nil,
      (runBody_noAlert c reps _).alertCalls_eq_nil,
      (cleanup_watch c (watch_alert c.cfg)).alertCalls_eq_nil]
    rfl

end

/-! ### Paths, dates and attachments of the concrete runs -/

theorem append_left_cancel (a b c : String) (h : a ++ b = a ++ c) : b = c := by
  have h1 := congrArg String.data h
  simp only [String.data_append] at h1
  exact String.ext (List.append_cancel_left h1)

theorem append_right_cancel (a b c : String) (h : a ++ c = b ++ c) : a = b := by
  have h1 := congrArg String.data h
  simp only [String.data_append] at h1
  exact String.ext (List.append_cancel_right h1)

/-- Two report paths for the same date are equal only when the file-safe names are. -/
theorem reportPath_inj (cfg : Config) (d : String) (r1 r2 : Rep)
    (h : reportPath cfg r1 d = reportPath cfg r2 d) : fileSafe r1.name = fileSafe r2.name := by
  unfold reportPath pathJoin at h
  have h1 := append_left_cancel _ _ _ h
  have h2 := append_right_cancel _ _ _ h1
  have h3 := append_right_cancel _ _ _ h2
  have h4 := append_right_cancel _ _ _ h3
  exact append_left_cancel _ _ _ h4

theorem reportPath_nodup (cfg : Config) (d : String) (reps : List Rep)
    (h : (reps.map (fun r => fileSafe r.name)).Nodup) :
    (reps.map (fun r => reportPath cfg r d)).Nodup := by
  induction reps with
  | nil => exact List.nodup_nil
  | cons r rs ih =>
    rw [List.map_cons, List.nodup_cons] at h ⊢
    refine ⟨?_, ih h.2⟩
    intro hm
    apply h.1
    rw [List.mem_map] at hm ⊢
    obtain ⟨x, hx, hxe⟩ := hm
    exact ⟨x, hx, reportPath_inj cfg d x r hxe⟩

theorem yesterday_sampleNow : yesterdayMMDDYYYY sampleNow = "03/01/2024" :=
  (yesterday_eq_pred ⟨2024, 3, 2⟩ 21600000 (by decide) (by decide) (by decide) (by decide)
    (by decide)).trans (by decide)

/-- The attachments of the alert of the `catch` block hold the log file, and hold the
fatal screenshot exactly when `hasShot`. -/
theorem fatalAlert_attachments (cfg : Config) (fatal : Thrown) (hasShot : Bool) :
    ∃ atts, (fatalAlert cfg fatal hasShot).attachments = some atts ∧
      (⟨basename (LOG_FILE cfg), LOG_FILE cfg⟩ : Attachment) ∈ atts ∧
      ((⟨basename (fatalShotPath cfg), fatalShotPath cfg⟩ : Attachment) ∈ atts ↔
        hasShot = true) := by
  have hne := fatalShot_ne_log cfg
  cases hasShot
  · refine ⟨[⟨basename (LOG_FILE cfg), LOG_FILE cfg⟩], rfl, List.mem_singleton.mpr rfl, ?_⟩
    simp [hne]
  · refine ⟨[⟨basename (LOG_FILE cfg), LOG_FILE cfg⟩,
      ⟨basename (fatalShotPath cfg), fatalShotPath cfg⟩], rfl, by simp, by simp⟩

theorem crashAlert_attachments (cfg : Config) (err : Thrown) :
    (crashAlert cfg err).attachments = some [⟨basename (LOG_FILE cfg), LOG_FILE cfg⟩] := rfl

/-! ### The calls of an iteration name its representative only -/

section
variable {σ : Type} {ops : Op → Bool}

theorem filterControlsRace_frame (c : Ctx σ)
    (hF : ∀ o, namesNobody o = true → ops o = false) : Silent [] ops (filterControlsRace c) := by
  simp only [filterControlsRace, bind_eq, pure_eq]
  repeat' first
    | exact hF _ rfl
    | exact List.not_mem_nil _
    | intro _
    | apply Silent.visibleOrFalse
    | apply Silent.exec
    | apply Silent.query
    | apply Silent.delay
    | apply Silent.log
    | apply Silent.pure
    | apply Silent.throwE
    | apply Silent.settlesFirst
    | apply Silent.forFirst
    | apply Silent.safe
    | apply Silent.whenM
    | apply Silent.orElse
    | apply Silent.ite
    | apply Silent.tryCatch
    | apply Silent.bind

theorem filterBarStep_frame (c : Ctx σ) (loc : String)
    (hF : ∀ o, namesNobody o = true → ops o = false) : Silent [] ops (filterBarStep c loc) := by
  simp only [filterBarStep, bind_eq, pure_eq]
  repeat' first
    | exact hF _ rfl
    | exact List.not_mem_nil _
    | intro _
    | apply Silent.visibleOrFalse
    | apply Silent.exec
    | apply Silent.query
    | apply Silent.delay
    | apply Silent.log
    | apply Silent.pure
    | apply Silent.throwE
    | apply Silent.settlesFirst
    | apply Silent.forFirst
    | apply Silent.safe
    | apply Silent.whenM
    | apply Silent.orElse
    | apply Silent.ite
    | apply Silent.tryCatch
    | apply Silent.bind

theorem clickFilterBar_frame (c : Ctx σ)
    (hF : ∀ o, namesNobody o = true → ops o = false) : Silent [] ops (clickFilterBar c) := by
  simp only [clickFilterBar, bind_eq, pure_eq]
  repeat' first
    | exact hF _ rfl
    | exact List.not_mem_nil _
    | intro _
    | apply filterBarStep_frame c _ hF
    | apply Silent.visibleOrFalse
    | apply Silent.exec
    | apply Silent.query
    | apply Silent.delay
    | apply Silent.log
    | apply Silent.pure
    | apply Silent.throwE
    | apply Silent.settlesFirst
    | apply Silent.forFirst
    | apply Silent.safe
    | apply Silent.whenM
    | apply Silent.orElse
    | apply Silent.ite
    | apply Silent.tryCatch
    | apply Silent.bind

theorem panelRound_frame (c : Ctx σ) (k : Nat)
    (hF : ∀ o, namesNobody o = true → ops o = false) : Silent [] ops (panelRound c k) := by
  simp only [panelRound, bind_eq, pure_eq]
  repeat' first
    | exact hF _ rfl
    | exact List.not_mem_nil _
    | intro _
    | apply clickFilterBar_frame c hF
    | apply filterControlsRace_frame c hF
    | apply Silent.visibleOrFalse
    | apply Silent.exec
    | apply Silent.query
    | apply Silent.delay
    | apply Silent.log
    | apply Silent.pure
    | apply Silent.throwE
    | apply Silent.settlesFirst
    | apply Silent.forFirst
    | apply Silent.safe
    | apply Silent.whenM
    | apply Silent.orElse
    | apply Silent.ite
    | apply Silent.tryCatch
    | apply Silent.bind

theorem ensureFilterPanel_frame (c : Ctx σ)
    (hF : ∀ o, namesNobody o = true → ops o = false) : Silent [] ops (ensureFilterPanel c) := by
  simp only [ensureFilterPanel, bind_eq, pure_eq]
  repeat' first
    | exact hF _ rfl
    | exact List.not_mem_nil _
    | intro _
    | apply panelRound_frame c _ hF
    | apply filterControlsRace_frame c hF
    | apply Silent.visibleOrFalse
    | apply Silent.exec
    | apply Silent.query
    | apply Silent.delay
    | apply Silent.log
    | apply Silent.pure
    | apply Silent.throwE
    | apply Silent.settlesFirst
    | apply Silent.forFirst
    | apply Silent.safe
    | apply Silent.whenM
    | apply Silent.orElse
    | apply Silent.ite
    | apply Silent.tryCatch
    | apply Silent.bind
    | split

theorem fillIfVisible_frame (c : Ctx σ) (loc d a b : String)
    (hF : ∀ o, namesNobody o = true → ops o = false) : Silent [] ops (fillIfVisible c loc d a b) := by
  simp only [fillIfVisible, bind_eq, pure_eq]
  repeat' first
    | exact hF _ rfl
    | exact List.not_mem_nil _
    | intro _
    | apply Silent.visibleOrFalse
    | apply Silent.exec
    | apply Silent.query
    | apply Silent.delay
    | apply Silent.log
    | apply Silent.pure
    | apply Silent.throwE
    | apply Silent.settlesFirst
    | apply Silent.forFirst
    | apply Silent.safe
    | apply Silent.whenM
    | apply Silent.orElse
    | apply Silent.ite
    | apply Silent.tryCatch
    | apply Silent.bind

theorem setStartDate_frame (c : Ctx σ) (d : String)
    (hF : ∀ o, namesNobody o = true → ops o = false) : Silent [] ops (setStartDate c d) := by
  simp only [setStartDate, bind_eq, pure_eq]
  repeat' first
    | exact hF _ rfl
    | exact List.not_mem_nil _
    | intro _
    | apply fillIfVisible_frame c _ _ _ _ hF
    | apply Silent.visibleOrFalse
    | apply Silent.exec
    | apply Silent.query
    | apply Silent.delay
    | apply Silent.log
    | apply Silent.pure
    | apply Silent.throwE
    | apply Silent.settlesFirst
    | apply Silent.forFirst
    | apply Silent.safe
    | apply Silent.whenM
    | apply Silent.orElse
    | apply Silent.ite
    | apply Silent.tryCatch
    | apply Silent.bind

theorem setEndDate_frame (c : Ctx σ) (d : String)
    (hF : ∀ o, namesNobody o = true → ops o = false) : Silent [] ops (setEndDate c d) := by
  simp only [setEndDate, bind_eq, pure_eq]
  repeat' first
    | exact hF _ rfl
    | exact List.not_mem_nil _
    | intro _
    | apply fillIfVisible_frame c _ _ _ _ hF
    | apply Silent.visibleOrFalse
    | apply Silent.exec
    | apply Silent.query
    | apply Silent.delay
    | apply Silent.log
    | apply Silent.pure
    | apply Silent.throwE
    | apply Silent.settlesFirst
    | apply Silent.forFirst
    | apply Silent.safe
    | apply Silent.whenM
    | apply Silent.orElse
    | apply Silent.ite
    | apply Silent.tryCatch
    | apply Silent.bind

theorem dismissCalendar_frame (c : Ctx σ)
    (hF : ∀ o, namesNobody o = true → ops o = false) : Silent [] ops (dismissCalendar c) := by
  simp only [dismissCalendar, bind_eq, pure_eq]
  repeat' first
    | exact hF _ rfl
    | exact List.not_mem_nil _
    | intro _
    | apply Silent.visibleOrFalse
    | apply Silent.exec
    | apply Silent.query
    | apply Silent.delay
    | apply Silent.log
    | apply Silent.pure
    | apply Silent.throwE
    | apply Silent.settlesFirst
    | apply Silent.forFirst
    | apply Silent.safe
    | apply Silent.whenM
    | apply Silent.orElse
    | apply Silent.ite
    | apply Silent.tryCatch
    | apply Silent.bind

theorem setDateInputs_frame (c : Ctx σ) (d : String)
    (hF : ∀ o, namesNobody o = true → ops o = false) : Silent [] ops (setDateInputs c d) := by
  simp only [setDateInputs, bind_eq, pure_eq]
  repeat' first
    | exact hF _ rfl
    | exact List.not_mem_nil _
    | intro _
    | apply setStartDate_frame c _ hF
    | apply setEndDate_frame c _ hF
    | apply dismissCalendar_frame c hF
    | apply Silent.visibleOrFalse
    | apply Silent.exec
    | apply Silent.query
    | apply Silent.delay
    | apply Silent.log
    | apply Silent.pure
    | apply Silent.throwE
    | apply Silent.settlesFirst
    | apply Silent.forFirst
    | apply Silent.safe
    | apply Silent.whenM
    | apply Silent.orElse
    | apply Silent.ite
    | apply Silent.tryCatch
    | apply Silent.bind

theorem applyStep_frame (c : Ctx σ) (loc : String)
    (hF : ∀ o, namesNobody o = true → ops o = false) : Silent [] ops (applyStep c loc) := by
  simp only [applyStep, bind_eq, pure_eq]
  repeat' first
    | exact hF _ rfl
    | exact List.not_mem_nil _
    | intro _
    | apply Silent.visibleOrFalse
    | apply Silent.exec
    | apply Silent.query
    | apply Silent.delay
    | apply Silent.log
    | apply Silent.pure
    | apply Silent.throwE
    | apply Silent.settlesFirst
    | apply Silent.forFirst
    | apply Silent.safe
    | apply Silent.whenM
    | apply Silent.orElse
    | apply Silent.ite
    | apply Silent.tryCatch
    | apply Silent.bind

theorem clickApply_frame (c : Ctx σ)
    (hF : ∀ o, namesNobody o = true → ops o = false) : Silent [] ops (clickApply c) := by
  simp only [clickApply, bind_eq, pure_eq]
  repeat' first
    | exact hF _ rfl
    | exact List.not_mem_nil _
    | intro _
    | apply applyStep_frame c _ hF
    | apply Silent.visibleOrFalse
    | apply Silent.exec
    | apply Silent.query
    | apply Silent.delay
    | apply Silent.log
    | apply Silent.pure
    | apply Silent.throwE
    | apply Silent.settlesFirst
    | apply Silent.forFirst
    | apply Silent.safe
    | apply Silent.whenM
    | apply Silent.orElse
    | apply Silent.ite
    | apply Silent.tryCatch
    | apply Silent.bind
    | split

theorem detailStep_frame (c : Ctx σ) (loc : String)
    (hF : ∀ o, namesNobody o = true → ops o = false) : Silent [] ops (detailStep c loc) := by
  simp only [detailStep, bind_eq, pure_eq]
  repeat' first
    | exact hF _ rfl
    | exact List.not_mem_nil _
    | intro _
    | apply Silent.visibleOrFalse
    | apply Silent.exec
    | apply Silent.query
    | apply Silent.delay
    | apply Silent.log
    | apply Silent.pure
    | apply Silent.throwE
    | apply Silent.settlesFirst
    | apply Silent.forFirst
    | apply Silent.safe
    | apply Silent.whenM
    | apply Silent.orElse
    | apply Silent.ite
    | apply Silent.tryCatch
    | apply Silent.bind

theorem adjustColumns_frame (c : Ctx σ)
    (hF : ∀ o, namesNobody o = true → ops o = false) : Silent [] ops (adjustColumns c) := by
  simp only [adjustColumns, bind_eq, pure_eq]
  repeat' first
    | exact hF _ rfl
    | exact List.not_mem_nil _
    | intro _
    | apply Silent.visibleOrFalse
    | apply Silent.exec
    | apply Silent.query
    | apply Silent.delay
    | apply Silent.log
    | apply Silent.pure
    | apply Silent.throwE
    | apply Silent.settlesFirst
    | apply Silent.forFirst
    | apply Silent.safe
    | apply Silent.whenM
    | apply Silent.orElse
    | apply Silent.ite
    | apply Silent.tryCatch
    | apply Silent.bind

theorem landingRace_frame (c : Ctx σ)
    (hF : ∀ o, namesNobody o = true → ops o = false) : Silent [] ops (landingRace c) := by
  simp only [landingRace, bind_eq, pure_eq]
  repeat' first
    | exact hF _ rfl
    | exact List.not_mem_nil _
    | intro _
    | apply Silent.visibleOrFalse
    | apply Silent.exec
    | apply Silent.query
    | apply Silent.delay
    | apply Silent.log
    | apply Silent.pure
    | apply Silent.throwE
    | apply Silent.settlesFirst
    | apply Silent.forFirst
    | apply Silent.safe
    | apply Silent.whenM
    | apply Silent.orElse
    | apply Silent.ite
    | apply Silent.tryCatch
    | apply Silent.bind

theorem navigateBack_frame (c : Ctx σ)
    (hF : ∀ o, namesNobody o = true → ops o = false) : Silent [] ops (navigateBack c) := by
  simp only [navigateBack, bind_eq, pure_eq]
  repeat' first
    | exact hF _ rfl
    | exact List.not_mem_nil _
    | intro _
    | apply Silent.visibleOrFalse
    | apply Silent.exec
    | apply Silent.query
    | apply Silent.delay
    | apply Silent.log
    | apply Silent.pure
    | apply Silent.throwE
    | apply Silent.settlesFirst
    | apply Silent.forFirst
    | apply Silent.safe
    | apply Silent.whenM
    | apply Silent.orElse
    | apply Silent.ite
    | apply Silent.tryCatch
    | apply Silent.bind

end

section
variable {σ : Type}

theorem namesRep_of_nobody (cfg : Config) (d : String) (rep : Rep) (o : Op)
    (h : namesNobody o = true) : (!namesRep cfg d rep o) = false := by
  cases o <;> first | rfl | cases h

theorem setUser_names (c : Ctx σ) (d : String) (rep : Rep) :
    Silent [] (fun o => !namesRep c.cfg d rep o) (setUser c rep) := by
  have hF := namesRep_of_nobody c.cfg d rep
  simp only [setUser, bind_eq, pure_eq]
  repeat' first
    | exact hF _ rfl
    | exact List.not_mem_nil _
    | intro _
    | apply Silent.visibleOrFalse
    | apply Silent.exec
    | apply Silent.query
    | apply Silent.delay
    | apply Silent.log
    | apply Silent.pure
    | apply Silent.throwE
    | apply Silent.settlesFirst
    | apply Silent.forFirst
    | apply Silent.safe
    | apply Silent.whenM
    | apply Silent.orElse
    | apply Silent.ite
    | apply Silent.tryCatch
    | apply Silent.bind
    | simp [namesRep, repShots, reportMail]

theorem openDetail_names (c : Ctx σ) (d : String) (rep : Rep) :
    Silent [] (fun o => !namesRep c.cfg d rep o) (openDetail c rep) := by
  have hF := namesRep_of_nobody c.cfg d rep
  simp only [openDetail, bind_eq, pure_eq]
  repeat' first
    | exact hF _ rfl
    | exact List.not_mem_nil _
    | intro _
    | apply detailStep_frame c _ hF
    | apply Silent.visibleOrFalse
    | apply Silent.exec
    | apply Silent.query
    | apply Silent.delay
    | apply Silent.log
    | apply Silent.pure
    | apply Silent.throwE
    | apply Silent.settlesFirst
    | apply Silent.forFirst
    | apply Silent.safe
    | apply Silent.whenM
    | apply Silent.orElse
    | apply Silent.ite
    | apply Silent.tryCatch
    | apply Silent.bind
    | simp [namesRep, repShots, reportMail]

theorem verifyLanding_names (c : Ctx σ) (d : String) (rep : Rep) (mx k : Nat) :
    Silent [] (fun o => !namesRep c.cfg d rep o) (verifyLanding c rep mx k) := by
  have hF := namesRep_of_nobody c.cfg d rep
  simp only [verifyLanding, bind_eq, pure_eq]
  repeat' first
    | exact hF _ rfl
    | exact List.not_mem_nil _
    | intro _
    | apply landingRace_frame c hF
    | apply Silent.visibleOrFalse
    | apply Silent.exec
    | apply Silent.query
    | apply Silent.delay
    | apply Silent.log
    | apply Silent.pure
    | apply Silent.throwE
    | apply Silent.settlesFirst
    | apply Silent.forFirst
    | apply Silent.safe
    | apply Silent.whenM
    | apply Silent.orElse
    | apply Silent.ite
    | apply Silent.tryCatch
    | apply Silent.bind
    | simp [namesRep, repShots, reportMail]

theorem landingRound_names (c : Ctx σ) (d : String) (rep : Rep) (mx k : Nat) :
    Silent [] (fun o => !namesRep c.cfg d rep o) (landingRound c rep mx k) := by
  have hF := namesRep_of_nobody c.cfg d rep
  simp only [landingRound, bind_eq, pure_eq]
  repeat' first
    | exact hF _ rfl
    | exact List.not_mem_nil _
    | intro _
    | apply navigateBack_frame c hF
    | apply verifyLanding_names c d rep
    | apply Silent.visibleOrFalse
    | apply Silent.exec
    | apply Silent.query
    | apply Silent.delay
    | apply Silent.log
    | apply Silent.pure
    | apply Silent.throwE
    | apply Silent.settlesFirst
    | apply Silent.forFirst
    | apply Silent.safe
    | apply Silent.whenM
    | apply Silent.orElse
    | apply Silent.ite
    | apply Silent.tryCatch
    | apply Silent.bind

theorem returnToLanding_names (c : Ctx σ) (d : String) (rep : Rep) :
    Silent [] (fun o => !namesRep c.cfg d rep o) (returnToLanding c rep) := by
  have hF := namesRep_of_nobody c.cfg d rep
  simp only [returnToLanding, bind_eq, pure_eq]
  repeat' first
    | exact hF _ rfl
    | exact List.not_mem_nil _
    | intro _
    | apply landingRound_names c d rep
    | apply Silent.visibleOrFalse
    | apply Silent.exec
    | apply Silent.query
    | apply Silent.delay
    | apply Silent.log
    | apply Silent.pure
    | apply Silent.throwE
    | apply Silent.settlesFirst
    | apply Silent.forFirst
    | apply Silent.safe
    | apply Silent.whenM
    | apply Silent.orElse
    | apply Silent.ite
    | apply Silent.tryCatch
    | apply Silent.bind
    | split

theorem returnStep_names (c : Ctx σ) (d : String) (rep : Rep) :
    Silent [] (fun o => !namesRep c.cfg d rep o) (returnStep c rep) :=
  Silent.safe c _ 2 700 (returnToLanding_names c d rep) (List.not_mem_nil _)

theorem reopenFilterPanel_names (c : Ctx σ) (d : String) (rep : Rep) :
    Silent [] (fun o => !namesRep c.cfg d rep o) (reopenFilterPanel c rep) := by
  have hF := namesRep_of_nobody c.cfg d rep
  simp only [reopenFilterPanel, bind_eq, pure_eq]
  repeat' first
    | exact hF _ rfl
    | exact List.not_mem_nil _
    | intro _
    | apply ensureFilterPanel_frame c hF
    | apply Silent.visibleOrFalse
    | apply Silent.exec
    | apply Silent.query
    | apply Silent.delay
    | apply Silent.log
    | apply Silent.pure
    | apply Silent.throwE
    | apply Silent.settlesFirst
    | apply Silent.forFirst
    | apply Silent.safe
    | apply Silent.whenM
    | apply Silent.orElse
    | apply Silent.ite
    | apply Silent.tryCatch
    | apply Silent.bind
    | simp [namesRep, repShots, reportMail]

theorem prepareNextRep_names (c : Ctx σ) (d : String) (rep : Rep) :
    Silent [] (fun o => !namesRep c.cfg d rep o) (prepareNextRep c rep) := by
  have hF := namesRep_of_nobody c.cfg d rep
  simp only [prepareNextRep, bind_eq, pure_eq]
  repeat' first
    | exact hF _ rfl
    | exact List.not_mem_nil _
    | intro _
    | apply returnStep_names c d rep
    | apply reopenFilterPanel_names c d rep
    | apply Silent.visibleOrFalse
    | apply Silent.exec
    | apply Silent.query
    | apply Silent.delay
    | apply Silent.log
    | apply Silent.pure
    | apply Silent.throwE
    | apply Silent.settlesFirst
    | apply Silent.forFirst
    | apply Silent.safe
    | apply Silent.whenM
    | apply Silent.orElse
    | apply Silent.ite
    | apply Silent.tryCatch
    | apply Silent.bind

/-- Every call of the iteration of a representative that chooses a user, takes a
screenshot or sends a mail is about that representative. -/
theorem processRep_names (c : Ctx σ) (d : String) (n i : Nat) (rep : Rep) :
    Silent [] (fun o => !namesRep c.cfg d rep o) (processRep c d n i rep) := by
  have hF := namesRep_of_nobody c.cfg d rep
  simp only [processRep, sendEmail, bind_eq, pure_eq]
  repeat' first
    | exact hF _ rfl
    | exact List.not_mem_nil _
    | intro _
    | apply setDateInputs_frame c _ hF
    | apply setUser_names c d rep
    | apply clickApply_frame c hF
    | apply openDetail_names c d rep
    | apply adjustColumns_frame c hF
    | apply prepareNextRep_names c d rep
    | apply Silent.visibleOrFalse
    | apply Silent.exec
    | apply Silent.query
    | apply Silent.delay
    | apply Silent.log
    | apply Silent.pure
    | apply Silent.throwE
    | apply Silent.settlesFirst
    | apply Silent.forFirst
    | apply Silent.safe
    | apply Silent.whenM
    | apply Silent.orElse
    | apply Silent.ite
    | apply Silent.tryCatch
    | apply Silent.bind
    | simp [namesRep, repShots, reportMail, reportSender]

theorem mem_callsOf (o : Op) (out : List Event) :
    o ∈ callsOf out ↔ ∃ r, Event.op o r ∈ out := by
  unfold callsOf
  rw [List.mem_filterMap]
  constructor
  · rintro ⟨e, he, h⟩
    rcases e with ⟨t, a⟩ | ⟨o1, r⟩ | ms
    · cases h
    · simp only [Option.some.injEq] at h
      subst h
      exact ⟨r, he⟩
    · cases h
  · rintro ⟨r, h⟩
    exact ⟨_, h, rfl⟩

theorem processRep_calls (c : Ctx σ) (d : String) (n i : Nat) (rep : Rep) (w : World σ)
    (o : Op) (h : o ∈ callsOf (processRep c d n i rep w).out) : namesRep c.cfg d rep o = true := by
  obtain ⟨r, hr⟩ := (mem_callsOf o _).mp h
  have := (processRep_names c d n i rep).silent w _ hr
  simpa [silentEvent] using this

theorem repLoop_calls (c : Ctx σ) (d : String) (n : Nat) :
    ∀ (reps : List Rep) (i : Nat) (w : World σ) (o : Op),
      o ∈ callsOf (repLoop c d n i reps w).out → ∃ x ∈ reps, namesRep c.cfg d x o = true := by
  intro reps
  induction reps with
  | nil => intro i w o h; simp [repLoop_nil, callsOf] at h
  | cons r rs ih =>
    intro i w o h
    rw [repLoop_cons, bind_out] at h
    rcases hr : (processRep c d n i r w).res with a | e
    · rw [hr] at h
      simp only [callsOf, List.filterMap_append, List.mem_append] at h
      rcases h with h | h
      · exact ⟨r, List.mem_cons_self _ _, processRep_calls c d n i r w o h⟩
      · obtain ⟨x, hx, hn⟩ := ih (i + 1) _ o h
        exact ⟨x, List.mem_cons_of_mem _ hx, hn⟩
    · rw [hr] at h
      simp only [List.append_nil] at h
      exact ⟨r, List.mem_cons_self _ _, processRep_calls c d n i r w o h⟩

/-- A loop that raises is the complete iterations of the representatives before the one
whose iteration raises, followed by that iteration, and nothing else. -/
theorem repLoop_abort_split (c : Ctx σ) (d : String) (n : Nat) :
    ∀ (reps : List Rep) (i : Nat) (w : World σ) (e : Thrown),
      (repLoop c d n i reps w).res = .throw e →
      ∃ pre r post, reps = pre ++ r :: post ∧
        (repLoop c d n i pre w).res = .ok () ∧
        (processRep c d n (i + pre.length) r (repLoop c d n i pre w).world).res = .throw e ∧
        (repLoop c d n i reps w).out =
          (repLoop c d n i pre w).out ++
            (processRep c d n (i + pre.length) r (repLoop c d n i pre w).world).out := by
  intro reps
  induction reps with
  | nil => intro i w e h; simp [repLoop_nil] at h
  | cons r rs ih =>
    intro i w e h
    rcases hr : (processRep c d n i r w).res with a | e1
    · rw [repLoop_cons, bind_res, hr] at h
      obtain ⟨pre, r2, post, h1, h2, h3, h4⟩ := ih (i + 1) (processRep c d n i r w).world e h
      refine ⟨r :: pre, r2, post, by rw [h1]; rfl, ?_, ?_, ?_⟩
      · rw [repLoop_cons, bind_res, hr]; exact h2
      · have hw : (repLoop c d n i (r :: pre) w).world =
            (repLoop c d n (i + 1) pre (processRep c d n i r w).world).world := by
          rw [repLoop_cons, bind_world, hr]
        have hl : i + (r :: pre).length = i + 1 + pre.length := by
          simp only [List.length_cons]; omega
        rw [hw, hl]; exact h3
      · have hw : (repLoop c d n i (r :: pre) w).world =
            (repLoop c d n (i + 1) pre (processRep c d n i r w).world).world := by
          rw [repLoop_cons, bind_world, hr]
        have hl : i + (r :: pre).length = i + 1 + pre.length := by
          simp only [List.length_cons]; omega
        rw [hw, hl, repLoop_cons, bind_out, hr, h4]
        conv_rhs => rw [repLoop_cons, bind_out, hr]
        simp only [List.append_assoc]
    · rw [repLoop_cons, bind_res, hr] at h
      cases h
      refine ⟨[], r, rs, rfl, rfl, ?_, ?_⟩
      · simpa [repLoop_nil] using hr
      · rw [repLoop_cons, bind_out, hr]
        simp [repLoop_nil]

/-- A loop that raises: what it did and for whom. -/
theorem repLoop_abort_full (c : Ctx σ) (d : String) (n i : Nat) (reps : List Rep) (w : World σ)
    (e : Thrown) (h : (repLoop c d n i reps w).res = .throw e) :
    ∃ pre r post, reps = pre ++ r :: post ∧
      (repLoop c d n i pre w).res = .ok () ∧
      (processRep c d n (i + pre.length) r (repLoop c d n i pre w).world).res = .throw e ∧
      (repLoop c d n i reps w).out =
        (repLoop c d n i pre w).out ++
          (processRep c d n (i + pre.length) r (repLoop c d n i pre w).world).out ∧
      (∀ o ∈ callsOf (repLoop c d n i reps w).out,
        ∃ x ∈ pre ++ [r], namesRep c.cfg d x o = true) ∧
      logArgs visitLine (repLoop c d n i reps w).out =
        (pre ++ [r]).map (fun x => [x.name, x.id]) ∧
      (logArgs setUserLine (repLoop c d n i reps w).out = pre.map (fun x => [x.name, x.id]) ∨
        logArgs setUserLine (repLoop c d n i reps w).out =
          (pre ++ [r]).map (fun x => [x.name, x.id])) ∧
      (logArgs savedLine (repLoop c d n i reps w).out =
          pre.map (fun x => [reportPath c.cfg x d]) ∨
        logArgs savedLine (repLoop c d n i reps w).out =
          (pre ++ [r]).map (fun x => [reportPath c.cfg x d])) ∧
      (mailsSent (repLoop c d n i reps w).out = pre.map (fun x => reportMail c.cfg x d) ∨
        mailsSent (repLoop c d n i reps w).out =
          (pre ++ [r]).map (fun x => reportMail c.cfg x d)) ∧
      mailsSent (repLoop c d n i pre w).out = pre.map (fun x => reportMail c.cfg x d) := by
  obtain ⟨pre, r, post, h1, h2, h3, h4⟩ := repLoop_abort_split c d n reps i w e h
  have hk1 := (repLoop_keys c d n pre i w).1 () h2
  have hp := (processRep_tracks c d n (i + pre.length) r).cut _ e h3
  have hh := processRep_head c d n (i + pre.length) r (repLoop c d n i pre w).world
  have hk : keysOf (repLoop c d n i reps w).out = loopKeys c.cfg d pre ++
      keysOf (processRep c d n (i + pre.length) r (repLoop c d n i pre w).world).out := by
    rw [h4, keysOf_append, hk1]
  refine ⟨pre, r, post, h1, h2, h3, h4, ?_, ?_, ?_, ?_, ?_, (repLoop_complete c d n i pre w h2).2.2.2⟩
  · intro o ho
    rw [h4] at ho
    simp only [callsOf, List.filterMap_append, List.mem_append] at ho
    rcases ho with ho | ho
    · obtain ⟨x, hx, hn⟩ := repLoop_calls c d n pre i w o ho
      exact ⟨x, List.mem_append_left _ hx, hn⟩
    · exact ⟨r, List.mem_append_right _ (List.mem_singleton.mpr rfl),
        processRep_calls c d n _ r _ o ho⟩
  · rw [logArgs_visit, hk]
    rcases prefix_repKeys c.cfg d r _ hp hh with hq | hq | hq | hq <;>
      simp [hq, visitsOf, repKeys, ← visitsOf_loopKeys c.cfg d pre]
  · rw [logArgs_user, hk]
    rcases prefix_repKeys c.cfg d r _ hp hh with hq | hq | hq | hq <;>
      simp [hq, usersOf, repKeys, ← usersOf_loopKeys c.cfg d pre]
  · rw [logArgs_saved, hk]
    rcases prefix_repKeys c.cfg d r _ hp hh with hq | hq | hq | hq <;>
      simp [hq, savedOf, repKeys, ← savedOf_loopKeys c.cfg d pre]
  · rw [mailsSent_keys, hk]
    rcases prefix_repKeys c.cfg d r _ hp hh with hq | hq | hq | hq <;>
      simp [hq, mailsOf, repKeys, ← mailsOf_loopKeys c.cfg d pre]

end

section
variable {σ : Type}

theorem alerts_of_fatal_tail (cfg : Config) (fatal : Thrown) (rs rc rw ra r1 r2 ra2 : Outcome)
    (tail : List Event)
    (h : opEvents tail = fatalCalls cfg fatal rs rc rw ra ++
      [(Op.closeContext, r1), (Op.closeBrowser, r2), (Op.sendMail (crashAlert cfg fatal), ra2)]) :
    alertCalls cfg tail = [fatalAlert cfg fatal rs.isOk, crashAlert cfg fatal] := by
  rw [alertCalls_of_opEvents, h]
  cases rc <;> simp [fatalCalls, Outcome.isOk, fatalAlert, crashAlert]

/-- The alert mails of a run whose `try` block raises. -/
theorem main_fatal_alerts (c : Ctx σ) (reps : List Rep) (now : Int) (w : World σ) (fatal : Thrown)
    (hacq : (acquire c (yesterdayMMDDYYYY now) w).res = .ok ())
    (hbody : (runBody c reps (yesterdayMMDDYYYY now)
      (acquire c (yesterdayMMDDYYYY now) w).world).res = .throw fatal)
    (hfresh : fatalShotPath c.cfg ∉ (runBody c reps (yesterdayMMDDYYYY now)
      (acquire c (yesterdayMMDDYYYY now) w).world).world.files) :
    ∃ rs : Outcome, (Op.screenshot (fatalShotPath c.cfg), rs) ∈ opEvents (main c reps now w).out ∧
      alertCalls c.cfg (main c reps now w).out =
        [fatalAlert c.cfg fatal rs.isOk, crashAlert c.cfg fatal] := by
  obtain ⟨_, tail, rs, rc, rw, ra, r1, r2, ra2, hout, htail⟩ :=
    main_fatal c reps now w fatal hacq hbody hfresh
  refine ⟨rs, ?_, ?_⟩
  · rw [hout, opEvents_append, htail]
    apply List.mem_append_right
    simp [fatalCalls]
  · rw [hout, alertCalls_append, alertCalls_append, (acquire_noAlert c _).alertCalls_eq_nil,
      (runBody_noAlert c reps _).alertCalls_eq_nil,
      alerts_of_fatal_tail c.cfg fatal rs rc rw ra r1 r2 ra2 tail htail]
    rfl

/-! ## The claims -/

/-- C1 (amended): for every list of representatives whose names stay pairwise distinct
once lower-cased and with each run of whitespace replaced by a hyphen, when every page
operation succeeds on its first try the process ends with exit code 0, the loop of `run`
opens one iteration per representative, in list order, the screenshot and mail calls of
the run are the debug screenshot of the filter panel followed, for each representative
in list order, by one report screenshot and one report mail, all successful, the report
files are pairwise distinct, the accepted mails are the report mails, one per
representative, and no alert mail is sent. -/
theorem run_one_report_per_representative (c : Ctx σ) (hA : AllSucceed c) (reps : List Rep)
    (hnames : (reps.map (fun r => fileSafe r.name)).Nodup) (now : Int) (w : World σ) :
    (main c reps now w).res = .ok 0 ∧
      logArgs visitLine (main c reps now w).out = reps.map (fun r => [r.name, r.id]) ∧
      artifacts (main c reps now w).out =
        (Op.screenshot (panelShot c.cfg), Outcome.ok true) ::
          reportArtifacts c.cfg (yesterdayMMDDYYYY now) reps ∧
      (reps.map (fun r => reportPath c.cfg r (yesterdayMMDDYYYY now))).Nodup ∧
      mailsSent (main c reps now w).out =
        reps.map (fun r => reportMail c.cfg r (yesterdayMMDDYYYY now)) ∧
      alertCalls c.cfg (main c reps now w).out = [] := by
  obtain ⟨h1, h2, h3, h4⟩ := main_happy c hA reps now w
  refine ⟨h1, ?_, h3, reportPath_nodup c.cfg _ reps hnames, ?_, h4⟩
  · rw [logArgs_visit, h2, visitsOf_loopKeys]
  · rw [mailsSent_keys, h2, mailsOf_loopKeys]

/-- Witness for C1: two representatives with distinct names, on a page where every
operation succeeds, give exit code 0, two iterations in list order, two distinct report
files, two report mails and no alert mail. -/
theorem run_one_report_per_representative_witness :
    (main happyPage twoReps sampleNow emptyWorld).res = .ok 0 ∧
      logArgs visitLine (main happyPage twoReps sampleNow emptyWorld).out =
        [["Kevin", "200223210"], ["Kevin Sellers", "200229000"]] ∧
      artifacts (main happyPage twoReps sampleNow emptyWorld).out =
        (Op.screenshot (panelShot sampleConfig), Outcome.ok true) ::
          reportArtifacts sampleConfig (yesterdayMMDDYYYY sampleNow) twoReps ∧
      (twoReps.map (fun r => reportPath sampleConfig r (yesterdayMMDDYYYY sampleNow))).Nodup ∧
      mailsSent (main happyPage twoReps sampleNow emptyWorld).out =
        twoReps.map (fun r => reportMail sampleConfig r (yesterdayMMDDYYYY sampleNow)) ∧
      alertCalls sampleConfig (main happyPage twoReps sampleNow emptyWorld).out = [] :=
  run_one_report_per_representative happyPage (fun _ _ => rfl) twoReps (by decide) sampleNow
    emptyWorld

set_option maxRecDepth 100000 in
/-- C1 (counterexample): two representatives with distinct ids and the same name, on a
page where every operation succeeds. The run ends with exit code 0, but both report
screenshots are written to the same path, so only one report file is on disk for the two
representatives. -/
theorem run_same_name_one_file_counterexample :
    (sameNameReps.map (fun r => r.id)).Nodup ∧ AllSucceed happyPage ∧
      (main happyPage sameNameReps sampleNow emptyWorld).res = .ok 0 ∧
      shotsTaken (main happyPage sameNameReps sampleNow emptyWorld).out =
        ["/srv/screenshots/debug-filter-panel.png",
          "/srv/screenshots/call-outcome_kevin_03-01-2024.png",
          "/srv/screenshots/call-outcome_kevin_03-01-2024.png"] ∧
      (main happyPage sameNameReps sampleNow emptyWorld).world.files =
        ["/srv/screenshots/call-outcome_kevin_03-01-2024.png",
          "/srv/screenshots/debug-filter-panel.png",
          "/srv/logs/salesi_2024-03-02T06-00-00-000Z.log"] := by
  refine ⟨by decide, fun _ _ => rfl, ?_, ?_, ?_⟩
  · simp only [main, run, yesterday_sampleNow]; decide!
  · simp only [main, run, yesterday_sampleNow]; decide!
  · simp only [main, run, yesterday_sampleNow]; decide!

end

/-- C2 (amended): for every local calendar date D from 1000-01-02 to 9999-12-31 at run
start, `yesterdayMMDDYYYY` returns the ten-character string MM/DD/YYYY of the calendar
day immediately before D (two-digit month and day, four-digit year), across month, year
and leap-day boundaries. -/
theorem yesterdayMMDDYYYY_is_previous_day (c : CivilDate) (ms : Int) (hv : c.Valid)
    (hy1 : 1000 ≤ c.year) (hy2 : c.year ≤ 9999) (hne : c ≠ ⟨1000, 1, 1⟩)
    (h0 : 0 ≤ ms) (h1 : ms < msPerDay) :
    yesterdayMMDDYYYY (c.toTime ms) = formatMMDDYYYY c.pred ∧
      (yesterdayMMDDYYYY (c.toTime ms)).length = 10 := by
  have hpv := pred_valid c hv
  obtain ⟨hp1, hp2⟩ := pred_year_ge c hv hy1 hne
  have hmax : c.year < maxYear := by unfold maxYear; omega
  have key := yesterday_eq_pred c ms hv (by omega) hmax h0 h1
  have hd31 := (daysInMonth_bounds c.pred.year c.pred.month).2
  rw [padStart_two c.pred.month hpv.1 (by have := hpv.2.1; omega),
    padStart_two c.pred.day hpv.2.2.1 (by have := hpv.2.2.2; omega),
    jsString_natCast, repr_four_digits c.pred.year hp1 (by omega)] at key
  have hfmt : yesterdayMMDDYYYY (c.toTime ms) = formatMMDDYYYY c.pred := by
    rw [key]; rfl
  exact ⟨hfmt, by rw [hfmt]; rfl⟩

/-- Witness for C2: the three dates named in the claim satisfy the hypotheses and give
the strings the claim lists. -/
theorem yesterdayMMDDYYYY_is_previous_day_witness :
    yesterdayMMDDYYYY (CivilDate.toTime ⟨2024, 3, 2⟩ 0) = "03/01/2024" ∧
    yesterdayMMDDYYYY (CivilDate.toTime ⟨2024, 3, 1⟩ 0) = "02/29/2024" ∧
    yesterdayMMDDYYYY (CivilDate.toTime ⟨2024, 1, 1⟩ 0) = "12/31/2023" :=
  ⟨(yesterdayMMDDYYYY_is_previous_day ⟨2024, 3, 2⟩ 0 (by decide) (by decide) (by decide)
      (by decide) (by decide) (by decide)).1.trans (by decide),
   (yesterdayMMDDYYYY_is_previous_day ⟨2024, 3, 1⟩ 0 (by decide) (by decide) (by decide)
      (by decide) (by decide) (by decide)).1.trans (by decide),
   (yesterdayMMDDYYYY_is_previous_day ⟨2024, 1, 1⟩ 0 (by decide) (by decide) (by decide)
      (by decide) (by decide) (by decide)).1.trans (by decide)⟩

/-- C2 (counterexample): on 1000-01-01, a date of the claimed range, the code returns the
nine characters `12/31/999`: the year is not padded, so the result is neither ten
characters long nor the MM/DD/YYYY rendering `12/31/0999` of the previous day. -/
theorem yesterdayMMDDYYYY_year_1000_counterexample :
    CivilDate.Valid ⟨1000, 1, 1⟩ ∧
    yesterdayMMDDYYYY (CivilDate.toTime ⟨1000, 1, 1⟩ 0) = "12/31/999" ∧
    (yesterdayMMDDYYYY (CivilDate.toTime ⟨1000, 1, 1⟩ 0)).length = 9 ∧
    yesterdayMMDDYYYY (CivilDate.toTime ⟨1000, 1, 1⟩ 0) ≠
      formatMMDDYYYY (CivilDate.pred ⟨1000, 1, 1⟩) := by
  have key := yesterday_eq_pred ⟨1000, 1, 1⟩ 0 (by decide) (by decide) (by decide)
    (by decide) (by decide)
  have e : yesterdayMMDDYYYY (CivilDate.toTime ⟨1000, 1, 1⟩ 0) = "12/31/999" :=
    key.trans (by decide)
  refine ⟨by decide, e, ?_, ?_⟩
  · rw [e]; decide
  · rw [e]; decide

section
variable {σ : Type}

/-- C3 (amended): the three ranked-fallback click operations have 5, 3 and 9 candidates.
For each of them and every split of its candidate list: if the candidates before
candidate k are never reported visible, candidate k is reported visible and the click on
candidate k succeeds, the operation clicks candidate k exactly once, clicks no other
candidate and returns true; if no candidate is ever reported visible, it clicks nothing
and returns false. -/
theorem ranked_click_first_visible (c : Ctx σ) (cands : List String) (op : M σ Bool)
    (hop : (cands, op) ∈ rankedOps c) :
    (rankedOps c).map (fun p => p.1.length) = [5, 3, 9] ∧
      (∀ pre loc post w, cands = pre ++ loc :: post → (∀ l ∈ pre, NeverVisible c l) →
        AlwaysVisible c loc → Succeeds c (.click loc) →
        (op w).res = .ok true ∧ clicksOf (op w).out = [loc]) ∧
      ((∀ l ∈ cands, NeverVisible c l) → ∀ w, (op w).res = .ok false ∧ clicksOf (op w).out = []) :=
  ⟨rfl, rankedOps_spec c cands op hop⟩

/-- Witness for C3: on a page where only the second candidate of `clickApply` is
visible, `clickApply` clicks that candidate once and returns true; on a page where
nothing is visible, `clickFilterBar` clicks nothing and returns false. -/
theorem ranked_click_first_visible_witness :
    ((clickApply secondCandidateOnly emptyWorld).res = .ok true ∧
      clicksOf (clickApply secondCandidateOnly emptyWorld).out =
        ["role(button, /^Apply Filters$/i)"]) ∧
    ((clickFilterBar (nothingVisible false) emptyWorld).res = .ok false ∧
      clicksOf (clickFilterBar (nothingVisible false) emptyWorld).out = []) :=
  ⟨(ranked_click_first_visible secondCandidateOnly applyCandidates
      (clickApply secondCandidateOnly) (by simp [rankedOps])).2.1
      ["#ctl00_btnApply"] "role(button, /^Apply Filters$/i)"
      ["input[value=Apply Filters]", "button.apply", ".apply"] emptyWorld rfl
      (fun l hl s => by rw [List.mem_singleton.mp hl]; simp [secondCandidateOnly]) (fun _ => rfl) (fun _ => rfl),
   (ranked_click_first_visible (nothingVisible false) filterBarCandidates
      (clickFilterBar (nothingVisible false)) (by simp [rankedOps])).2.2
      (fun _ _ _ => by simp [nothingVisible]) emptyWorld⟩

/-- C3 (counterexample): the first candidate of `clickFilterBar` is visible but its click
raises. The error is logged, the loop goes on, and the second candidate is clicked as
well: two candidates are clicked. -/
theorem clickFilterBar_failed_click_counterexample :
    AlwaysVisible firstFilterClickFails "#ctl00_divFilter1 >> text(Filter)" ∧
      (clickFilterBar firstFilterClickFails emptyWorld).res = .ok true ∧
      clicksOf (clickFilterBar firstFilterClickFails emptyWorld).out =
        ["#ctl00_divFilter1 >> text(Filter)", ".accordion__title >> hasText(/Filter/i)"] :=
  ⟨fun _ => rfl, by decide, by decide⟩

/-- C4 (amended): for every page on which none of the start-date field, the end-date
field and the apply button is ever reported visible and on which every
`page.waitForTimeout` completes, `ensureFilterPanel` calls `clickFilterBar` exactly 10
times and returns false without raising; before the loop, once the report is open, `run`
raises 'Could not open Filter panel'; between representatives, the block that re-opens
the panel first takes a debug screenshot and raises 'Could not re-open Filter panel for
next rep' when that screenshot succeeds, and raises the error of the screenshot when it
fails. -/
theorem filter_panel_never_opens (c : Ctx σ) (h : PanelHidden c) (hw : WaitsComplete c)
    (reps : List Rep) (d : String) (rep : Rep) (w : World σ) :
    ((ensureFilterPanel c w).res = .ok false ∧
        countLog filterBarLine (ensureFilterPanel c w).out = 10) ∧
      ((openReport c w).res = .ok () →
        (runBody c reps d w).res = .throw (.error "Could not open Filter panel")) ∧
      (Succeeds c (.screenshot (panelFailedShot c.cfg rep)) →
        (reopenFilterPanel c rep w).res =
          .throw (.error "Could not re-open Filter panel for next rep")) ∧
      (∀ m, (c.env.perform (.screenshot (panelFailedShot c.cfg rep))
          (ensureFilterPanel c w).world.ext).1 = .fail m →
        (reopenFilterPanel c rep w).res = .throw (.external m)) := by
  have hr := reopenFilterPanel_hidden c h hw rep w
  refine ⟨ensureFilterPanel_hidden c h hw w, runBody_panel_hidden c h hw reps d w, ?_, ?_⟩
  · intro hs
    have := hs (ensureFilterPanel c w).world.ext
    rcases hp : (c.env.perform (.screenshot (panelFailedShot c.cfg rep))
      (ensureFilterPanel c w).world.ext).1 with v | m
    · rw [hr, hp]
    · rw [hp] at this; cases this
  · intro m hm
    rw [hr, hm]

set_option maxRecDepth 100000 in
/-- Witness for C4: a page on which everything but the three controls of the filter
panel is visible and every call succeeds. -/
theorem filter_panel_never_opens_witness :
    ((ensureFilterPanel (panelStuck false) emptyWorld).res = .ok false ∧
        countLog filterBarLine (ensureFilterPanel (panelStuck false) emptyWorld).out = 10) ∧
      (runBody (panelStuck false) twoReps "03/01/2024" emptyWorld).res =
        .throw (.error "Could not open Filter panel") ∧
      (reopenFilterPanel (panelStuck false) ⟨"Kevin", "200223210"⟩ emptyWorld).res =
        .throw (.error "Could not re-open Filter panel for next rep") :=
  have h := filter_panel_never_opens (panelStuck false)
    ⟨fun _ => by simp [panelStuck], fun _ => by simp [panelStuck], fun _ => by simp [panelStuck]⟩
    (fun _ _ => rfl) twoReps "03/01/2024" ⟨"Kevin", "200223210"⟩ emptyWorld
  ⟨h.1, h.2.1 (by decide!), h.2.2.1 (fun _ => rfl)⟩

set_option maxRecDepth 100000 in
/-- C4 (counterexample): two pages on which the controls of the filter panel are never
reported visible. On a page that has been closed every probe gives false and the wait at
the end of the first round raises: `ensureFilterPanel` raises after one call of
`clickFilterBar` instead of returning false after ten. On a page where only screenshots
raise, the block that re-opens the panel between representatives raises the error of the
debug screenshot, not 'Could not re-open Filter panel for next rep'. -/
theorem filter_panel_raises_counterexample :
    (PanelHidden closedPage ∧
      (ensureFilterPanel closedPage emptyWorld).res =
        .throw (.external "Target page, context or browser has been closed") ∧
      countLog filterBarLine (ensureFilterPanel closedPage emptyWorld).out = 1) ∧
    (PanelHidden (panelStuck true) ∧
      (reopenFilterPanel (panelStuck true) ⟨"Kevin", "200223210"⟩ emptyWorld).res =
        .throw (.external "page crashed")) :=
  ⟨⟨⟨fun _ => by simp [closedPage], fun _ => by simp [closedPage],
      fun _ => by simp [closedPage]⟩, by decide!, by decide!⟩,
    ⟨⟨fun _ => by simp [panelStuck], fun _ => by simp [panelStuck],
      fun _ => by simp [panelStuck]⟩, by decide!⟩⟩

/-- C5: for every error raised inside the `try` block of `run`, when the fatal
screenshot file is not on disk as the `catch` block starts, `run` raises that same error,
and the calls made after the `try` block are, whatever their outcomes: the fatal
screenshot, the read of the page markup, the write of the markup when it was read, the
alert mail, the close of the context and the close of the browser. The attachments of
the alert hold the log file, and hold the fatal screenshot exactly when the screenshot
call succeeded. -/
theorem catch_block_alerts_then_rethrows (c : Ctx σ) (reps : List Rep) (now : Int) (w : World σ)
    (fatal : Thrown)
    (hacq : (acquire c (yesterdayMMDDYYYY now) w).res = .ok ())
    (hbody : (runBody c reps (yesterdayMMDDYYYY now)
      (acquire c (yesterdayMMDDYYYY now) w).world).res = .throw fatal)
    (hfresh : fatalShotPath c.cfg ∉ (runBody c reps (yesterdayMMDDYYYY now)
      (acquire c (yesterdayMMDDYYYY now) w).world).world.files) :
    (run c reps now w).res = .throw fatal ∧
      ∃ tail rs rc rw ra r1 r2,
        (run c reps now w).out =
          (acquire c (yesterdayMMDDYYYY now) w).out ++
            (runBody c reps (yesterdayMMDDYYYY now)
              (acquire c (yesterdayMMDDYYYY now) w).world).out ++ tail ∧
        opEvents tail =
          fatalCalls c.cfg fatal rs rc rw ra ++
            [(Op.closeContext, r1), (Op.closeBrowser, r2)] ∧
        ∃ atts, (fatalAlert c.cfg fatal rs.isOk).attachments = some atts ∧
          (⟨basename (LOG_FILE c.cfg), LOG_FILE c.cfg⟩ : Attachment) ∈ atts ∧
          ((⟨basename (fatalShotPath c.cfg), fatalShotPath c.cfg⟩ : Attachment) ∈ atts ↔
            rs.isOk = true) := by
  obtain ⟨h1, tail, rs, rc, rw, ra, r1, r2, h2, h3⟩ := run_fatal c reps now w fatal hacq hbody hfresh
  exact ⟨h1, tail, rs, rc, rw, ra, r1, r2, h2, h3, fatalAlert_attachments c.cfg fatal rs.isOk⟩

set_option maxRecDepth 100000 in
/-- Witness for C5: nothing is visible, so the report cannot be opened, and screenshots
raise: `run` raises the error of the `try` block. -/
theorem catch_block_alerts_then_rethrows_witness :
    (run (nothingVisible true) twoReps sampleNow emptyWorld).res =
      .throw (.error "Could not open Call Outcome Report from welcome") :=
  (catch_block_alerts_then_rethrows (nothingVisible true) twoReps sampleNow emptyWorld
    (.error "Could not open Call Outcome Report from welcome")
    (by rw [yesterday_sampleNow]; decide!) (by rw [yesterday_sampleNow]; decide!)
    (by rw [yesterday_sampleNow]; decide!)).1

/-- C6: for every list of representatives, if the loop of `run` raises, the list splits
into the representatives before the one whose iteration raised, that one, and those
after it. What the loop did is the complete iterations of the former, in list order,
followed by the iteration that raised, and nothing else: every call that chooses a user,
takes a screenshot or sends a mail is the choice, a screenshot or the report mail of one
of these representatives, none is made for a later one, and an iteration was opened for
these only. Each representative before the one that raised has exactly one `setUser`
line, one saved screenshot and one accepted report mail, in list order; the one that
raised has at most one of each. -/
theorem loop_aborts_on_first_error (c : Ctx σ) (d : String) (reps : List Rep) (w : World σ)
    (e : Thrown) (h : (repLoop c d reps.length 0 reps w).res = .throw e) :
    ∃ pre r post, reps = pre ++ r :: post ∧
      (repLoop c d reps.length 0 pre w).res = .ok () ∧
      (processRep c d reps.length pre.length r
        (repLoop c d reps.length 0 pre w).world).res = .throw e ∧
      (repLoop c d reps.length 0 reps w).out =
        (repLoop c d reps.length 0 pre w).out ++
          (processRep c d reps.length pre.length r
            (repLoop c d reps.length 0 pre w).world).out ∧
      (∀ o ∈ callsOf (repLoop c d reps.length 0 reps w).out,
        ∃ x ∈ pre ++ [r], namesRep c.cfg d x o = true) ∧
      logArgs visitLine (repLoop c d reps.length 0 reps w).out =
        (pre ++ [r]).map (fun x => [x.name, x.id]) ∧
      (logArgs setUserLine (repLoop c d reps.length 0 reps w).out =
          pre.map (fun x => [x.name, x.id]) ∨
        logArgs setUserLine (repLoop c d reps.length 0 reps w).out =
          (pre ++ [r]).map (fun x => [x.name, x.id])) ∧
      (logArgs savedLine (repLoop c d reps.length 0 reps w).out =
          pre.map (fun x => [reportPath c.cfg x d]) ∨
        logArgs savedLine (repLoop c d reps.length 0 reps w).out =
          (pre ++ [r]).map (fun x => [reportPath c.cfg x d])) ∧
      (mailsSent (repLoop c d reps.length 0 reps w).out =
          pre.map (fun x => reportMail c.cfg x d) ∨
        mailsSent (repLoop c d reps.length 0 reps w).out =
          (pre ++ [r]).map (fun x => reportMail c.cfg x d)) ∧
      mailsSent (repLoop c d reps.length 0 pre w).out =
        pre.map (fun x => reportMail c.cfg x d) := by
  have := repLoop_abort_full c d reps.length 0 reps w e h
  simpa only [Nat.zero_add] using this

set_option maxRecDepth 100000 in
/-- Witness for C6: two representatives on a page where the return to the landing page
fails. The loop raises in the iteration of the first one, after its screenshot and its
mail. Its calls that choose a user, take a screenshot or send a mail are, in order: the
choice of the first representative, the report screenshot, the report mail and the three
debug screenshots of the failed return; none is about the second representative. -/
theorem loop_aborts_on_first_error_witness :
    (∃ pre r post, twoReps = pre ++ r :: post ∧
      (∀ o ∈ callsOf (repLoop landingLost "03/01/2024" twoReps.length 0 twoReps emptyWorld).out,
        ∃ x ∈ pre ++ [r], namesRep landingLost.cfg "03/01/2024" x o = true) ∧
      logArgs visitLine (repLoop landingLost "03/01/2024" twoReps.length 0 twoReps emptyWorld).out =
        (pre ++ [r]).map (fun x => [x.name, x.id])) ∧
    (callsOf (repLoop landingLost "03/01/2024" 2 0 twoReps emptyWorld).out).filter
        (fun o => !namesNobody o) =
      [Op.selectOption "#ddUser" "200223210",
        Op.screenshot "/srv/screenshots/call-outcome_kevin_03-01-2024.png",
        Op.sendMail (reportMail sampleConfig ⟨"Kevin", "200223210"⟩ "03/01/2024"),
        Op.screenshot "/srv/screenshots/debug-navigation-failed-Kevin.png",
        Op.screenshot "/srv/screenshots/debug-navigation-failed-Kevin.png",
        Op.screenshot "/srv/screenshots/debug-navigation-failed-Kevin.png"] :=
  have h := loop_aborts_on_first_error landingLost "03/01/2024" twoReps emptyWorld
    (.error "Failed to navigate back to landing page after 5 attempts") (by decide!)
  ⟨h.elim fun pre hp => hp.elim fun r hr => hr.elim fun post hq =>
      ⟨pre, r, post, hq.1, hq.2.2.2.2.1, hq.2.2.2.2.2.1⟩,
    by decide!⟩

/-- C7 (amended): for every run in which an error is raised inside the `try` block of
`run`, the fatal screenshot file not being on disk as the `catch` block starts, the
process ends with exit code 1 and hands exactly two alert mails to the transport: first
the alert of the `catch` block, whose attachments hold the log file and hold the fatal
screenshot exactly when the screenshot call succeeded, then the alert of the top-level
handler, whose only attachment is the log file. -/
theorem fatal_run_two_alerts_exit_one (c : Ctx σ) (reps : List Rep) (now : Int) (w : World σ)
    (fatal : Thrown)
    (hacq : (acquire c (yesterdayMMDDYYYY now) w).res = .ok ())
    (hbody : (runBody c reps (yesterdayMMDDYYYY now)
      (acquire c (yesterdayMMDDYYYY now) w).world).res = .throw fatal)
    (hfresh : fatalShotPath c.cfg ∉ (runBody c reps (yesterdayMMDDYYYY now)
      (acquire c (yesterdayMMDDYYYY now) w).world).world.files) :
    (main c reps now w).res = .ok 1 ∧
      ∃ rs : Outcome,
        (Op.screenshot (fatalShotPath c.cfg), rs) ∈ opEvents (main c reps now w).out ∧
        alertCalls c.cfg (main c reps now w).out =
          [fatalAlert c.cfg fatal rs.isOk, crashAlert c.cfg fatal] ∧
        (∃ atts, (fatalAlert c.cfg fatal rs.isOk).attachments = some atts ∧
          (⟨basename (LOG_FILE c.cfg), LOG_FILE c.cfg⟩ : Attachment) ∈ atts ∧
          ((⟨basename (fatalShotPath c.cfg), fatalShotPath c.cfg⟩ : Attachment) ∈ atts ↔
            rs.isOk = true)) ∧
        (crashAlert c.cfg fatal).attachments =
          some [⟨basename (LOG_FILE c.cfg), LOG_FILE c.cfg⟩] := by
  obtain ⟨rs, h1, h2⟩ := main_fatal_alerts c reps now w fatal hacq hbody hfresh
  exact ⟨(main_fatal c reps now w fatal hacq hbody hfresh).1, rs, h1, h2,
    fatalAlert_attachments c.cfg fatal rs.isOk, rfl⟩

set_option maxRecDepth 100000 in
/-- Witness for C7: two representatives, the first one succeeds and the return to the
landing page toward the second one fails. The process ends with exit code 1; the files
written by screenshot calls are the debug screenshot of the filter panel, one report
screenshot, the three debug screenshots of the failed return and the fatal screenshot;
the accepted mails are one report mail and the two alerts. -/
theorem fatal_run_two_alerts_exit_one_witness :
    (main landingLost twoReps sampleNow emptyWorld).res = .ok 1 ∧
      shotsTaken (main landingLost twoReps sampleNow emptyWorld).out =
        ["/srv/screenshots/debug-filter-panel.png",
          "/srv/screenshots/call-outcome_kevin_03-01-2024.png",
          "/srv/screenshots/debug-navigation-failed-Kevin.png",
          "/srv/screenshots/debug-navigation-failed-Kevin.png",
          "/srv/screenshots/debug-navigation-failed-Kevin.png",
          "/srv/screenshots/FATAL_2024-03-02T06-00-00-000Z.png"] ∧
      (mailsSent (main landingLost twoReps sampleNow emptyWorld).out).map (fun m => m.subject) =
        ["Sales-i Call Outcome Report — Kevin — 03/01/2024",
          "ALERT: Sales-i daily run FAILED (RunID 2024-03-02T06-00-00-000Z)",
          "ALERT: Sales-i script crashed (RunID 2024-03-02T06-00-00-000Z)"] :=
  ⟨(fatal_run_two_alerts_exit_one landingLost twoReps sampleNow emptyWorld
      (.error "Failed to navigate back to landing page after 5 attempts")
      (by rw [yesterday_sampleNow]; decide!) (by rw [yesterday_sampleNow]; decide!)
      (by rw [yesterday_sampleNow]; decide!)).1,
    by simp only [main, run, yesterday_sampleNow]; decide!,
    by simp only [main, run, yesterday_sampleNow]; decide!⟩

set_option maxRecDepth 100000 in
/-- C7 (counterexample): in the run of the claim (two representatives, the return to the
landing page toward the second one fails) two alert mails are handed to the transport,
not one; the second has the log file as its only attachment. -/
theorem fatal_run_alert_count_counterexample :
    alertCalls sampleConfig (main landingLost twoReps sampleNow emptyWorld).out =
      [fatalAlert sampleConfig
          (.error "Failed to navigate back to landing page after 5 attempts") true,
        crashAlert sampleConfig
          (.error "Failed to navigate back to landing page after 5 attempts")] ∧
      (alertCalls sampleConfig (main landingLost twoReps sampleNow emptyWorld).out).length = 2 ∧
      (crashAlert sampleConfig
          (.error "Failed to navigate back to landing page after 5 attempts")).attachments =
        some [⟨"salesi_2024-03-02T06-00-00-000Z.log",
          "/srv/logs/salesi_2024-03-02T06-00-00-000Z.log"⟩] := by
  refine ⟨?_, ?_, by decide⟩
  · simp only [main, run, yesterday_sampleNow]; decide!
  · simp only [main, run, yesterday_sampleNow]; decide!

/-- C8 (amended): the return-to-landing step between two representatives performs at
most 15 navigation rounds, 5 in each of the 3 tries of `safe`; for every page on which
neither header of the landing page is ever reported visible, the clicks on the link and
on the list item succeed and every `page.waitForTimeout` completes, the step raises after
exactly 15 rounds, having called for the debug-navigation-failed screenshot 3 times, once
in the last round of each try. -/
theorem return_to_landing_rounds (c : Ctx σ) (rep : Rep) (w : World σ) :
    countLog navLine (returnStep c rep w).out ≤ 15 ∧
      (LandingHidden c → Succeeds c (.click "role(link, /^Call Outcome Report$/i)") →
        Succeeds c (.click "role(listitem, /Call Outcome Report/i)") → WaitsComplete c →
        (∃ e, (returnStep c rep w).res = .throw e) ∧
          countLog navLine (returnStep c rep w).out = 15 ∧
          shotCalls (returnStep c rep w).out =
            [navFailedShot c.cfg rep, navFailedShot c.cfg rep, navFailedShot c.cfg rep]) :=
  ⟨returnStep_count_le c rep w, returnStep_hidden c rep w⟩

/-- Witness for C8: a page on which the headers of the landing page never become
visible and every call succeeds. -/
theorem return_to_landing_rounds_witness :
    (∃ e, (returnStep landingLost ⟨"Kevin", "200223210"⟩ emptyWorld).res = .throw e) ∧
      countLog navLine (returnStep landingLost ⟨"Kevin", "200223210"⟩ emptyWorld).out = 15 ∧
      shotCalls (returnStep landingLost ⟨"Kevin", "200223210"⟩ emptyWorld).out =
        [navFailedShot sampleConfig ⟨"Kevin", "200223210"⟩,
          navFailedShot sampleConfig ⟨"Kevin", "200223210"⟩,
          navFailedShot sampleConfig ⟨"Kevin", "200223210"⟩] :=
  (return_to_landing_rounds landingLost ⟨"Kevin", "200223210"⟩ emptyWorld).2
    ⟨fun _ => by simp [landingLost], fun _ => by simp [landingLost]⟩ (fun _ => rfl) (fun _ => rfl)
    (fun _ _ => rfl)

set_option maxRecDepth 100000 in
/-- C8 (counterexample): on a page where the headers of the landing page never become
visible, the step raises after 15 navigation rounds, not 5. -/
theorem return_to_landing_fifteen_rounds_counterexample :
    LandingHidden landingLost ∧
      (returnStep landingLost ⟨"Kevin", "200223210"⟩ emptyWorld).res =
        .throw (.error "Failed to navigate back to landing page after 5 attempts") ∧
      countLog navLine (returnStep landingLost ⟨"Kevin", "200223210"⟩ emptyWorld).out = 15 :=
  ⟨⟨fun _ => by simp [landingLost], fun _ => by simp [landingLost]⟩, by decide!, by decide!⟩

/-- C9: for every attempt count n (6 when none is given), `safeGoto` calls `page.goto`
at most n times. When it returns, the last thing it did completed a page load (a
`page.goto` that succeeded, or the wait for the load state that follows a successful
in-page redirect) and nothing before did: it returns at the first completed load. When
it raises, no load was completed and every `page.goto` made raised. If all n `page.goto`
calls and all n in-page redirects were made and none completed a load, it raises the
error of the last `page.goto` call. The only other raise is that of the
`page.waitForTimeout` between a failed `page.goto` and its redirect: fewer than n
redirects were started, that wait is the last thing done and its error is raised. -/
theorem safeGoto_attempts_and_last_error (c : Ctx σ) (url : String) (attempts : Option Nat)
    (waitUntil : Option String) (w : World σ) :
    gotoCount (safeGoto c url attempts waitUntil w).out ≤ attempts.getD 6 ∧
      ((safeGoto c url attempts waitUntil w).res = .ok () →
        ∃ pre e, (safeGoto c url attempts waitUntil w).out = pre ++ [e] ∧
          loaded e = true ∧ ∀ x ∈ pre, loaded x = false) ∧
      (∀ err, (safeGoto c url attempts waitUntil w).res = .throw err →
        (∀ x ∈ (safeGoto c url attempts waitUntil w).out, loaded x = false) ∧
        (gotoErrors (safeGoto c url attempts waitUntil w).out).length =
          gotoCount (safeGoto c url attempts waitUntil w).out) ∧
      ((∀ x ∈ (safeGoto c url attempts waitUntil w).out, loaded x = false) →
        redirectCount (safeGoto c url attempts waitUntil w).out = attempts.getD 6 →
        (safeGoto c url attempts waitUntil w).res =
            .throw (lastGotoError (gotoErrors (safeGoto c url attempts waitUntil w).out)
              .undefined) ∧
          gotoCount (safeGoto c url attempts waitUntil w).out = attempts.getD 6 ∧
          (gotoErrors (safeGoto c url attempts waitUntil w).out).length = attempts.getD 6 ∧
          (0 < attempts.getD 6 →
            ∃ m, (gotoErrors (safeGoto c url attempts waitUntil w).out).getLast? = some m ∧
              (safeGoto c url attempts waitUntil w).res = .throw (.external m))) ∧
      (∀ err, (safeGoto c url attempts waitUntil w).res = .throw err →
        redirectCount (safeGoto c url attempts waitUntil w).out ≠ attempts.getD 6 →
        redirectCount (safeGoto c url attempts waitUntil w).out < attempts.getD 6 ∧
          ∃ mw pre, (safeGoto c url attempts waitUntil w).out =
              pre ++ [Event.op (.waitForTimeout 700) (.fail mw)] ∧
            err = .external mw) := by
  have heq : safeGoto c url attempts waitUntil =
      safeGotoLoop c url (attempts.getD 6) (waitUntil.getD "domcontentloaded")
        (attempts.getD 6) 0 .undefined := rfl
  rw [heq]
  obtain ⟨h1, h2, h3⟩ := safeGotoLoop_spec c url (attempts.getD 6)
    (waitUntil.getD "domcontentloaded") (attempts.getD 6) 0 .undefined w
  generalize safeGotoLoop c url (attempts.getD 6) (waitUntil.getD "domcontentloaded")
    (attempts.getD 6) 0 .undefined w = run at h1 h2 h3 ⊢
  refine ⟨h1, h2, fun err he => ⟨(h3 err he).1, (h3 err he).2.1⟩, ?_, ?_⟩
  · intro hno hred
    rcases hr : run.res with u | err
    · obtain ⟨pre, e, g1, g2, _⟩ := h2 hr
      have := hno e (by rw [g1]; simp)
      rw [g2] at this; cases this
    · obtain ⟨_, k2, k3⟩ := h3 err hr
      rcases k3 with ⟨a1, _, a3⟩ | ⟨mw, pre, _, _, b3⟩
      · refine ⟨by rw [a3], a1, by rw [k2, a1], fun hpos => ?_⟩
        rcases hl : (gotoErrors run.out).getLast? with _ | m
        · rw [List.getLast?_eq_none_iff] at hl
          rw [hl] at k2
          simp only [List.length_nil] at k2
          omega
        · exact ⟨m, rfl, by rw [a3, lastGotoError, hl]⟩
      · omega
  · intro err he hne
    obtain ⟨_, _, k3⟩ := h3 err he
    rcases k3 with ⟨_, a2, _⟩ | ⟨mw, pre, b1, b2, b3⟩
    · exact absurd a2 hne
    · exact ⟨b3, mw, pre, b1, b2⟩

set_option maxRecDepth 100000 in
/-- A run of `safeGoto` on a page that has been closed: the first `page.goto` raises, the
wait that follows raises, and `safeGoto` raises the error of the wait after that single
`page.goto`. -/
theorem safeGoto_on_closed_page :
    (safeGoto closedPage TENANT_WELCOME (some 6) (some "domcontentloaded") emptyWorld).res =
        .throw (.external "Target page, context or browser has been closed") ∧
      callsOf (safeGoto closedPage TENANT_WELCOME (some 6) (some "domcontentloaded")
          emptyWorld).out =
        [Op.goto TENANT_WELCOME (some "domcontentloaded"), Op.waitForTimeout 700] :=
  ⟨by decide!, by decide!⟩

set_option maxRecDepth 100000 in
/-- C10 (failing input): the browser starts and the creation of the browsing context
raises. `run` raises that error having called neither `context.close` nor
`browser.close`: the calls of `run` are the launch and the failed creation of the
context, and the only later call of the process is the alert mail of the top-level
handler. -/
theorem run_leaks_browser_when_context_fails :
    (run contextFails REPS sampleNow emptyWorld).res =
        .throw (.external "browser.newContext: Target closed") ∧
      opEvents (run contextFails REPS sampleNow emptyWorld).out =
        [(Op.launch, .ok true), (Op.newContext, .fail "browser.newContext: Target closed")] ∧
      callsOf (main contextFails REPS sampleNow emptyWorld).out =
        [Op.launch, Op.newContext,
          Op.sendMail (crashAlert sampleConfig (.external "browser.newContext: Target closed"))] := by
  refine ⟨?_, ?_, ?_⟩
  · simp only [run, yesterday_sampleNow]; decide!
  · simp only [run, yesterday_sampleNow]; decide!
  · simp only [main, run, yesterday_sampleNow]; decide!

end

/-! ### The start of the process, the open filter panel, the configured list, the scan -/

theorem truthy_of_missing (v : Option String) (h : Missing v) : truthy v = false := by
  rcases h with h | h <;> subst h <;> rfl

theorem ensureDir_no_transport (dir : String) (dirs : List String) (u k : String) :
    Boot.createTransport u k ∉ (ensureDir dir dirs).1 := by
  unfold ensureDir
  split <;> simp

theorem ensureDir_mem (dir : String) (dirs : List String) : dir ∈ (ensureDir dir dirs).2 := by
  unfold ensureDir
  split
  · assumption
  · exact List.mem_cons_self _ _

theorem ensureDir_subset (dir : String) (dirs : List String) (x : String) (h : x ∈ dirs) :
    x ∈ (ensureDir dir dirs).2 := by
  unfold ensureDir
  split
  · exact h
  · exact List.mem_cons_of_mem _ h

/-- The process whose environment fails the validation. -/
theorem program_invalid {σ : Type} (env : Env σ) (e : ProcessEnv) (outDir logDir runId : String)
    (reps : List Rep) (now : Int) (dirs : List String) (w : World σ)
    (h : (!truthy e.SI_USERNAME || !truthy e.SI_PASSWORD || !truthy e.GMAIL_USER
      || !truthy e.GMAIL_APP_PASS || !truthy e.TO_EMAIL) = true) :
    program env e outDir logDir runId reps now dirs w =
      { boot := (ensureDir outDir dirs).1 ++ (ensureDir logDir (ensureDir outDir dirs).2).1 ++
          [.consoleError missingEnvMessage],
        dirs := (ensureDir logDir (ensureDir outDir dirs).2).2, out := [], world := w,
        code := 1 } := by
  unfold program
  simp only [h, if_true]

theorem filterControlsRace_visible {σ : Type} (c : Ctx σ)
    (h1 : AlwaysVisible c "#start-date") (h2 : AlwaysVisible c "#end-date")
    (h3 : AlwaysVisible c "#ctl00_btnApply") (w : World σ) :
    (filterControlsRace c w).res = .ok true := by
  have g1 := visibleOrFalse_always c _ h1
  have g2 := visibleOrFalse_always c _ h2
  have g3 := visibleOrFalse_always c _ h3
  simp [filterControlsRace, g1, g2, g3]

/-- When the probe that settles first reports its control visible, `ensureFilterPanel`
returns true at once. -/
theorem ensureFilterPanel_short {σ : Type} (c : Ctx σ) (w : World σ)
    (h : (filterControlsRace c
      (log c "  Checking if filter panel is already open..." [] w).world).res = .ok true) :
    (ensureFilterPanel c w).res = .ok true ∧
      countLog filterBarLine (ensureFilterPanel c w).out = 0 ∧
      clicksOf (ensureFilterPanel c w).out = [] := by
  have ho : countLog filterBarLine (filterControlsRace c
        (log c "  Checking if filter panel is already open..." [] w).world).out = 0 ∧
      clicksOf (filterControlsRace c
        (log c "  Checking if filter panel is already open..." [] w).world).out = [] := by
    constructor
    · simp [filterControlsRace, visibleOrFalse_out, visibleOrFalse_res, filterBarLine, isLog]
    · simp [filterControlsRace, visibleOrFalse_out, visibleOrFalse_res]
  simp only [log_world] at h ho
  refine ⟨?_, ?_, ?_⟩
  · simp [ensureFilterPanel, h]
  · have h1 := ho.1
    simp only [filterBarLine] at h1
    simp [ensureFilterPanel, h, h1, filterBarLine, isLog]
  · simp [ensureFilterPanel, h, ho.2]

section
variable {σ : Type}

/-- C11 (amended): if any of the five required environment values (SI_USERNAME,
SI_PASSWORD, GMAIL_USER, GMAIL_APP_PASS, TO_EMAIL) is missing or empty, the process exits
with status 1 after the two directories were created where they did not exist and the
diagnostic was written, and before anything else: no log file is written, no mail
transport is created, no browser is launched and no other effect happens. -/
theorem missing_env_exits_before_run (env : Env σ) (e : ProcessEnv)
    (outDir logDir runId : String) (reps : List Rep) (now : Int) (dirs : List String)
    (w : World σ)
    (h : Missing e.SI_USERNAME ∨ Missing e.SI_PASSWORD ∨ Missing e.GMAIL_USER ∨
      Missing e.GMAIL_APP_PASS ∨ Missing e.TO_EMAIL) :
    (program env e outDir logDir runId reps now dirs w).code = 1 ∧
      (program env e outDir logDir runId reps now dirs w).out = [] ∧
      (program env e outDir logDir runId reps now dirs w).world = w ∧
      (program env e outDir logDir runId reps now dirs w).boot =
        (ensureDir outDir dirs).1 ++ (ensureDir logDir (ensureDir outDir dirs).2).1 ++
          [.consoleError missingEnvMessage] ∧
      (∀ u k, Boot.createTransport u k ∉
        (program env e outDir logDir runId reps now dirs w).boot) ∧
      outDir ∈ (program env e outDir logDir runId reps now dirs w).dirs ∧
      logDir ∈ (program env e outDir logDir runId reps now dirs w).dirs := by
  have hv : (!truthy e.SI_USERNAME || !truthy e.SI_PASSWORD || !truthy e.GMAIL_USER
      || !truthy e.GMAIL_APP_PASS || !truthy e.TO_EMAIL) = true := by
    rcases h with h | h | h | h | h <;> simp [truthy_of_missing _ h]
  rw [program_invalid env e outDir logDir runId reps now dirs w hv]
  refine ⟨rfl, rfl, rfl, rfl, ?_, ?_, ?_⟩
  · intro u k hm
    simp only [List.mem_append, List.mem_singleton] at hm
    rcases hm with (hm | hm) | hm
    · exact ensureDir_no_transport _ _ u k hm
    · exact ensureDir_no_transport _ _ u k hm
    · cases hm
  · exact ensureDir_subset _ _ _ (ensureDir_mem _ _)
  · exact ensureDir_mem _ _

/-- Witness for C11: the recipient is empty and both directories exist: the process
writes the diagnostic and exits with status 1, and nothing else happens. -/
theorem missing_env_exits_before_run_witness :
    (program happyPage.env noRecipientEnv "/srv/screenshots" "/srv/logs"
        "2024-03-02T06-00-00-000Z" REPS sampleNow ["/srv/screenshots", "/srv/logs"]
        emptyWorld).code = 1 ∧
      (program happyPage.env noRecipientEnv "/srv/screenshots" "/srv/logs"
        "2024-03-02T06-00-00-000Z" REPS sampleNow ["/srv/screenshots", "/srv/logs"]
        emptyWorld).out = [] ∧
      (program happyPage.env noRecipientEnv "/srv/screenshots" "/srv/logs"
        "2024-03-02T06-00-00-000Z" REPS sampleNow ["/srv/screenshots", "/srv/logs"]
        emptyWorld).boot = [.consoleError missingEnvMessage] :=
  have h := missing_env_exits_before_run happyPage.env noRecipientEnv "/srv/screenshots"
    "/srv/logs" "2024-03-02T06-00-00-000Z" REPS sampleNow ["/srv/screenshots", "/srv/logs"]
    emptyWorld (Or.inr (Or.inr (Or.inr (Or.inr (Or.inr rfl)))))
  ⟨h.1, h.2.1, h.2.2.2.1.trans (by decide)⟩

/-- C11 (counterexample): no variable is set and neither directory exists. The process
exits with status 1, but both directories have been created before the validation. -/
theorem missing_env_creates_directories_counterexample :
    Missing emptyEnv.SI_USERNAME ∧
      (program happyPage.env emptyEnv "/srv/screenshots" "/srv/logs"
        "2024-03-02T06-00-00-000Z" REPS sampleNow [] emptyWorld).code = 1 ∧
      (program happyPage.env emptyEnv "/srv/screenshots" "/srv/logs"
        "2024-03-02T06-00-00-000Z" REPS sampleNow [] emptyWorld).boot =
        [.mkdir "/srv/screenshots", .mkdir "/srv/logs", .consoleError missingEnvMessage] ∧
      (program happyPage.env emptyEnv "/srv/screenshots" "/srv/logs"
        "2024-03-02T06-00-00-000Z" REPS sampleNow [] emptyWorld).dirs =
        ["/srv/logs", "/srv/screenshots"] := by
  have hp := program_invalid happyPage.env emptyEnv "/srv/screenshots" "/srv/logs"
    "2024-03-02T06-00-00-000Z" REPS sampleNow [] emptyWorld rfl
  rw [hp]
  exact ⟨Or.inl rfl, rfl, by decide, by decide⟩

/-- When the probe that settles first in the race of the three reports its control
visible, and in particular when the start-date field, the end-date field and the apply
button are all visible, `ensureFilterPanel` returns true without calling
`clickFilterBar` and without clicking anything. -/
theorem ensureFilterPanel_already_open (c : Ctx σ) (w : World σ) :
    ((filterControlsRace c
        (log c "  Checking if filter panel is already open..." [] w).world).res = .ok true →
      (ensureFilterPanel c w).res = .ok true ∧
        countLog filterBarLine (ensureFilterPanel c w).out = 0 ∧
        clicksOf (ensureFilterPanel c w).out = []) ∧
    (AlwaysVisible c "#start-date" → AlwaysVisible c "#end-date" →
      AlwaysVisible c "#ctl00_btnApply" →
      (ensureFilterPanel c w).res = .ok true ∧
        countLog filterBarLine (ensureFilterPanel c w).out = 0 ∧
        clicksOf (ensureFilterPanel c w).out = []) :=
  ⟨ensureFilterPanel_short c w,
    fun h1 h2 h3 => ensureFilterPanel_short c w (filterControlsRace_visible c h1 h2 h3 _)⟩

set_option maxRecDepth 100000 in
/-- C12 (failing input): the end-date field and the apply button are visible on entry,
the start-date field is not, and the probes settle in call order. `Promise.race` takes
the value of the probe of the start-date field, which is false: `ensureFilterPanel` does
not return true; it goes through its 10 rounds, calling `clickFilterBar` 10 times, and
returns false. -/
theorem ensureFilterPanel_race_misses_visible_controls :
    AlwaysVisible startDateHidden "#end-date" ∧
      AlwaysVisible startDateHidden "#ctl00_btnApply" ∧
      (ensureFilterPanel startDateHidden emptyWorld).res = .ok false ∧
      countLog filterBarLine (ensureFilterPanel startDateHidden emptyWorld).out = 10 :=
  ⟨fun _ => rfl, fun _ => rfl, by decide!, by decide!⟩

/-- C13: the configured list `REPS` has exactly 14 entries, no two entries share an id,
the lower-cased names with whitespace turned into hyphens are pairwise distinct, and for
every output directory and date string no two entries have the same screenshot path. -/
theorem REPS_ids_and_paths_distinct :
    REPS.length = 14 ∧ (REPS.map (fun r => r.id)).Nodup ∧
      (REPS.map (fun r => fileSafe r.name)).Nodup ∧
      ∀ (cfg : Config) (d : String), (REPS.map (fun r => reportPath cfg r d)).Nodup :=
  ⟨rfl, by decide, by decide, fun cfg d => reportPath_nodup cfg d REPS (by decide)⟩

/-- C14 (failing input): `#ddUser` is not visible and the page has one select control
that lists 'Kevin Sellers' (200229000) before 'Kevin' (200223210). For the
representative Kevin (200223210) the scan stops at the first option whose text contains
'Kevin': `setUser` returns true and the control holds 200229000, not the id of the
representative. -/
theorem setUser_scan_selects_name_match :
    (∃ opt ∈ userSelect.options, opt.value = "200223210") ∧
      scanSelects "200223210" "Kevin" [userSelect] =
        (true, [{ userSelect with value := "200229000" }]) ∧
      (setUser selectsPage ⟨"Kevin", "200223210"⟩ ⟨[userSelect], []⟩).res = .ok true ∧
      (setUser selectsPage ⟨"Kevin", "200223210"⟩ ⟨[userSelect], []⟩).world.ext =
        [{ userSelect with value := "200229000" }] :=
  ⟨⟨⟨"200223210", "Kevin"⟩, by decide, rfl⟩, by decide, by decide, by decide⟩

end

end SalesiDaily
